import Mathlib

/-!
# ShooterGame: the game-instance state machine

A shallow embedding of `Source/ShooterGame/System/ShooterGameInstance.{h,cpp}`.

* The members of `UShooterGameInstance` become the fields of one record. The
  record also carries the delegate lists of the objects the instance registers
  callbacks with, and a chronological `Trace` of every call the instance makes
  into the engine or the online subsystem.
* Everything the code only reads from the engine (is there a viewport, which map
  is loaded, what does the session interface answer) is a field of `Env`.
* A call through an engine pointer is recorded as an event. Where the source
  tests the pointer first, the model branches on `Env`. Where it does not, and
  the world, the game viewport or the first local player can be null, the call
  through the null pointer terminates the process. `UE_LOG` lines are events as
  well; a line of verbosity `Fatal` terminates the process.
* A function that can terminate the process returns `Except`: `error t` carries
  the state `t` in which the process was terminated, and nothing runs after it.
-/

namespace ShooterGame

/-! ## Names, texts and plain data -/

/-- An engine name. The six state names of `namespace ShooterGameInstanceState`
and `NAME_GameSession` are distinct entries; `Other` stands for every other entry
of the name table. -/
inductive FName where
  | None
  | PendingInvite
  | WelcomeScreen
  | MainMenu
  | MessageMenu
  | Playing
  | GameSession
  | Other (Index : Nat)
  deriving DecidableEq, Repr

namespace FName

/-- Text of a name, as used in log lines. -/
def ToString : FName → String
  | None => "None"
  | PendingInvite => "PendingInvite"
  | WelcomeScreen => "WelcomeScreen"
  | MainMenu => "MainMenu"
  | MessageMenu => "MessageMenu"
  | Playing => "Playing"
  | GameSession => "GameSession"
  | Other n => "Name_" ++ toString n

end FName

/-- Display text (`FText`), by its characters. -/
abbrev FText := String

/-- The empty text, `FText::GetEmpty()`. -/
def FText.GetEmpty : FText := ""

/-- `FString::operator==`: the comparison ignores the case of letters. -/
def FString.Equals (a b : String) : Bool :=
  a.data.map Char.toLower == b.data.map Char.toLower

/-- A user identity token (`FUniqueNetId`); a null shared pointer is `none`. -/
abbrev FUniqueNetId := Nat

/-- A delegate registration token. `0` is the default-constructed, invalid one. -/
abbrev FDelegateHandle := Nat

/-- The `EOnlineMode` enumeration of the header. -/
inductive EOnlineMode where
  | Offline
  | LAN
  | Online
  deriving DecidableEq, Repr

/-- The `EOnlineSessionState::Type` values the session interface reports. -/
inductive EOnlineSessionState where
  | NoSession
  | Creating
  | Pending
  | Starting
  | InProgress
  | Ending
  | Ended
  | Destroying
  deriving DecidableEq, Repr

/-- The `EOnJoinSessionCompleteResult::Type` values. -/
inductive EOnJoinSessionCompleteResult where
  | Success
  | SessionIsFull
  | SessionDoesNotExist
  | CouldNotRetrieveAddress
  | AlreadyInSession
  | UnknownError
  deriving DecidableEq, Repr

/-- The part of `FOnlineSessionSettings` the instance touches. -/
structure FOnlineSessionSettings where
  NumPublicConnections : Int
  Settings : List (String × String)
  deriving DecidableEq, Repr

/-- The part of `FOnlineSession` the instance reads. -/
structure FOnlineSession where
  OwningUserId : Option FUniqueNetId
  SessionSettings : FOnlineSessionSettings
  deriving DecidableEq, Repr

/-- A search result, `FOnlineSessionSearchResult`. -/
structure FOnlineSessionSearchResult where
  Session : FOnlineSession
  deriving DecidableEq, Repr

/-- The class `FShooterPendingMessage` of the header. -/
structure FShooterPendingMessage where
  DisplayString : FText
  OKButtonString : FText
  CancelButtonString : FText
  NextState : FName
  PlayerOwner : Option Nat
  deriving DecidableEq, Repr

/-- The class `FShooterPendingInvite` of the header. -/
structure FShooterPendingInvite where
  ControllerId : Int
  UserId : Option FUniqueNetId
  InviteResult : FOnlineSessionSearchResult
  bPrivilegesCheckedAndAllowed : Bool
  deriving DecidableEq, Repr

/-- What the instance reads of a player controller. -/
structure APlayerController where
  IsShooterPlayerController : Bool
  HasShooterCharacterPawn : Bool
  deriving DecidableEq, Repr

/-- A local player. `Id` is the identity of the object (its address). -/
structure ULocalPlayer where
  Id : Nat
  ControllerId : Int
  CachedUniqueNetId : Option FUniqueNetId
  PlayerController : Option APlayerController
  deriving DecidableEq, Repr

/-- The three events of the game session object the instance binds to. Each list
holds the handles of the bindings of this instance, oldest first. -/
structure AShooterGameSession where
  CreatePresenceSessionCompleteEvent : List FDelegateHandle
  JoinSessionCompleteEvent : List FDelegateHandle
  FindSessionsCompleteEvent : List FDelegateHandle
  deriving DecidableEq, Repr

/-- A call made by the instance, or a line it logs. -/
inductive Event where
  | Log (Format : String) (Args : List String)
  | LogWarning (Format : String) (Args : List String)
  | LogFatal (Format : String) (Args : List String)
  | EndState (State : FName)
  | BeginState (State : FName)
  | HideLoadingScreen
  | SetForceDisableSplitscreen (bDisable : Bool)
  | SetUsingMultiplayerFeatures (User : FUniqueNetId) (bUsing : Bool)
  | SetPresence (User : FUniqueNetId) (StatusStr : String) (PresenceData : String)
  | SetAllUserFocusToGameViewport
  | KilledBy (Player : Nat)
  | RemoveLocalPlayer (Player : Nat)
  | Browse (MapName : String)
  | ClientSendRoundEndEvent (Player : Nat) (ElapsedTime : Int)
  | RequestFinishAndExitToMainMenu
  | StartOnlinePrivilegeTask (User : Option FUniqueNetId)
  | CleanupOnlinePrivilegeTask
  | EndSession
  | DestroySession
  | ServerTravel (URL : String)
  | ClientTravel (URL : String)
  | HostSession (User : Option FUniqueNetId) (Settings : FOnlineSessionSettings)
  | HostSessionOfType (User : Option FUniqueNetId) (GameType MapName : String)
      (bIsLAN bIsPresence : Bool)
  | JoinSession (User : Option FUniqueNetId) (SearchResult : FOnlineSessionSearchResult)
  | JoinSessionAtIndex (User : Option FUniqueNetId) (Index : Int)
  | FindSessions (User : Option FUniqueNetId) (bIsLAN bIsPresence : Bool)
  | RegisterLocalPlayer (User : FUniqueNetId) (bJoining : Bool)
  deriving DecidableEq, Repr

/-- Ghost events: `EndState m` and `BeginState m` mark the call of the exit and
of the enter action of state `m`. -/
def Event.IsEndState : Event → Bool
  | Event.EndState _ => true
  | _ => false

/-- See `Event.IsEndState`. -/
def Event.IsBeginState : Event → Bool
  | Event.BeginState _ => true
  | _ => false

/-- An exit or an enter action. -/
def Event.IsStateAction (e : Event) : Bool :=
  e.IsEndState || e.IsBeginState

/-- What a call of `AShooterGameSession::HostSession` or `::JoinSession` does
before it returns: the verdict, and the completions the session broadcasts
synchronously from inside the call (the source expects them: "If any error
occurred in the above, pending state would be set"). -/
structure SessionReply (α : Type) where
  Accepted : Bool
  Completions : List α

/-- Everything the instance reads from the engine during one operation. -/
structure Env where
  /-- Result of `IsDedicatedServerInstance()`. -/
  IsDedicatedServerInstance : Bool
  /-- Result of `FSlateApplication::IsInitialized()`. -/
  SlateInitialized : Bool
  /-- `GetGameViewportClient()`: `none` is null, `some b` a viewport that is a
  `UShooterGameViewportClient` iff `b`. -/
  GameViewportClient : Option Bool
  /-- Whether Slate's game viewport is the shooter viewport's widget. -/
  ViewportIsGameViewport : Bool
  /-- `GetWorld()` and the package name of its persistent level. -/
  WorldMapName : Option String
  /-- Validity of the `FURL` built from the map name. -/
  URLValid : Bool
  /-- Result of `HasAnyFlags(RF_ClassDefaultObject)`. -/
  IsClassDefaultObject : Bool
  /-- Whether `Browse` answers `EBrowseReturnVal::Success`. -/
  BrowseSucceeds : Bool
  /-- The world's `AShooterGameState` and its `ElapsedTime`, if any. -/
  GameState : Option Int
  /-- Whether `Online::GetSubsystem` is non-null. -/
  OnlineSub : Bool
  /-- Whether the session interface is valid. -/
  SessionInterface : Bool
  /-- Whether the presence interface is valid. -/
  PresenceInterface : Bool
  /-- Result of `GetSessionState(NAME_GameSession)`. -/
  SessionState : EOnlineSessionState
  /-- Result of `GetResolvedConnectString`, `none` on failure. -/
  ResolvedConnectString : Option String
  /-- Whether `GetFirstLocalPlayerController()` is non-null. -/
  FirstLocalPlayerController : Bool
  /-- Value of the console variable `ShooterGame.TestEncryption`. -/
  TestEncryption : Int
  /-- The identity interface's `GetUniquePlayerId(ControllerId)`. -/
  UniquePlayerId : Int → Option FUniqueNetId
  /-- What `AShooterGameSession::HostSession` does. -/
  HostSessionReply : SessionReply Bool
  /-- What `AShooterGameSession::JoinSession` does. -/
  JoinSessionReply : SessionReply EOnJoinSessionCompleteResult

/-- `Cast<UShooterGameViewportClient>(GetGameViewportClient()) != nullptr`. -/
def Env.ShooterViewport (env : Env) : Bool :=
  env.GameViewportClient == some true

/-- `ULocalPlayer::GetUniqueNetIdFromCachedControllerId`. -/
def ULocalPlayer.GetUniqueNetIdFromCachedControllerId (env : Env) (p : ULocalPlayer) :
    Option FUniqueNetId :=
  env.UniquePlayerId p.ControllerId

/-- `ULocalPlayer::GetPreferredUniqueNetId`: the cached id when there is one,
else the id paired with the player's controller. -/
def ULocalPlayer.GetPreferredUniqueNetId (env : Env) (p : ULocalPlayer) :
    Option FUniqueNetId :=
  match p.CachedUniqueNetId with
  | some u => some u
  | none => p.GetUniqueNetIdFromCachedControllerId env

/-! ## The game instance -/

/-- The members of `UShooterGameInstance` (header, lines 188-240) that the
modelled functions use, `LocalPlayers` of the base class, and the model state:
`GameSession` is `GetGameSession()` with its delegate lists, the three
`...SessionCompleteDelegates` are the bindings of this instance on the session
interface, `TravelFailureDelegates` those on `GEngine->OnTravelFailure()`,
`NextDelegateId` the next fresh handle and `Trace` the calls made so far. -/
structure UShooterGameInstance where
  WelcomeScreenMap : String
  MainMenuMap : String
  CurrentState : FName
  PendingState : FName
  PendingMessage : FShooterPendingMessage
  PendingInvite : FShooterPendingInvite
  TravelURL : String
  OnlineMode : EOnlineMode
  bPendingEnableSplitscreen : Bool
  bIsLicensed : Bool
  TravelLocalSessionFailureDelegateHandle : FDelegateHandle
  OnJoinSessionCompleteDelegateHandle : FDelegateHandle
  OnSearchSessionsCompleteDelegateHandle : FDelegateHandle
  OnStartSessionCompleteDelegateHandle : FDelegateHandle
  OnEndSessionCompleteDelegateHandle : FDelegateHandle
  OnDestroySessionCompleteDelegateHandle : FDelegateHandle
  OnCreatePresenceSessionCompleteDelegateHandle : FDelegateHandle
  LocalPlayers : List ULocalPlayer
  GameSession : Option AShooterGameSession
  StartSessionCompleteDelegates : List FDelegateHandle
  EndSessionCompleteDelegates : List FDelegateHandle
  DestroySessionCompleteDelegates : List FDelegateHandle
  TravelFailureDelegates : List FDelegateHandle
  NextDelegateId : Nat
  Trace : List Event
  deriving DecidableEq, Repr

namespace UShooterGameInstance

/-- Append one event to the trace. -/
def emit (s : UShooterGameInstance) (e : Event) : UShooterGameInstance :=
  { s with Trace := s.Trace ++ [e] }

/-- Append events to the trace, in order. -/
def emitAll (s : UShooterGameInstance) (es : List Event) : UShooterGameInstance :=
  { s with Trace := s.Trace ++ es }

/-- Runs `f` for the elements of a list in turn, each on the state the one before
returned, and stops when a run terminates the process. -/
def RunEach {α : Type}
    (f : UShooterGameInstance → α → Except UShooterGameInstance UShooterGameInstance) :
    List α → UShooterGameInstance → Except UShooterGameInstance UShooterGameInstance
  | [], s => Except.ok s
  | a :: as, s =>
    match f s a with
    | Except.ok s1 => RunEach f as s1
    | Except.error t => Except.error t

/-- The state the constructor leaves (cpp lines 41-47): `OnlineMode` Online,
licensed, `CurrentState` None; `PendingState` and the messages are
default-constructed, and nothing is registered yet. The two map names come from
the game configuration. -/
def Constructed (WelcomeScreenMap MainMenuMap : String) : UShooterGameInstance where
  WelcomeScreenMap := WelcomeScreenMap
  MainMenuMap := MainMenuMap
  CurrentState := FName.None
  PendingState := FName.None
  PendingMessage := ⟨FText.GetEmpty, FText.GetEmpty, FText.GetEmpty, FName.None, none⟩
  PendingInvite := ⟨-1, none, ⟨⟨none, ⟨0, []⟩⟩⟩, false⟩
  TravelURL := ""
  OnlineMode := EOnlineMode.Online
  bPendingEnableSplitscreen := false
  bIsLicensed := true
  TravelLocalSessionFailureDelegateHandle := 0
  OnJoinSessionCompleteDelegateHandle := 0
  OnSearchSessionsCompleteDelegateHandle := 0
  OnStartSessionCompleteDelegateHandle := 0
  OnEndSessionCompleteDelegateHandle := 0
  OnDestroySessionCompleteDelegateHandle := 0
  OnCreatePresenceSessionCompleteDelegateHandle := 0
  LocalPlayers := []
  GameSession := none
  StartSessionCompleteDelegates := []
  EndSessionCompleteDelegates := []
  DestroySessionCompleteDelegates := []
  TravelFailureDelegates := []
  NextDelegateId := 1
  Trace := []

/-- The default-constructed invite, `FShooterPendingInvite()` (header line 43);
the invite result is default-constructed too. -/
def DefaultPendingInvite : FShooterPendingInvite :=
  ⟨-1, none, ⟨⟨none, ⟨0, []⟩⟩⟩, false⟩

/-! ### Requests and queries (cpp lines 247-261, 390-400) -/

/-- `UShooterGameInstance::GetInitialState`. -/
def GetInitialState (_s : UShooterGameInstance) : FName :=
  FName.MainMenu

/-- `UShooterGameInstance::GotoState`. -/
def GotoState (s : UShooterGameInstance) (NewState : FName) : UShooterGameInstance :=
  { s.emit (Event.Log "GotoState: NewState: %s" [NewState.ToString]) with
    PendingState := NewState }

/-- `UShooterGameInstance::GotoInitialState`. -/
def GotoInitialState (s : UShooterGameInstance) : UShooterGameInstance :=
  s.GotoState s.GetInitialState

/-- `UShooterGameInstance::SetPendingInvite`. -/
def SetPendingInvite (s : UShooterGameInstance) (InPendingInvite : FShooterPendingInvite) :
    UShooterGameInstance :=
  { s with PendingInvite := InPendingInvite }

/-- `UGameInstance::GetFirstGamePlayer`: the first local player, or null. -/
def GetFirstGamePlayer (s : UShooterGameInstance) : Option ULocalPlayer :=
  s.LocalPlayers.head?

/-! ### Helpers of the enter and exit actions -/

/-- `UShooterGameInstance::UpdateUsingMultiplayerFeatures` (cpp 1430-1447). -/
def UpdateUsingMultiplayerFeatures (env : Env) (s : UShooterGameInstance)
    (bIsUsingMultiplayerFeatures : Bool) : UShooterGameInstance :=
  if env.OnlineSub then
    s.emitAll (s.LocalPlayers.filterMap fun LocalPlayer =>
      (LocalPlayer.GetPreferredUniqueNetId env).map fun PlayerId =>
        Event.SetUsingMultiplayerFeatures PlayerId bIsUsingMultiplayerFeatures)
  else s

/-- `UShooterGameInstance::SetOnlineMode` (cpp 1424-1428). -/
def SetOnlineMode (env : Env) (s : UShooterGameInstance) (InOnlineMode : EOnlineMode) :
    UShooterGameInstance :=
  UpdateUsingMultiplayerFeatures env { s with OnlineMode := InOnlineMode }
    (InOnlineMode == EOnlineMode.Online)

/-- `UShooterGameInstance::GetOnlineMode` (header line 130). -/
def GetOnlineMode (s : UShooterGameInstance) : EOnlineMode :=
  s.OnlineMode

/-- `UShooterGameInstance::RemoveExistingLocalPlayer` (cpp 1326-1341). The
engine's `RemoveLocalPlayer` takes the player object out of `LocalPlayers`. -/
def RemoveExistingLocalPlayer (s : UShooterGameInstance) (ExistingPlayer : ULocalPlayer) :
    UShooterGameInstance :=
  let s1 :=
    match ExistingPlayer.PlayerController with
    | some PC => if PC.HasShooterCharacterPawn then s.emit (Event.KilledBy ExistingPlayer.Id) else s
    | none => s
  { s1.emit (Event.RemoveLocalPlayer ExistingPlayer.Id) with
    LocalPlayers := s1.LocalPlayers.filter fun p => p.Id != ExistingPlayer.Id }

/-- The `while` loop of `RemoveSplitScreenPlayers`, at most `fuel` rounds. -/
def RemoveSplitScreenPlayersLoop : Nat → UShooterGameInstance → UShooterGameInstance
  | 0, s => s
  | fuel + 1, s =>
    if s.LocalPlayers.length > 1 then
      match s.LocalPlayers.getLast? with
      | some PlayerToRemove =>
        RemoveSplitScreenPlayersLoop fuel (s.RemoveExistingLocalPlayer PlayerToRemove)
      | none => s
    else s

/-- `UShooterGameInstance::RemoveSplitScreenPlayers` (cpp 1343-1352). Every
round removes at least the last player, so `LocalPlayers.length` rounds are
enough for the loop to reach its exit test. -/
def RemoveSplitScreenPlayers (s : UShooterGameInstance) : UShooterGameInstance :=
  RemoveSplitScreenPlayersLoop s.LocalPlayers.length s

/-- `UShooterGameInstance::LoadFrontEndMap` (cpp 318-352). The map names are
compared with `FString::operator==`. A failed `Browse` is logged with verbosity
`Fatal`, which terminates the process: the assignment `bSuccess = false` after
that line is never reached, so the function does not return false. -/
def LoadFrontEndMap (env : Env) (s : UShooterGameInstance) (MapName : String) :
    Except UShooterGameInstance (Bool × UShooterGameInstance) :=
  let bAlreadyLoaded : Bool :=
    match env.WorldMapName with
    | some CurrentMapName => FString.Equals CurrentMapName MapName
    | none => false
  if bAlreadyLoaded then Except.ok (true, s)
  else if env.URLValid && !env.IsClassDefaultObject then
    let s1 := s.emit (Event.Browse MapName)
    if env.BrowseSucceeds then Except.ok (true, s1)
    else Except.error (s1.emit (Event.LogFatal
      "Failed to enter %s: %s. Please check the log for errors." [MapName]))
  else Except.ok (true, s)

/-- `UShooterGameInstance::SetPresenceForLocalPlayer` (cpp 530-547), for the
player object instead of its index. -/
def SetPresenceForLocalPlayer (env : Env) (s : UShooterGameInstance)
    (LocalPlayer : ULocalPlayer) (StatusStr PresenceData : String) : UShooterGameInstance :=
  if env.PresenceInterface then
    match LocalPlayer.GetPreferredUniqueNetId env with
    | some UserId => s.emit (Event.SetPresence UserId StatusStr PresenceData)
    | none => s
  else s

/-- `UShooterGameInstance::SetPresenceForLocalPlayers` (cpp 522-528). -/
def SetPresenceForLocalPlayers (env : Env) (s : UShooterGameInstance)
    (StatusStr PresenceData : String) : UShooterGameInstance :=
  s.LocalPlayers.foldl (fun acc p => SetPresenceForLocalPlayer env acc p StatusStr PresenceData) s

/-- `UShooterGameInstance::RemoveNetworkFailureHandlers` (cpp 757-764). -/
def RemoveNetworkFailureHandlers (s : UShooterGameInstance) : UShooterGameInstance :=
  if s.TravelFailureDelegates ≠ [] then
    { s with TravelFailureDelegates :=
        s.TravelFailureDelegates.filter fun h => h != s.TravelLocalSessionFailureDelegateHandle }
  else s

/-- `UShooterGameInstance::AddNetworkFailureHandlers` (cpp 766-773). -/
def AddNetworkFailureHandlers (s : UShooterGameInstance) : UShooterGameInstance :=
  if s.TravelFailureDelegates = [] then
    { s with
      TravelLocalSessionFailureDelegateHandle := s.NextDelegateId
      TravelFailureDelegates := [s.NextDelegateId]
      NextDelegateId := s.NextDelegateId + 1 }
  else s

/-- `UShooterGameInstance::StartOnlinePrivilegeTask` (cpp 1598-1601): the body is
empty; the call is recorded. -/
def StartOnlinePrivilegeTask (s : UShooterGameInstance) (UserId : Option FUniqueNetId) :
    UShooterGameInstance :=
  s.emit (Event.StartOnlinePrivilegeTask UserId)

/-- `UShooterGameInstance::CleanupOnlinePrivilegeTask` (cpp 1603-1606): the body
is empty; the call is recorded. -/
def CleanupOnlinePrivilegeTask (s : UShooterGameInstance) : UShooterGameInstance :=
  s.emit Event.CleanupOnlinePrivilegeTask

/-- `UShooterGameInstance::CleanupSessionOnReturnToMenu` (cpp 700-746). -/
def CleanupSessionOnReturnToMenu (env : Env) (s : UShooterGameInstance) :
    UShooterGameInstance :=
  if env.OnlineSub && env.SessionInterface then
    let s1 := s.emit (Event.Log "Session %s is '%s'" [FName.GameSession.ToString])
    match env.SessionState with
    | EOnlineSessionState.InProgress =>
      let s2 := s1.emit (Event.Log "Ending session %s on return to main menu"
        [FName.GameSession.ToString])
      { s2.emit Event.EndSession with
        OnEndSessionCompleteDelegateHandle := s2.NextDelegateId
        EndSessionCompleteDelegates := s2.EndSessionCompleteDelegates ++ [s2.NextDelegateId]
        NextDelegateId := s2.NextDelegateId + 1 }
    | EOnlineSessionState.Ending =>
      let s2 := s1.emit (Event.Log "Waiting for session %s to end on return to main menu"
        [FName.GameSession.ToString])
      { s2 with
        OnEndSessionCompleteDelegateHandle := s2.NextDelegateId
        EndSessionCompleteDelegates := s2.EndSessionCompleteDelegates ++ [s2.NextDelegateId]
        NextDelegateId := s2.NextDelegateId + 1 }
    | EOnlineSessionState.Ended | EOnlineSessionState.Pending =>
      let s2 := s1.emit (Event.Log "Destroying session %s on return to main menu"
        [FName.GameSession.ToString])
      { s2.emit Event.DestroySession with
        OnDestroySessionCompleteDelegateHandle := s2.NextDelegateId
        DestroySessionCompleteDelegates :=
          s2.DestroySessionCompleteDelegates ++ [s2.NextDelegateId]
        NextDelegateId := s2.NextDelegateId + 1 }
    | EOnlineSessionState.Starting | EOnlineSessionState.Creating =>
      let s2 := s1.emit (Event.Log
        "Waiting for session %s to start, and then we will end it to return to main menu"
        [FName.GameSession.ToString])
      { s2 with
        OnStartSessionCompleteDelegateHandle := s2.NextDelegateId
        StartSessionCompleteDelegates := s2.StartSessionCompleteDelegates ++ [s2.NextDelegateId]
        NextDelegateId := s2.NextDelegateId + 1 }
    | _ => s1
  else s

/-! ### Enter and exit actions (cpp lines 474-678) -/

/-- `FText::IsEmpty`. -/
def FTextIsEmpty (t : FText) : Bool :=
  decide (t = FText.GetEmpty)

/-- `UShooterGameInstance::BeginPendingInviteState`. -/
def BeginPendingInviteState (env : Env) (s : UShooterGameInstance) :
    Except UShooterGameInstance UShooterGameInstance :=
  let s0 := s.emit (Event.BeginState FName.PendingInvite)
  match LoadFrontEndMap env s0 s0.MainMenuMap with
  | Except.ok r =>
    if r.1 then Except.ok (r.2.StartOnlinePrivilegeTask r.2.PendingInvite.UserId)
    else Except.ok (r.2.GotoState FName.WelcomeScreen)
  | Except.error t => Except.error t

/-- `UShooterGameInstance::EndPendingInviteState`. -/
def EndPendingInviteState (s : UShooterGameInstance) : UShooterGameInstance :=
  (s.emit (Event.EndState FName.PendingInvite)).CleanupOnlinePrivilegeTask

/-- `LocalPlayer->SetCachedUniqueNetId(Id)` on the first local player. -/
def SetFirstPlayerCachedUniqueNetId (s : UShooterGameInstance) (Id : Option FUniqueNetId) :
    UShooterGameInstance :=
  match s.LocalPlayers with
  | [] => s
  | p :: ps => { s with LocalPlayers := { p with CachedUniqueNetId := Id } :: ps }

/-- `LocalPlayer->SetControllerId(Id)` on the first local player. -/
def SetFirstPlayerControllerId (s : UShooterGameInstance) (Id : Int) : UShooterGameInstance :=
  match s.LocalPlayers with
  | [] => s
  | p :: ps => { s with LocalPlayers := { p with ControllerId := Id } :: ps }

/-- `UShooterGameInstance::BeginWelcomeScreenState`. The source calls
`SetCachedUniqueNetId` through the result of `GetFirstGamePlayer()` and
`SetForceDisableSplitscreen` through the result of `GetGameViewportClient()`
without testing either pointer (cpp 502-503, 510). -/
def BeginWelcomeScreenState (env : Env) (s : UShooterGameInstance) :
    Except UShooterGameInstance UShooterGameInstance :=
  let s0 := s.emit (Event.BeginState FName.WelcomeScreen)
  let s1 := SetOnlineMode env s0 EOnlineMode.Offline
  let s2 := s1.RemoveSplitScreenPlayers
  match LoadFrontEndMap env s2 s2.WelcomeScreenMap with
  | Except.ok r =>
    match r.2.GetFirstGamePlayer with
    | some _ =>
      let s4 := r.2.SetFirstPlayerCachedUniqueNetId none
      if env.GameViewportClient.isSome then
        Except.ok (s4.emit (Event.SetForceDisableSplitscreen true))
      else Except.error s4
    | none => Except.error r.2
  | Except.error t => Except.error t

/-- `UShooterGameInstance::EndWelcomeScreenState`: the body is commented out. -/
def EndWelcomeScreenState (s : UShooterGameInstance) : UShooterGameInstance :=
  s.emit (Event.EndState FName.WelcomeScreen)

/-- `UShooterGameInstance::BeginMainMenuState`. -/
def BeginMainMenuState (env : Env) (s : UShooterGameInstance) :
    Except UShooterGameInstance UShooterGameInstance :=
  let s0 := s.emit (Event.BeginState FName.MainMenu)
  let s1 := if env.ShooterViewport then s0.emit Event.HideLoadingScreen else s0
  let s2 := SetOnlineMode env s1 EOnlineMode.Offline
  let s3 := if env.GameViewportClient.isSome then
    s2.emit (Event.SetForceDisableSplitscreen true) else s2
  let s4 := s3.RemoveSplitScreenPlayers
  match LoadFrontEndMap env s4 s4.MainMenuMap with
  | Except.ok r =>
    let s5 := r.2
    let s6 :=
      match s5.GetFirstGamePlayer with
      | some _ => (s5.SetFirstPlayerControllerId 0).SetFirstPlayerCachedUniqueNetId
          (env.UniquePlayerId 0)
      | none => s5
    Except.ok s6.RemoveNetworkFailureHandlers
  | Except.error t => Except.error t

/-- `UShooterGameInstance::EndMainMenuState`: the body is commented out. -/
def EndMainMenuState (s : UShooterGameInstance) : UShooterGameInstance :=
  s.emit (Event.EndState FName.MainMenu)

/-- `UShooterGameInstance::BeginMessageMenuState`. -/
def BeginMessageMenuState (env : Env) (s : UShooterGameInstance) : UShooterGameInstance :=
  let s0 := s.emit (Event.BeginState FName.MessageMenu)
  if FTextIsEmpty s0.PendingMessage.DisplayString then
    (s0.emit (Event.LogWarning
      "UShooterGameInstance::BeginMessageMenuState: Display string is empty" [])).GotoInitialState
  else
    let s1 := if env.ShooterViewport then s0.emit Event.HideLoadingScreen else s0
    { s1 with PendingMessage := { s1.PendingMessage with DisplayString := FText.GetEmpty } }

/-- `UShooterGameInstance::EndMessageMenuState`: the body is commented out. -/
def EndMessageMenuState (s : UShooterGameInstance) : UShooterGameInstance :=
  s.emit (Event.EndState FName.MessageMenu)

/-- `UShooterGameInstance::BeginPlayingState`. -/
def BeginPlayingState (env : Env) (s : UShooterGameInstance) : UShooterGameInstance :=
  let s0 := s.emit (Event.BeginState FName.Playing)
  let s1 := { s0 with bPendingEnableSplitscreen := true }
  let s2 := SetPresenceForLocalPlayers env s1 "In Game" "InGame"
  s2.emit Event.SetAllUserFocusToGameViewport

/-- `UShooterGameInstance::EndPlayingState`. The first statement calls
`SetForceDisableSplitscreen` through the result of `GetGameViewportClient()`
without testing the pointer (cpp 649). -/
def EndPlayingState (env : Env) (s : UShooterGameInstance) :
    Except UShooterGameInstance UShooterGameInstance :=
  let s0 := s.emit (Event.EndState FName.Playing)
  if env.GameViewportClient.isSome then
    let s1 := s0.emit (Event.SetForceDisableSplitscreen true)
    let s2 := SetPresenceForLocalPlayers env s1 "In Menu" "OnMenu"
    match env.WorldMapName, env.GameState with
    | some _, some ElapsedTime =>
      let s3 := s2.emitAll (s2.LocalPlayers.filterMap fun p =>
        match p.PlayerController with
        | some PC =>
          if PC.IsShooterPlayerController then
            some (Event.ClientSendRoundEndEvent p.Id ElapsedTime)
          else none
        | none => none)
      Except.ok (s3.emit Event.RequestFinishAndExitToMainMenu)
    | _, _ => Except.ok (CleanupSessionOnReturnToMenu env s2)
  else Except.error s0

/-! ### The commit (cpp lines 402-472) -/

/-- `UShooterGameInstance::EndCurrentState`. -/
def EndCurrentState (env : Env) (s : UShooterGameInstance) (_NextState : FName) :
    Except UShooterGameInstance UShooterGameInstance :=
  let r : Except UShooterGameInstance UShooterGameInstance :=
    if s.CurrentState = FName.PendingInvite then Except.ok s.EndPendingInviteState
    else if s.CurrentState = FName.WelcomeScreen then Except.ok s.EndWelcomeScreenState
    else if s.CurrentState = FName.MainMenu then Except.ok s.EndMainMenuState
    else if s.CurrentState = FName.MessageMenu then Except.ok s.EndMessageMenuState
    else if s.CurrentState = FName.Playing then EndPlayingState env s
    else Except.ok s
  match r with
  | Except.ok s1 => Except.ok { s1 with CurrentState := FName.None }
  | Except.error t => Except.error t

/-- `UShooterGameInstance::BeginNewState`. -/
def BeginNewState (env : Env) (s : UShooterGameInstance) (NewState _PrevState : FName) :
    Except UShooterGameInstance UShooterGameInstance :=
  let r : Except UShooterGameInstance UShooterGameInstance :=
    if NewState = FName.PendingInvite then BeginPendingInviteState env s
    else if NewState = FName.WelcomeScreen then BeginWelcomeScreenState env s
    else if NewState = FName.MainMenu then BeginMainMenuState env s
    else if NewState = FName.MessageMenu then Except.ok (BeginMessageMenuState env s)
    else if NewState = FName.Playing then Except.ok (BeginPlayingState env s)
    else Except.ok s
  match r with
  | Except.ok s1 => Except.ok { s1 with CurrentState := NewState }
  | Except.error t => Except.error t

/-- `UShooterGameInstance::MaybeChangeState`. `PendingState` is read again for
each of the two calls, as in the source. -/
def MaybeChangeState (env : Env) (s : UShooterGameInstance) :
    Except UShooterGameInstance UShooterGameInstance :=
  if s.PendingState ≠ s.CurrentState ∧ s.PendingState ≠ FName.None then
    let OldState := s.CurrentState
    match EndCurrentState env s s.PendingState with
    | Except.ok s1 =>
      match BeginNewState env s1 s1.PendingState OldState with
      | Except.ok s2 => Except.ok { s2 with PendingState := FName.None }
      | Except.error t => Except.error t
    | Except.error t => Except.error t
  else Except.ok s

/-! ### The message gate (cpp lines 263-316, 385-388) -/

/-- `UShooterGameInstance::ShowMessageThenGotoState`. -/
def ShowMessageThenGotoState (env : Env) (s : UShooterGameInstance)
    (Message OKButtonString CancelButtonString : FText) (NewState : FName)
    (OverrideExisting : Bool) (PlayerOwner : Option Nat) : UShooterGameInstance :=
  let s0 := s.emit (Event.Log "ShowMessageThenGotoState: Message: %s, NewState: %s"
    [Message, NewState.ToString])
  let bAtWelcomeScreen : Bool :=
    s0.PendingState = FName.WelcomeScreen || s0.CurrentState = FName.WelcomeScreen
  if bAtWelcomeScreen then
    s0.emit (Event.Log
      "ShowMessageThenGotoState: Ignoring due to higher message priority in queue (at welcome screen)."
      [])
  else
    let bAlreadyAtMessageMenu : Bool :=
      s0.PendingState = FName.MessageMenu || s0.CurrentState = FName.MessageMenu
    let bAlreadyAtDestState : Bool :=
      s0.PendingState = NewState || s0.CurrentState = NewState
    if bAlreadyAtMessageMenu && s0.PendingMessage.NextState = NewState && !OverrideExisting then
      s0.emit (Event.Log
        "ShowMessageThenGotoState: Ignoring due to higher message priority in queue (check 1)."
        [])
    else if bAlreadyAtMessageMenu && s0.PendingMessage.NextState = FName.WelcomeScreen then
      s0.emit (Event.Log
        "ShowMessageThenGotoState: Ignoring due to higher message priority in queue (check 2)."
        [])
    else if bAlreadyAtDestState && !OverrideExisting then
      s0.emit (Event.Log
        "ShowMessageThenGotoState: Ignoring due to higher message priority in queue (check 3)"
        [])
    else
      let s1 := { s0 with PendingMessage :=
        { DisplayString := Message
          OKButtonString := OKButtonString
          CancelButtonString := CancelButtonString
          NextState := NewState
          PlayerOwner := PlayerOwner } }
      if s1.CurrentState = FName.MessageMenu then
        let s2 := s1.emit (Event.Log "ShowMessageThenGotoState: Forcing new message" [])
        BeginMessageMenuState env s2.EndMessageMenuState
      else
        s1.GotoState FName.MessageMenu

/-- `UShooterGameInstance::ShowMessageThenGoMain`; `OverrideExisting` and
`PlayerOwner` take the defaults of the declaration (header line 121). -/
def ShowMessageThenGoMain (env : Env) (s : UShooterGameInstance)
    (Message OKButtonString CancelButtonString : FText) : UShooterGameInstance :=
  ShowMessageThenGotoState env s Message OKButtonString CancelButtonString FName.MainMenu
    true none

/-! ### Session operations and their completions (cpp lines 780-1068, 1613-1637) -/

/-- `UShooterGameInstance::GetQuickMatchUrl`. -/
def GetQuickMatchUrl : String :=
  "/Game/Maps/Highrise?game=TDM?listen"

/-- `UShooterGameInstance::InternalTravelToSession` (`SessionName` is always
`NAME_GameSession`). -/
def InternalTravelToSession (env : Env) (s : UShooterGameInstance) (_SessionName : FName) :
    UShooterGameInstance :=
  if !env.FirstLocalPlayerController then
    ShowMessageThenGoMain env s.RemoveNetworkFailureHandlers "Invalid Player Controller" "OK"
      FText.GetEmpty
  else if !env.OnlineSub then
    ShowMessageThenGoMain env s.RemoveNetworkFailureHandlers "OSS missing" "OK" FText.GetEmpty
  else
    match (if env.SessionInterface then env.ResolvedConnectString else none) with
    | none =>
      (ShowMessageThenGoMain env s "Travel to Session failed." "OK" FText.GetEmpty).emit
        (Event.LogWarning "Failed to travel to session upon joining it" [])
    | some URL =>
      s.emit (Event.ClientTravel
        (if env.TestEncryption ≠ 0 then URL ++ "?EncryptionToken=1" else URL))

/-- `UShooterGameInstance::FinishJoinSession`. -/
def FinishJoinSession (env : Env) (s : UShooterGameInstance)
    (Result : EOnJoinSessionCompleteResult) : UShooterGameInstance :=
  if Result ≠ EOnJoinSessionCompleteResult.Success then
    let ReturnReason : FText :=
      match Result with
      | EOnJoinSessionCompleteResult.SessionIsFull => "Game is full."
      | EOnJoinSessionCompleteResult.SessionDoesNotExist => "Game no longer exists."
      | _ => "Join failed."
    ShowMessageThenGoMain env s.RemoveNetworkFailureHandlers ReturnReason "OK" FText.GetEmpty
  else
    InternalTravelToSession env s FName.GameSession

/-- `UShooterGameInstance::OnRegisterJoiningLocalPlayerComplete`. -/
def OnRegisterJoiningLocalPlayerComplete (env : Env) (s : UShooterGameInstance)
    (_PlayerId : FUniqueNetId) (Result : EOnJoinSessionCompleteResult) : UShooterGameInstance :=
  FinishJoinSession env s Result

/-- The splitscreen registration shared by the two completion handlers:
`Sessions->RegisterLocalPlayer` for `LocalPlayers[1]`, when the session interface
and that player's id are valid. -/
def RegisterSplitscreenPlayer (env : Env) (s : UShooterGameInstance) (bJoining : Bool) :
    UShooterGameInstance :=
  match s.LocalPlayers.get? 1 with
  | some Player =>
    match (if env.OnlineSub && env.SessionInterface then Player.GetPreferredUniqueNetId env
      else none) with
    | some UserId => s.emit (Event.RegisterLocalPlayer UserId bJoining)
    | none => s
  | none => s

/-- `UShooterGameInstance::OnJoinSessionComplete`. -/
def OnJoinSessionComplete (env : Env) (s : UShooterGameInstance)
    (Result : EOnJoinSessionCompleteResult) : UShooterGameInstance :=
  let s1 :=
    match s.GameSession with
    | some GameSession =>
      { s with GameSession := some { GameSession with
          JoinSessionCompleteEvent := GameSession.JoinSessionCompleteEvent.filter
            fun h => h != s.OnJoinSessionCompleteDelegateHandle } }
    | none => s
  if Result = EOnJoinSessionCompleteResult.Success ∧ s1.LocalPlayers.length > 1 then
    RegisterSplitscreenPlayer env s1 true
  else
    FinishJoinSession env s1 Result

/-- `UShooterGameInstance::FinishSessionCreation`. The server travel is called
through the result of `GetWorld()` without testing the pointer (cpp 1623). -/
def FinishSessionCreation (env : Env) (s : UShooterGameInstance)
    (Result : EOnJoinSessionCompleteResult) :
    Except UShooterGameInstance UShooterGameInstance :=
  if Result = EOnJoinSessionCompleteResult.Success then
    if env.WorldMapName.isSome then Except.ok (s.emit (Event.ServerTravel s.TravelURL))
    else Except.error s
  else
    Except.ok (ShowMessageThenGoMain env s "Failed to create session." "OK" FText.GetEmpty)

/-- `UShooterGameInstance::OnRegisterLocalPlayerComplete`. -/
def OnRegisterLocalPlayerComplete (env : Env) (s : UShooterGameInstance)
    (_PlayerId : FUniqueNetId) (Result : EOnJoinSessionCompleteResult) :
    Except UShooterGameInstance UShooterGameInstance :=
  FinishSessionCreation env s Result

/-- `UShooterGameInstance::OnCreatePresenceSessionComplete`. -/
def OnCreatePresenceSessionComplete (env : Env) (s : UShooterGameInstance)
    (_SessionName : FName) (bWasSuccessful : Bool) :
    Except UShooterGameInstance UShooterGameInstance :=
  match s.GameSession with
  | some GameSession =>
    let s1 := { s with GameSession := some { GameSession with
      CreatePresenceSessionCompleteEvent := GameSession.CreatePresenceSessionCompleteEvent.filter
        fun h => h != s.OnCreatePresenceSessionCompleteDelegateHandle } }
    if bWasSuccessful ∧ s1.LocalPlayers.length > 1 then
      Except.ok (RegisterSplitscreenPlayer env s1 false)
    else
      FinishSessionCreation env s1
        (if bWasSuccessful then EOnJoinSessionCompleteResult.Success
         else EOnJoinSessionCompleteResult.UnknownError)
  | none => Except.ok s

/-- A broadcast of the game session's join-complete event from inside a session
call: the bindings are visited newest first, and a binding still registered at
its turn runs `OnJoinSessionComplete`. -/
def BroadcastJoinSessionComplete (env : Env) (s : UShooterGameInstance)
    (Result : EOnJoinSessionCompleteResult) : UShooterGameInstance :=
  match s.GameSession with
  | some GameSession =>
    GameSession.JoinSessionCompleteEvent.reverse.foldl (fun acc h =>
      match acc.GameSession with
      | some g => if h ∈ g.JoinSessionCompleteEvent then OnJoinSessionComplete env acc Result
        else acc
      | none => acc) s
  | none => s

/-- A broadcast of the game session's create-complete event, as
`BroadcastJoinSessionComplete`; it ends when a handler terminates the process. -/
def BroadcastCreatePresenceSessionComplete (env : Env) (s : UShooterGameInstance)
    (bWasSuccessful : Bool) : Except UShooterGameInstance UShooterGameInstance :=
  match s.GameSession with
  | some GameSession =>
    RunEach (fun acc h =>
      match acc.GameSession with
      | some g => if h ∈ g.CreatePresenceSessionCompleteEvent then
          OnCreatePresenceSessionComplete env acc FName.GameSession bWasSuccessful
        else Except.ok acc
      | none => Except.ok acc) GameSession.CreatePresenceSessionCompleteEvent.reverse s
  | none => Except.ok s

/-- `UShooterGameInstance::HostQuickSession`. The local `HostSettings` (game
mode, map name, 16 connections) is built by the source but the call passes
`SessionSettings`, so only the latter reaches the session. -/
def HostQuickSession (env : Env) (s : UShooterGameInstance) (LocalPlayer : ULocalPlayer)
    (SessionSettings : FOnlineSessionSettings) :
    Except UShooterGameInstance (Bool × UShooterGameInstance) :=
  match s.GameSession with
  | some GameSession =>
    let s1 := { s with
      OnCreatePresenceSessionCompleteDelegateHandle := s.NextDelegateId
      GameSession := some { GameSession with
        CreatePresenceSessionCompleteEvent :=
          GameSession.CreatePresenceSessionCompleteEvent ++ [s.NextDelegateId] }
      NextDelegateId := s.NextDelegateId + 1
      TravelURL := GetQuickMatchUrl }
    let s2 := s1.emit (Event.HostSession (LocalPlayer.GetPreferredUniqueNetId env) SessionSettings)
    match RunEach (fun acc b => BroadcastCreatePresenceSessionComplete env acc b)
        env.HostSessionReply.Completions s2 with
    | Except.ok s3 =>
      if env.HostSessionReply.Accepted then
        if s3.PendingState = s3.CurrentState ∨ s3.PendingState = FName.None then
          Except.ok (true, s3.GotoState FName.Playing)
        else Except.ok (false, s3)
      else Except.ok (false, s3)
    | Except.error t => Except.error t
  | none => Except.ok (false, s)

/-- `UShooterGameInstance::JoinSession`, the overload for a search result. -/
def JoinSession (env : Env) (s : UShooterGameInstance) (LocalPlayer : ULocalPlayer)
    (SearchResult : FOnlineSessionSearchResult) : Bool × UShooterGameInstance :=
  match s.GameSession with
  | some GameSession =>
    let s0 := s.AddNetworkFailureHandlers
    let s1 := { s0 with
      OnJoinSessionCompleteDelegateHandle := s0.NextDelegateId
      GameSession := some { GameSession with
        JoinSessionCompleteEvent := GameSession.JoinSessionCompleteEvent ++ [s0.NextDelegateId] }
      NextDelegateId := s0.NextDelegateId + 1 }
    let s2 := s1.emit (Event.JoinSession (LocalPlayer.GetPreferredUniqueNetId env) SearchResult)
    let s3 := env.JoinSessionReply.Completions.foldl
      (fun acc r => BroadcastJoinSessionComplete env acc r) s2
    if env.JoinSessionReply.Accepted then
      if s3.PendingState = s3.CurrentState ∨ s3.PendingState = FName.None then
        (true, s3.GotoState FName.Playing)
      else (false, s3)
    else (false, s3)
  | none => (false, s)

/-! ### The periodic driver (cpp lines 1103-1162) -/

/-- `UShooterGameInstance::Tick`. -/
def Tick (env : Env) (s : UShooterGameInstance) :
    Except UShooterGameInstance (Bool × UShooterGameInstance) :=
  if env.IsDedicatedServerInstance then Except.ok (true, s)
  else if env.SlateInitialized && env.ShooterViewport && !env.ViewportIsGameViewport then
    Except.ok (true, s)
  else
    match MaybeChangeState env s with
    | Except.ok s1 =>
      if s1.PendingInvite.UserId.isSome && s1.PendingInvite.bPrivilegesCheckedAndAllowed
          && s1.CurrentState = FName.PendingInvite then
        if env.OnlineSub && env.SessionInterface then
          if env.SessionState = EOnlineSessionState.NoSession then
            let r2 : Except UShooterGameInstance UShooterGameInstance :=
              match s1.GetFirstGamePlayer with
              | some _ =>
                let s3 := s1.SetFirstPlayerControllerId s1.PendingInvite.ControllerId
                let s4 := s3.SetFirstPlayerCachedUniqueNetId s3.PendingInvite.UserId
                let s5 := SetOnlineMode env s4 EOnlineMode.Online
                match s5.GetFirstGamePlayer with
                | some NewPlayerOwner =>
                  let bIsLocalPlayerHost : Bool :=
                    s5.PendingInvite.UserId.isSome
                    && s5.PendingInvite.InviteResult.Session.OwningUserId.isSome
                    && s5.PendingInvite.UserId
                      = s5.PendingInvite.InviteResult.Session.OwningUserId
                  if bIsLocalPlayerHost then
                    (HostQuickSession env s5 NewPlayerOwner
                      s5.PendingInvite.InviteResult.Session.SessionSettings).map Prod.snd
                  else
                    Except.ok (JoinSession env s5 NewPlayerOwner s5.PendingInvite.InviteResult).2
                | none => Except.ok s5
              | none => Except.ok s1
            match r2 with
            | Except.ok s2 =>
              Except.ok (true, { s2 with PendingInvite := { s2.PendingInvite with UserId := none } })
            | Except.error t => Except.error t
          else Except.ok (true, s1)
        else Except.ok (true, s1)
      else Except.ok (true, s1)
    | Except.error t => Except.error t

end UShooterGameInstance

namespace FString

/-- `FString::Len`. -/
def Len (s : String) : Int :=
  s.data.length

/-- Whether `sub` is found at the head of `s`, ignoring the case of letters. -/
def StartsWithIgnoreCase : List Char → List Char → Bool
  | [], _ => true
  | _ :: _, [] => false
  | a :: sub, b :: s => a.toLower == b.toLower && StartsWithIgnoreCase sub s

/-- Index of the first occurrence of `sub` in `s`, counted from `i`, or
`INDEX_NONE` (-1). -/
def FindFrom (sub : List Char) : List Char → Nat → Int
  | [], _ => -1
  | c :: s, i => if StartsWithIgnoreCase sub (c :: s) then i else FindFrom sub s (i + 1)

/-- `FString::Find(SubStr)` with its default arguments: the search ignores case
and starts at the front; the result is `INDEX_NONE` (-1) when there is no
occurrence. -/
def Find (s SubStr : String) : Int :=
  FindFrom SubStr.data s.data 0

/-- `FString::Contains(SubStr)` with its default arguments. -/
def Contains (s SubStr : String) : Bool :=
  Find s SubStr != -1

/-- `FMath::Clamp` on integers. -/
def Clamp (x lo hi : Int) : Int :=
  if x < lo then lo else if x < hi then x else hi

/-- `FString::RightChop(Count)`: the string without its first `Count`
characters, `Count` clamped to the length. -/
def RightChop (s : String) (Count : Int) : String :=
  ⟨s.data.drop (Clamp Count 0 (Len s)).toNat⟩

/-- `FString::LeftChop(Count)`: the string without its last `Count` characters,
the remaining length clamped to the length. -/
def LeftChop (s : String) (Count : Int) : String :=
  ⟨s.data.take (Clamp (Len s - Count) 0 (Len s)).toNat⟩

end FString

namespace UShooterGameInstance

/-- The map name `HostGame` derives from a travel URL (cpp lines 852-855);
`HostQuickSession` computes the same expression on the quick-match URL (cpp
lines 797-799). -/
def MapNameOfTravelURL (TravelURL : String) : String :=
  let MapNameSubStr := "/Game/Maps/"
  let ChoppedMapName := FString.RightChop TravelURL (FString.Len MapNameSubStr)
  FString.LeftChop ChoppedMapName
    (FString.Len ChoppedMapName - FString.Find ChoppedMapName "?game")

/-- `UShooterGameInstance::HostGame`. The last argument of the session's
`HostSession`, `AShooterGameSession::DEFAULT_NUM_PLAYERS`, is a constant and is
not recorded in the event. In the offline branch the server travel is called
through the result of `GetWorld()` without testing the pointer (cpp 835). -/
def HostGame (env : Env) (s : UShooterGameInstance) (LocalPlayer : ULocalPlayer)
    (GameType InTravelURL : String) :
    Except UShooterGameInstance (Bool × UShooterGameInstance) :=
  if s.GetOnlineMode = EOnlineMode.Offline then
    let s1 := s.GotoState FName.Playing
    let s2 := { s1 with TravelURL := InTravelURL }
    if env.WorldMapName.isSome then Except.ok (true, s2.emit (Event.ServerTravel s2.TravelURL))
    else Except.error s2
  else
    match s.GameSession with
    | some GameSession =>
      let s1 := { s with
        OnCreatePresenceSessionCompleteDelegateHandle := s.NextDelegateId
        GameSession := some { GameSession with
          CreatePresenceSessionCompleteEvent :=
            GameSession.CreatePresenceSessionCompleteEvent ++ [s.NextDelegateId] }
        NextDelegateId := s.NextDelegateId + 1
        TravelURL := InTravelURL }
      let bIsLanMatch := FString.Contains InTravelURL "?bIsLanMatch"
      let MapName := MapNameOfTravelURL s1.TravelURL
      let s2 := s1.emit (Event.HostSessionOfType (LocalPlayer.GetPreferredUniqueNetId env)
        GameType MapName bIsLanMatch true)
      match RunEach (fun acc b => BroadcastCreatePresenceSessionComplete env acc b)
          env.HostSessionReply.Completions s2 with
      | Except.ok s3 =>
        if env.HostSessionReply.Accepted then
          if s3.PendingState = s3.CurrentState ∨ s3.PendingState = FName.None then
            Except.ok (true, s3.GotoState FName.Playing)
          else Except.ok (false, s3)
        else Except.ok (false, s3)
      | Except.error t => Except.error t
    | none => Except.ok (false, s)

/-- `UShooterGameInstance::JoinSession`, the overload for an index into the
search results. -/
def JoinSessionAtIndex (env : Env) (s : UShooterGameInstance) (LocalPlayer : ULocalPlayer)
    (SessionIndexInSearchResults : Int) : Bool × UShooterGameInstance :=
  match s.GameSession with
  | some GameSession =>
    let s0 := s.AddNetworkFailureHandlers
    let s1 := { s0 with
      OnJoinSessionCompleteDelegateHandle := s0.NextDelegateId
      GameSession := some { GameSession with
        JoinSessionCompleteEvent := GameSession.JoinSessionCompleteEvent ++ [s0.NextDelegateId] }
      NextDelegateId := s0.NextDelegateId + 1 }
    let s2 := s1.emit (Event.JoinSessionAtIndex (LocalPlayer.GetPreferredUniqueNetId env)
      SessionIndexInSearchResults)
    let s3 := env.JoinSessionReply.Completions.foldl
      (fun acc r => BroadcastJoinSessionComplete env acc r) s2
    if env.JoinSessionReply.Accepted then
      if s3.PendingState = s3.CurrentState ∨ s3.PendingState = FName.None then
        (true, s3.GotoState FName.Playing)
      else (false, s3)
    else (false, s3)
  | none => (false, s)

end UShooterGameInstance

/-! ### Searching, travelling and the end of a session (cpp lines 680-698, 1071-1101, 1449-1456) -/

namespace UShooterGameInstance

/-- `UShooterGameInstance::OnSearchSessionsComplete`. -/
def OnSearchSessionsComplete (s : UShooterGameInstance) (_bWasSuccessful : Bool) :
    UShooterGameInstance :=
  match s.GameSession with
  | some Session =>
    { s with GameSession := some { Session with
        FindSessionsCompleteEvent := Session.FindSessionsCompleteEvent.filter
          fun h => h != s.OnSearchSessionsCompleteDelegateHandle } }
  | none => s

/-- `UShooterGameInstance::FindSessions`. `RemoveAll(this)` empties the list of
this instance's bindings before the new one is added. The session's `FindSessions`
returns nothing and is recorded as an event. A null `PlayerOwner` fails the
`check` of the source; the model follows the `if` that comes after it. -/
def FindSessions (env : Env) (s : UShooterGameInstance) (PlayerOwner : Option ULocalPlayer)
    (bIsDedicatedServer bFindLAN : Bool) : Bool × UShooterGameInstance :=
  match PlayerOwner with
  | some Player =>
    match s.GameSession with
    | some GameSession =>
      let s1 := { s with
        OnSearchSessionsCompleteDelegateHandle := s.NextDelegateId
        GameSession := some { GameSession with FindSessionsCompleteEvent := [s.NextDelegateId] }
        NextDelegateId := s.NextDelegateId + 1 }
      (true, s1.emit (Event.FindSessions (Player.GetPreferredUniqueNetId env) bFindLAN
        (!bIsDedicatedServer)))
    | none => (false, s)
  | none => (false, s)

/-- `UShooterGameInstance::TravelToSession`. -/
def TravelToSession (env : Env) (s : UShooterGameInstance) (SessionName : FName) :
    UShooterGameInstance :=
  InternalTravelToSession env (s.AddNetworkFailureHandlers.GotoState FName.Playing) SessionName

/-- `UShooterGameInstance::OnEndSessionComplete`. -/
def OnEndSessionComplete (env : Env) (s : UShooterGameInstance) (SessionName : FName)
    (bWasSuccessful : Bool) : UShooterGameInstance :=
  let s0 := s.emit (Event.Log
    "UShooterGameInstance::OnEndSessionComplete: Session=%s bWasSuccessful=%s"
    [SessionName.ToString, if bWasSuccessful then "true" else "false"])
  let s1 :=
    if env.OnlineSub && env.SessionInterface then
      { s0 with
        StartSessionCompleteDelegates := s0.StartSessionCompleteDelegates.filter
          fun h => h != s0.OnStartSessionCompleteDelegateHandle
        EndSessionCompleteDelegates := s0.EndSessionCompleteDelegates.filter
          fun h => h != s0.OnEndSessionCompleteDelegateHandle
        DestroySessionCompleteDelegates := s0.DestroySessionCompleteDelegates.filter
          fun h => h != s0.OnDestroySessionCompleteDelegateHandle }
    else s0
  CleanupSessionOnReturnToMenu env s1

end UShooterGameInstance

/-! ### The winner of a free-for-all match (ShooterGame_FreeForAll.cpp, lines 12-37) -/

namespace AShooterGame_FreeForAll

/-- The three locals of `DetermineMatchWinner`. Scores are `float`s in the
source; a score is modelled by the rational number it denotes, so that the two
comparisons of the loop are exact (not-a-number scores are left out).
`NumBestPlayers` never exceeds the number of players and cannot overflow. -/
structure BestSoFar where
  BestScore : ℚ
  BestPlayer : Int
  NumBestPlayers : Nat
deriving DecidableEq

/-- The body of the loop for player `i` with score `PlayerScore`. -/
def Step (b : BestSoFar) (i : Nat) (PlayerScore : ℚ) : BestSoFar :=
  if b.BestScore < PlayerScore then ⟨PlayerScore, i, 1⟩
  else if b.BestScore = PlayerScore then { b with NumBestPlayers := b.NumBestPlayers + 1 }
  else b

/-- The loop over the scores of `PlayerArray` that are left, from index `i` on. -/
def Loop : List ℚ → Nat → BestSoFar → BestSoFar
  | [], _, b => b
  | PlayerScore :: rest, i, b => Loop rest (i + 1) (Step b i PlayerScore)

/-- `AShooterGame_FreeForAll::DetermineMatchWinner`, as the new value of
`WinnerPlayerState`: `some i` for the player at index `i`, `none` for `NULL`. The
engine constant `MIN_flt`, the initial `BestScore`, is a parameter. When
`NumBestPlayers` is 1 the source reads `PlayerArray[BestPlayer]`; an index outside
the array is the error, carrying the index. -/
def DetermineMatchWinner (MIN_flt : ℚ) (PlayerScores : List ℚ) : Except Int (Option Nat) :=
  let b := Loop PlayerScores 0 ⟨MIN_flt, -1, 0⟩
  if b.NumBestPlayers = 1 then
    if 0 ≤ b.BestPlayer ∧ b.BestPlayer < PlayerScores.length then
      Except.ok (some b.BestPlayer.toNat)
    else Except.error b.BestPlayer
  else Except.ok none

end AShooterGame_FreeForAll

/-! ### The health pickup (ShooterPickup_Health.cpp, lines 8-37) -/

/-- What the health pickup reads and writes of an `AShooterCharacter`: the
`float` member `Health`, modelled by the rational number it denotes, and the
value of `GetMaxHealth()`, an `int32`. -/
structure AShooterCharacter where
  Health : ℚ
  MaxHealth : Int
deriving DecidableEq

namespace AShooterPickup_Health

/-- The `int32` that a result of 32-bit arithmetic denotes (two's complement). -/
def ToInt32 (x : Int) : Int :=
  (x + 2 ^ 31) % 2 ^ 32 - 2 ^ 31

/-- Truncation toward zero. -/
def Trunc (x : ℚ) : Int :=
  if 0 ≤ x then ⌊x⌋ else ⌈x⌉

/-- `FMath::TruncToInt` of a `float`: the truncated value when it is an `int32`,
and otherwise `INT_MIN`, the result of the conversion instruction for a value
out of range. -/
def TruncToInt (x : ℚ) : Int :=
  if -2 ^ 31 ≤ Trunc x ∧ Trunc x < 2 ^ 31 then Trunc x else -2 ^ 31

/-- The number of low bits of the magnitude `n` of an `int32` that do not fit
into the 24 significant bits of a `float`: the least `e` with `n / 2 ^ e` below
`2 ^ 24`, which is at most 8 for 32 bits. -/
def DroppedBits (n : Nat) : Nat :=
  ((List.range 9).find? fun e => n / 2 ^ e < 2 ^ 24).getD 8

/-- The integer that an `int32` becomes when it is converted to `float`: itself
up to 24 significant bits, and otherwise rounded to 24 significant bits, a tie
going to the even neighbour. -/
def RoundToFloat (n : Int) : Int :=
  if n.natAbs ≤ 2 ^ 24 then n
  else
    let e := DroppedBits n.natAbs
    let q := n.natAbs / 2 ^ e
    let r := n.natAbs % 2 ^ e
    let up : Bool := 2 ^ (e - 1) < r || (r == 2 ^ (e - 1) && q % 2 == 1)
    let m : Nat := (if up then q + 1 else q) * 2 ^ e
    if 0 ≤ n then (m : Int) else -(m : Int)

/-- The conversion of an `int32` to `float`, as the rational the result denotes. -/
def IntToFloat (n : Int) : ℚ :=
  (RoundToFloat n : Int)

/-- `AShooterPickup_Health::CanBePickedUp`. The comparison converts the `int32`
to `float`. -/
def CanBePickedUp (TestPawn : Option AShooterCharacter) : Bool :=
  match TestPawn with
  | some Pawn => decide (Pawn.Health < IntToFloat Pawn.MaxHealth)
  | none => false

/-- `AShooterPickup_Health::GivePickupTo`, as the pawn after the call; `Health`
is the amount of the pickup, an `int32` member. The sum and the minimum are
`int32` values, and the assignment converts the minimum to `float`. The online
event that the function triggers afterwards does not touch the pawn and is left
out. -/
def GivePickupTo (Health : Int) (Pawn : Option AShooterCharacter) :
    Option AShooterCharacter :=
  match Pawn with
  | some P =>
    some { P with Health := IntToFloat (min (ToInt32 (TruncToInt P.Health + Health)) P.MaxHealth) }
  | none => none

end AShooterPickup_Health

/-! ## Vocabulary of the statements -/

namespace UShooterGameInstance

/-- The state in which a run ended: the state it returned, or the state in which
it terminated the process. -/
def Ended : Except UShooterGameInstance UShooterGameInstance → UShooterGameInstance
  | Except.ok s => s
  | Except.error t => t

/-- The state in which a call with a boolean result ended: the state it returned,
or the state in which it terminated the process. -/
def EndedCall :
    Except UShooterGameInstance (Bool × UShooterGameInstance) → UShooterGameInstance
  | Except.ok r => r.2
  | Except.error t => t

/-- The run returned to its caller: it did not terminate the process. -/
def Returns {α : Type} (r : Except UShooterGameInstance α) : Prop :=
  ∃ a, r = Except.ok a

instance {α : Type} (r : Except UShooterGameInstance α) : Decidable (Returns r) :=
  match r with
  | Except.ok a => isTrue ⟨a, rfl⟩
  | Except.error _ => isFalse (fun h => h.elim fun _ h2 => Except.noConfusion h2)

/-- The run terminated the process, by a fatal log line or by a call through a
null pointer. -/
def Terminates {α : Type} (r : Except UShooterGameInstance α) : Prop :=
  ∃ t, r = Except.error t

instance {α : Type} (r : Except UShooterGameInstance α) : Decidable (Terminates r) :=
  match r with
  | Except.ok _ => isFalse (fun h => h.elim fun _ h2 => Except.noConfusion h2)
  | Except.error t => isTrue ⟨t, rfl⟩

/-- Loading the front-end map `MapName` fails in `env`: the map is not the one
already loaded, the engine browses to it, and `Browse` reports failure. -/
def LoadFails (env : Env) (MapName : String) : Prop :=
  (∀ CurrentMapName, env.WorldMapName = some CurrentMapName →
    FString.Equals CurrentMapName MapName = false) ∧
  env.URLValid = true ∧ env.IsClassDefaultObject = false ∧ env.BrowseSucceeds = false

instance (env : Env) (MapName : String) : Decidable (LoadFails env MapName) := by
  unfold LoadFails
  infer_instance

/-- The enter action of `NewState` terminates the process when it runs in `env`
with the maps and the local players of `s`: the enter actions of `PendingInvite`
and `MainMenu` when loading the main menu map fails; the enter action of
`WelcomeScreen` when loading the welcome screen map fails, when no first local
player is left once the splitscreen players are removed, or when there is no game
viewport. -/
def EnterTerminates (env : Env) (s : UShooterGameInstance) (NewState : FName) : Prop :=
  ((NewState = FName.PendingInvite ∨ NewState = FName.MainMenu) ∧
    LoadFails env s.MainMenuMap) ∨
  (NewState = FName.WelcomeScreen ∧
    (LoadFails env s.WelcomeScreenMap ∨ s.RemoveSplitScreenPlayers.LocalPlayers = [] ∨
      env.GameViewportClient.isSome = false))

instance (env : Env) (s : UShooterGameInstance) (NewState : FName) :
    Decidable (EnterTerminates env s NewState) := by
  unfold EnterTerminates
  infer_instance

/-- The commit of the pending change of `s` terminates the process in `env`: the
exit action of `Playing` runs without a game viewport, or the enter action of the
pending state terminates the process. -/
def CommitTerminates (env : Env) (s : UShooterGameInstance) : Prop :=
  (s.CurrentState = FName.Playing ∧ env.GameViewportClient.isSome = false) ∨
  EnterTerminates env s s.PendingState

instance (env : Env) (s : UShooterGameInstance) : Decidable (CommitTerminates env s) := by
  unfold CommitTerminates
  infer_instance

/-- The trace of `s2` is the trace of `s1` followed by more events, whose exit
and enter marks are exactly `acts`, in this order. -/
def TraceExt (s1 s2 : UShooterGameInstance) (acts : List Event) : Prop :=
  ∃ suffix, s2.Trace = s1.Trace ++ suffix ∧ suffix.filter Event.IsStateAction = acts

/-- From `s1` to `s2` the state machine's own variables are untouched and the
exit and enter actions that ran are `acts`. -/
structure Frame (s1 s2 : UShooterGameInstance) (acts : List Event) : Prop where
  CurrentState : s2.CurrentState = s1.CurrentState
  PendingState : s2.PendingState = s1.PendingState
  PendingMessage : s2.PendingMessage = s1.PendingMessage
  PendingInvite : s2.PendingInvite = s1.PendingInvite
  OnlineMode : s2.OnlineMode = s1.OnlineMode
  MainMenuMap : s2.MainMenuMap = s1.MainMenuMap
  WelcomeScreenMap : s2.WelcomeScreenMap = s1.WelcomeScreenMap
  Trace : TraceExt s1 s2 acts

/-- The five names that have an enter and an exit action. -/
def HasStateActions (m : FName) : Prop :=
  m = FName.PendingInvite ∨ m = FName.WelcomeScreen ∨ m = FName.MainMenu ∨
    m = FName.MessageMenu ∨ m = FName.Playing

instance (m : FName) : Decidable (HasStateActions m) := by
  unfold HasStateActions
  infer_instance

/-- The exit and enter marks of one commit from `Current` to `Pending`. -/
def CommitActions (Current Pending : FName) : List Event :=
  (if HasStateActions Current then [Event.EndState Current] else []) ++
  (if HasStateActions Pending then [Event.BeginState Pending] else [])


/-- The four log lines of the early returns of `ShowMessageThenGotoState`. -/
def IgnoredLines : List String :=
  ["ShowMessageThenGotoState: Ignoring due to higher message priority in queue (at welcome screen).",
   "ShowMessageThenGotoState: Ignoring due to higher message priority in queue (check 1).",
   "ShowMessageThenGotoState: Ignoring due to higher message priority in queue (check 2).",
   "ShowMessageThenGotoState: Ignoring due to higher message priority in queue (check 3)"]

/-- The rejection ladder in the words of the specification (section 4.2). -/
def GateRejects (s : UShooterGameInstance) (NewState : FName) (OverrideExisting : Bool) : Prop :=
  (s.PendingState = FName.WelcomeScreen ∨ s.CurrentState = FName.WelcomeScreen) ∨
  ((s.PendingState = FName.MessageMenu ∨ s.CurrentState = FName.MessageMenu) ∧
    s.PendingMessage.NextState = NewState ∧ OverrideExisting = false) ∨
  ((s.PendingState = FName.MessageMenu ∨ s.CurrentState = FName.MessageMenu) ∧
    s.PendingMessage.NextState = FName.WelcomeScreen) ∨
  ((s.PendingState = NewState ∨ s.CurrentState = NewState) ∧ OverrideExisting = false)

/-- The state right after the five assignments to `PendingMessage`. -/
def StoreMessage (s : UShooterGameInstance) (Message OKButtonString CancelButtonString : FText)
    (NewState : FName) (PlayerOwner : Option Nat) : UShooterGameInstance :=
  { s.emit (Event.Log "ShowMessageThenGotoState: Message: %s, NewState: %s"
      [Message, NewState.ToString]) with
    PendingMessage := ⟨Message, OKButtonString, CancelButtonString, NewState, PlayerOwner⟩ }

/-- The call that produced `s` returned early: the last line of the trace is one
of the four "Ignoring" lines. -/
def EndsIgnored (s : UShooterGameInstance) : Prop :=
  ∃ line ∈ IgnoredLines, s.Trace.getLast? = some (Event.Log line [])

/-- The state of `HostGame` right after the session's `HostSession` returned, and
before the verdict is looked at; the state itself when there is no game session.
It is `error t` when a completion that the call delivered terminated the process
in `t`. -/
def HostGameAfterCall (env : Env) (s : UShooterGameInstance) (LocalPlayer : ULocalPlayer)
    (GameType InTravelURL : String) : Except UShooterGameInstance UShooterGameInstance :=
  match s.GameSession with
  | some GameSession =>
    RunEach (fun acc b => BroadcastCreatePresenceSessionComplete env acc b)
      env.HostSessionReply.Completions
      (emit { s with
        OnCreatePresenceSessionCompleteDelegateHandle := s.NextDelegateId
        GameSession := some { GameSession with
          CreatePresenceSessionCompleteEvent :=
            GameSession.CreatePresenceSessionCompleteEvent ++ [s.NextDelegateId] }
        NextDelegateId := s.NextDelegateId + 1
        TravelURL := InTravelURL }
        (Event.HostSessionOfType (LocalPlayer.GetPreferredUniqueNetId env) GameType
          (MapNameOfTravelURL InTravelURL) (FString.Contains InTravelURL "?bIsLanMatch") true))
  | none => Except.ok s

/-- The state of `HostQuickSession` right after the session's `HostSession`
returned; the state itself when there is no game session. It is `error t` when a
completion that the call delivered terminated the process in `t`. -/
def HostQuickSessionAfterCall (env : Env) (s : UShooterGameInstance)
    (LocalPlayer : ULocalPlayer) (SessionSettings : FOnlineSessionSettings) :
    Except UShooterGameInstance UShooterGameInstance :=
  match s.GameSession with
  | some GameSession =>
    RunEach (fun acc b => BroadcastCreatePresenceSessionComplete env acc b)
      env.HostSessionReply.Completions
      (emit { s with
        OnCreatePresenceSessionCompleteDelegateHandle := s.NextDelegateId
        GameSession := some { GameSession with
          CreatePresenceSessionCompleteEvent :=
            GameSession.CreatePresenceSessionCompleteEvent ++ [s.NextDelegateId] }
        NextDelegateId := s.NextDelegateId + 1
        TravelURL := GetQuickMatchUrl }
        (Event.HostSession (LocalPlayer.GetPreferredUniqueNetId env) SessionSettings))
  | none => Except.ok s

/-- The state of a join right after the handlers are registered and before the
session's `JoinSession` is called; the state itself when there is no game
session. -/
def JoinRegistered (s : UShooterGameInstance) : UShooterGameInstance :=
  match s.GameSession with
  | some GameSession =>
    { s.AddNetworkFailureHandlers with
      OnJoinSessionCompleteDelegateHandle := s.AddNetworkFailureHandlers.NextDelegateId
      GameSession := some { GameSession with
        JoinSessionCompleteEvent :=
          GameSession.JoinSessionCompleteEvent ++ [s.AddNetworkFailureHandlers.NextDelegateId] }
      NextDelegateId := s.AddNetworkFailureHandlers.NextDelegateId + 1 }
  | none => s

/-- The state of either `JoinSession` overload right after the session's
`JoinSession` returned, `Call` being the event of that call; the state itself when
there is no game session. -/
def JoinAfterCall (env : Env) (s : UShooterGameInstance) (Call : Event) :
    UShooterGameInstance :=
  match s.GameSession with
  | some _ =>
    env.JoinSessionReply.Completions.foldl
      (fun acc r => BroadcastJoinSessionComplete env acc r) (s.JoinRegistered.emit Call)
  | none => s

/-- What a session operation does once the session's call has returned in state
`s3` with the verdict `bAccepted` (cpp lines 805-819, 857-871, 884-898, 910-924). -/
def VerdictTail (bAccepted : Bool) (s3 : UShooterGameInstance) : Bool × UShooterGameInstance :=
  if bAccepted then
    if s3.PendingState = s3.CurrentState ∨ s3.PendingState = FName.None then
      (true, s3.GotoState FName.Playing)
    else (false, s3)
  else (false, s3)

/-- The contract of a session operation with result `r`: it returns true exactly
when a game session exists, the session accepted the call and, in the state
`after` the call returned, the pending state is the current state or `None`; when
it returns true the pending state is `Playing`, and when it returns false the
operation has done nothing after the call. -/
def VerdictContract (r : Bool × UShooterGameInstance) (after : UShooterGameInstance)
    (bHasSession bAccepted : Bool) : Prop :=
  (r.1 = true ↔ bHasSession = true ∧ bAccepted = true ∧
    (after.PendingState = after.CurrentState ∨ after.PendingState = FName.None)) ∧
  (r.1 = true → r.2.PendingState = FName.Playing) ∧
  (r.1 = false → r.2 = after)

/-- The contract of a host operation with outcome `r`, whose call to the session
ended as `after`. When the call returned, the operation returns and its result
and the state after the call satisfy `VerdictContract`. When a completion that the
call delivered terminated the process, the operation ends there: it returns
nothing. -/
def HostVerdictContract (r : Except UShooterGameInstance (Bool × UShooterGameInstance))
    (after : Except UShooterGameInstance UShooterGameInstance)
    (bHasSession bAccepted : Bool) : Prop :=
  match after with
  | Except.ok a => ∃ v, r = Except.ok v ∧ VerdictContract v a bHasSession bAccepted
  | Except.error t => r = Except.error t

/-- From `s1` to `s2` the pending state is unchanged or became `MessageMenu` or
`MainMenu`, and the registrations with the game session, the stored handles of the
two session events, the local players and the travel URL are unchanged: what a
message request, a travel or a splitscreen registration may do. -/
structure MessageStep (s1 s2 : UShooterGameInstance) : Prop where
  PendingState : s2.PendingState = s1.PendingState ∨ s2.PendingState = FName.MessageMenu ∨
    s2.PendingState = FName.MainMenu
  GameSession : s2.GameSession = s1.GameSession
  JoinHandle : s2.OnJoinSessionCompleteDelegateHandle = s1.OnJoinSessionCompleteDelegateHandle
  CreateHandle : s2.OnCreatePresenceSessionCompleteDelegateHandle
    = s1.OnCreatePresenceSessionCompleteDelegateHandle
  LocalPlayers : s2.LocalPlayers = s1.LocalPlayers
  TravelURL : s2.TravelURL = s1.TravelURL

/-- The log line that opens every call of `ShowMessageThenGotoState`. -/
def MessageRequest (Message : FText) (NewState : FName) : Event :=
  Event.Log "ShowMessageThenGotoState: Message: %s, NewState: %s" [Message, NewState.ToString]

/-- A call of `ShowMessageThenGotoState` (its opening log line), or a client
travel. -/
def IsMessageOrTravel : Event → Bool
  | Event.Log Format _ => Format == "ShowMessageThenGotoState: Message: %s, NewState: %s"
  | Event.ClientTravel _ => true
  | _ => false

/-- The trace of `s2` is the trace of `s1` followed by more events, among which
the message requests and client travels are exactly `outcome`, in this order. -/
def Outcome (s1 s2 : UShooterGameInstance) (outcome : List Event) : Prop :=
  ∃ suffix, s2.Trace = s1.Trace ++ suffix ∧ suffix.filter IsMessageOrTravel = outcome

/-- The text `FinishJoinSession` shows for a failed join, in the words of the
specification: full, no longer existing, and every other failure. -/
def JoinFailureText (Result : EOnJoinSessionCompleteResult) : FText :=
  if Result = EOnJoinSessionCompleteResult.SessionIsFull then "Game is full."
  else if Result = EOnJoinSessionCompleteResult.SessionDoesNotExist then "Game no longer exists."
  else "Join failed."

/-- From `s1` to `s2` the pending state is unchanged or became `MessageMenu` or
`MainMenu`. -/
def PendingStep (s1 s2 : UShooterGameInstance) : Prop :=
  s2.PendingState = s1.PendingState ∨ s2.PendingState = FName.MessageMenu ∨
    s2.PendingState = FName.MainMenu

/-- The state after the first statement of `OnJoinSessionComplete`: the stored
join handle is removed from the join event of the game session, if there is one
(cpp lines 941-945). -/
def RemoveJoinBinding (s : UShooterGameInstance) : UShooterGameInstance :=
  match s.GameSession with
  | some GameSession =>
    { s with GameSession := some { GameSession with
        JoinSessionCompleteEvent := GameSession.JoinSessionCompleteEvent.filter
          fun h => h != s.OnJoinSessionCompleteDelegateHandle } }
  | none => s

/-- The state after the first statement inside `OnCreatePresenceSessionComplete`:
the stored create handle is removed from the create event of the game session
(cpp line 1050). -/
def RemoveCreateBinding (s : UShooterGameInstance) : UShooterGameInstance :=
  match s.GameSession with
  | some GameSession =>
    { s with GameSession := some { GameSession with
        CreatePresenceSessionCompleteEvent :=
          GameSession.CreatePresenceSessionCompleteEvent.filter
            fun h => h != s.OnCreatePresenceSessionCompleteDelegateHandle } }
  | none => s

/-- The join handle `h` is not registered with the game session of `s`. -/
def JoinHandleUnregistered (s : UShooterGameInstance) (h : FDelegateHandle) : Prop :=
  ∀ g, s.GameSession = some g → h ∉ g.JoinSessionCompleteEvent

/-- The create handle `h` is not registered with the game session of `s`. -/
def CreateHandleUnregistered (s : UShooterGameInstance) (h : FDelegateHandle) : Prop :=
  ∀ g, s.GameSession = some g → h ∉ g.CreatePresenceSessionCompleteEvent

/-- From `s1` to `s2` the current state is the same and no exit or enter action
ran. -/
def Calm (s1 s2 : UShooterGameInstance) : Prop :=
  s2.CurrentState = s1.CurrentState ∧ TraceExt s1 s2 []

end UShooterGameInstance

namespace AShooterGame_FreeForAll

/-- What the locals of the loop hold once the scores `P` have been visited, for
the initial best score `T`: the best score is the largest of `T` and the scores
visited, the counter is the number of visited scores equal to it, and the best
player is still -1 with no score above `T`, or the index of a visited score
above `T` that is the best score. -/
def LoopInvariant (T : ℚ) (P : List ℚ) (b : BestSoFar) : Prop :=
  T ≤ b.BestScore ∧ (∀ x ∈ P, x ≤ b.BestScore) ∧ b.NumBestPlayers = P.count b.BestScore ∧
  ((b.BestPlayer = -1 ∧ b.BestScore = T) ∨
    (∃ k : Nat, b.BestPlayer = k ∧ P[k]? = some b.BestScore ∧ T < b.BestScore))

/-- Player `i` is the winner in the words of the specification: the score of `i`
is greater than the threshold `T` and strictly greater than the score of every
other player. -/
def IsStrictBest (T : ℚ) (PlayerScores : List ℚ) (i : Nat) : Prop :=
  ∃ x, PlayerScores[i]? = some x ∧ T < x ∧
    ∀ j y, j ≠ i → PlayerScores[j]? = some y → y < x

end AShooterGame_FreeForAll

/-- An interactive client in the foreground: a shooter viewport that is the
active game viewport, a loaded map, and an online subsystem that knows of no
session and accepts every request without completing it synchronously. -/
def Env.Client : Env where
  IsDedicatedServerInstance := false
  SlateInitialized := true
  GameViewportClient := some true
  ViewportIsGameViewport := true
  WorldMapName := some "/Game/Maps/ShooterEntry"
  URLValid := true
  IsClassDefaultObject := false
  BrowseSucceeds := true
  GameState := none
  OnlineSub := true
  SessionInterface := true
  PresenceInterface := true
  SessionState := EOnlineSessionState.NoSession
  ResolvedConnectString := none
  FirstLocalPlayerController := true
  TestEncryption := 0
  UniquePlayerId := fun _ => none
  HostSessionReply := ⟨true, []⟩
  JoinSessionReply := ⟨true, []⟩

namespace UShooterGameInstance

/-- The travel of `InternalTravelToSession` fails in `env` for one of its three
reasons: no first local player controller, no online subsystem, or a session
interface that is invalid or does not resolve the connect string. -/
def TravelFails (env : Env) : Prop :=
  env.FirstLocalPlayerController = false ∨ env.OnlineSub = false ∨
    env.SessionInterface = false ∨ env.ResolvedConnectString = none

instance (env : Env) : Decidable (TravelFails env) := by
  unfold TravelFails
  infer_instance

/-- The text of a failed travel, in the order of the specification. -/
def TravelFailureText (env : Env) : FText :=
  if env.FirstLocalPlayerController = false then "Invalid Player Controller"
  else if env.OnlineSub = false then "OSS missing"
  else "Travel to Session failed."

/-- `Tick` returns before its commit step: the instance is a dedicated server, or
it has a shooter viewport that is not the active game viewport. -/
def TickSkipped (env : Env) : Bool :=
  env.IsDedicatedServerInstance ||
    (env.SlateInitialized && env.ShooterViewport && !env.ViewportIsGameViewport)

/-- The first four conditions of the invite step of `Tick`, in the words of the
specification: the invite has a user id, its privileges are checked and allowed,
the current state is `PendingInvite`, and the provider reports `NoSession` for the
game session. -/
def InviteReady (env : Env) (s : UShooterGameInstance) : Prop :=
  s.PendingInvite.UserId.isSome = true ∧ s.PendingInvite.bPrivilegesCheckedAndAllowed = true ∧
    s.CurrentState = FName.PendingInvite ∧
    env.OnlineSub = true ∧ env.SessionInterface = true ∧
    env.SessionState = EOnlineSessionState.NoSession

instance (env : Env) (s : UShooterGameInstance) : Decidable (InviteReady env s) := by
  unfold InviteReady
  infer_instance

/-- The state with the user id of the pending invite reset and everything else
as it is. -/
def ClearInviteUser (s : UShooterGameInstance) : UShooterGameInstance :=
  { s with PendingInvite := { s.PendingInvite with UserId := none } }

/-- The state in which `Tick` makes the host or join call for the invite: the
first player carries the controller id and the user id of the invite, and the
online mode has been set to `Online`. -/
def InviteCallState (env : Env) (s : UShooterGameInstance) : UShooterGameInstance :=
  SetOnlineMode env
    ((s.SetFirstPlayerControllerId s.PendingInvite.ControllerId).SetFirstPlayerCachedUniqueNetId
      (s.SetFirstPlayerControllerId s.PendingInvite.ControllerId).PendingInvite.UserId)
    EOnlineMode.Online

/-- The player `p` with the controller id and the user id of the pending invite. -/
def InvitedPlayer (s : UShooterGameInstance) (p : ULocalPlayer) : ULocalPlayer :=
  { p with ControllerId := s.PendingInvite.ControllerId
           CachedUniqueNetId := s.PendingInvite.UserId }

/-- A run of `Tick` calls, one for each environment of the list; the run ends
when a call terminates the process. -/
def Ticks (envs : List Env) (s : UShooterGameInstance) :
    Except UShooterGameInstance UShooterGameInstance :=
  RunEach (fun acc env => (Tick env acc).map Prod.snd) envs s

/-- The commit steps alone of a run of `Tick` calls. -/
def Commits (envs : List Env) (s : UShooterGameInstance) :
    Except UShooterGameInstance UShooterGameInstance :=
  RunEach (fun acc env => if TickSkipped env then Except.ok acc else MaybeChangeState env acc)
    envs s

/-- The events of one `RemoveExistingLocalPlayer(p)`: the pawn of `p` is killed
when there is one, then the engine's `RemoveLocalPlayer` is called. -/
def RemovalEvents (p : ULocalPlayer) : List Event :=
  (match p.PlayerController with
    | some PC => if PC.HasShooterCharacterPawn then [Event.KilledBy p.Id] else []
    | none => []) ++ [Event.RemoveLocalPlayer p.Id]

/-- The state of the specification after `RemoveSplitScreenPlayers`: the first
player alone is left, and the other players were removed one at a time, the last
one first. -/
def SplitScreenPlayersRemoved (s : UShooterGameInstance) : UShooterGameInstance :=
  { s with
    LocalPlayers := s.LocalPlayers.take 1
    Trace := s.Trace ++ ((s.LocalPlayers.drop 1).reverse.map RemovalEvents).flatten }

/-! ### Concrete inputs -/

/-- A first local player who is signed in (identity 11) and has a controller. -/
def SignedInPlayer : ULocalPlayer :=
  ⟨0, 0, some 11, some ⟨true, false⟩⟩

/-- A second local player without identity: no cached id, and `Env.Client` pairs
none with any controller. -/
def UnsignedPlayer : ULocalPlayer :=
  ⟨1, 1, none, none⟩

/-- A search result for a session owned by identity 42. -/
def FoundSession : FOnlineSessionSearchResult :=
  ⟨⟨some 42, ⟨4, []⟩⟩⟩

/-- An instance in the main menu, with one signed-in player and a game session
on which nothing is registered yet. -/
def InMainMenu : UShooterGameInstance :=
  { Constructed "Welcome" "Menu" with
    CurrentState := FName.MainMenu
    GameSession := some ⟨[], [], []⟩
    LocalPlayers := [SignedInPlayer] }

/-- As `Env.Client`, with a session that rejects `HostSession` and `JoinSession`
and completes nothing synchronously. -/
def Env.Rejecting : Env :=
  { Env.Client with HostSessionReply := ⟨false, []⟩, JoinSessionReply := ⟨false, []⟩ }

/-- An instance in `Playing` with two local players, the second without identity,
whose join handle 5 is the one registration of the join event. -/
def JoiningWithUnsignedGuest : UShooterGameInstance :=
  { Constructed "Welcome" "Menu" with
    CurrentState := FName.Playing
    GameSession := some ⟨[], [5], []⟩
    OnJoinSessionCompleteDelegateHandle := 5
    NextDelegateId := 6
    LocalPlayers := [SignedInPlayer, UnsignedPlayer] }

/-- The state after this history: `JoinSession` is rejected by the session, a
second `JoinSession` is accepted, and the session then broadcasts the completion
`SessionIsFull`. -/
def AfterRepeatedJoin : UShooterGameInstance :=
  BroadcastJoinSessionComplete Env.Client
    (JoinSession Env.Client
      (JoinSession Env.Rejecting InMainMenu SignedInPlayer FoundSession).2
      SignedInPlayer FoundSession).2
    EOnJoinSessionCompleteResult.SessionIsFull

/-- The state after `JoinSession` was issued twice from the main menu, the session
accepting both calls and completing neither. -/
def TwiceJoined : UShooterGameInstance :=
  (JoinSession Env.Client (JoinSession Env.Client InMainMenu SignedInPlayer FoundSession).2
    SignedInPlayer FoundSession).2

/-- An instance in `PendingInvite` that holds a checked invite of identity 11, on
controller 3, to `FoundSession`, which identity 42 owns. -/
def WithCheckedInvite : UShooterGameInstance :=
  { Constructed "Welcome" "Menu" with
    CurrentState := FName.PendingInvite
    PendingInvite := ⟨3, some 11, FoundSession, true⟩
    GameSession := some ⟨[], [], []⟩
    LocalPlayers := [SignedInPlayer] }

end UShooterGameInstance

/-! ## Verification -/

namespace UShooterGameInstance

/-! ### Basic facts about requests -/

theorem GotoState_PendingState (s : UShooterGameInstance) (m : FName) :
    (s.GotoState m).PendingState = m := rfl

theorem GotoState_CurrentState (s : UShooterGameInstance) (m : FName) :
    (s.GotoState m).CurrentState = s.CurrentState := rfl

theorem GotoState_PendingMessage (s : UShooterGameInstance) (m : FName) :
    (s.GotoState m).PendingMessage = s.PendingMessage := rfl

theorem GotoState_OnlineMode (s : UShooterGameInstance) (m : FName) :
    (s.GotoState m).OnlineMode = s.OnlineMode := rfl

/-- A run of `GotoState` calls leaves everything but `PendingState` and the
trace alone. -/
theorem foldl_GotoState_frame (targets : List FName) (s : UShooterGameInstance) :
    (targets.foldl GotoState s).CurrentState = s.CurrentState ∧
    (targets.foldl GotoState s).PendingMessage = s.PendingMessage ∧
    (targets.foldl GotoState s).OnlineMode = s.OnlineMode := by
  induction targets generalizing s with
  | nil => exact ⟨rfl, rfl, rfl⟩
  | cons m ms ih =>
    obtain ⟨h1, h2, h3⟩ := ih (s.GotoState m)
    exact ⟨h1, h2, h3⟩

/-- The pending state after a non-empty run of `GotoState` calls. -/
theorem foldl_GotoState_PendingState (targets : List FName) (s : UShooterGameInstance)
    (h : targets ≠ []) :
    (targets.foldl GotoState s).PendingState = targets.getLast h := by
  induction targets generalizing s with
  | nil => exact absurd rfl h
  | cons m ms ih =>
    cases ms with
    | nil => rfl
    | cons m2 ms2 =>
      have := ih (s.GotoState m) (List.cons_ne_nil m2 ms2)
      simpa [List.getLast_cons] using this

/-! ### Frames: what an operation leaves alone -/

theorem TraceExt.trace_refl (s : UShooterGameInstance) : TraceExt s s [] :=
  ⟨[], by simp, rfl⟩

theorem TraceExt.trace_trans {a b c : UShooterGameInstance} {x y : List Event}
    (h1 : TraceExt a b x) (h2 : TraceExt b c y) : TraceExt a c (x ++ y) := by
  obtain ⟨u, hu, hx⟩ := h1
  obtain ⟨v, hv, hy⟩ := h2
  exact ⟨u ++ v, by rw [hv, hu, List.append_assoc], by rw [List.filter_append, hx, hy]⟩

theorem TraceExt.of_Trace_eq {a b c : UShooterGameInstance} {x : List Event}
    (h : b.Trace = c.Trace) (h1 : TraceExt a b x) : TraceExt a c x := by
  obtain ⟨u, hu, hx⟩ := h1
  exact ⟨u, by rw [← h, hu], hx⟩

theorem Frame.frame_refl (s : UShooterGameInstance) : Frame s s [] :=
  ⟨rfl, rfl, rfl, rfl, rfl, rfl, rfl, TraceExt.trace_refl s⟩

theorem Frame.frame_trans {a b c : UShooterGameInstance} {x y : List Event}
    (h1 : Frame a b x) (h2 : Frame b c y) : Frame a c (x ++ y) :=
  ⟨h2.CurrentState.trans h1.CurrentState, h2.PendingState.trans h1.PendingState,
   h2.PendingMessage.trans h1.PendingMessage, h2.PendingInvite.trans h1.PendingInvite,
   h2.OnlineMode.trans h1.OnlineMode, h2.MainMenuMap.trans h1.MainMenuMap,
   h2.WelcomeScreenMap.trans h1.WelcomeScreenMap, h1.Trace.trace_trans h2.Trace⟩

/-- Two quiet steps make a quiet step. -/
theorem Frame.quiet_trans {a b c : UShooterGameInstance}
    (h1 : Frame a b []) (h2 : Frame b c []) : Frame a c [] := by
  simpa using h1.frame_trans h2

theorem Frame.frame_emit_quiet (s : UShooterGameInstance) (e : Event)
    (he : e.IsStateAction = false) : Frame s (s.emit e) [] :=
  ⟨rfl, rfl, rfl, rfl, rfl, rfl, rfl, [e], rfl, by simp [he]⟩

theorem Frame.frame_emit_action (s : UShooterGameInstance) (e : Event)
    (he : e.IsStateAction = true) : Frame s (s.emit e) [e] :=
  ⟨rfl, rfl, rfl, rfl, rfl, rfl, rfl, [e], rfl, by simp [he]⟩

theorem Frame.emitAll_quiet (s : UShooterGameInstance) (es : List Event)
    (he : ∀ e ∈ es, e.IsStateAction = false) : Frame s (s.emitAll es) [] :=
  ⟨rfl, rfl, rfl, rfl, rfl, rfl, rfl, es, rfl, by
    rw [List.filter_eq_nil_iff]
    intro e hmem
    simp [he e hmem]⟩

theorem UpdateUsingMultiplayerFeatures_frame (env : Env) (s : UShooterGameInstance) (b : Bool) :
    Frame s (UpdateUsingMultiplayerFeatures env s b) [] := by
  unfold UpdateUsingMultiplayerFeatures
  split
  · apply Frame.emitAll_quiet
    intro e hmem
    simp only [List.mem_filterMap, Option.map_eq_some'] at hmem
    obtain ⟨_, _, _, _, rfl⟩ := hmem
    rfl
  · exact Frame.frame_refl s

theorem RemoveExistingLocalPlayer_frame (s : UShooterGameInstance) (p : ULocalPlayer) :
    Frame s (s.RemoveExistingLocalPlayer p) [] := by
  have h1 : Frame s (match p.PlayerController with
      | some PC => if PC.HasShooterCharacterPawn then s.emit (Event.KilledBy p.Id) else s
      | none => s) [] := by
    split
    · split
      · exact Frame.frame_emit_quiet _ _ rfl
      · exact Frame.frame_refl s
    · exact Frame.frame_refl s
  have h2 := Frame.frame_emit_quiet (match p.PlayerController with
      | some PC => if PC.HasShooterCharacterPawn then s.emit (Event.KilledBy p.Id) else s
      | none => s) (Event.RemoveLocalPlayer p.Id) rfl
  have h3 := h1.quiet_trans h2
  exact ⟨h3.CurrentState, h3.PendingState, h3.PendingMessage, h3.PendingInvite, h3.OnlineMode,
    h3.MainMenuMap, h3.WelcomeScreenMap, h3.Trace⟩

theorem RemoveSplitScreenPlayersLoop_frame (fuel : Nat) (s : UShooterGameInstance) :
    Frame s (RemoveSplitScreenPlayersLoop fuel s) [] := by
  induction fuel generalizing s with
  | zero => exact Frame.frame_refl s
  | succ n ih =>
    unfold RemoveSplitScreenPlayersLoop
    split
    · split
      · exact (RemoveExistingLocalPlayer_frame s _).quiet_trans (ih _)
      · exact Frame.frame_refl s
    · exact Frame.frame_refl s

theorem RemoveSplitScreenPlayers_frame (s : UShooterGameInstance) :
    Frame s s.RemoveSplitScreenPlayers [] :=
  RemoveSplitScreenPlayersLoop_frame _ s

/-- The test of `LoadFrontEndMap` for a map that is loaded already is false
exactly when no world has the map, ignoring case. -/
theorem bAlreadyLoaded_eq_false (env : Env) (MapName : String) :
    (match env.WorldMapName with
      | some CurrentMapName => FString.Equals CurrentMapName MapName
      | none => false) = false ↔
    ∀ CurrentMapName, env.WorldMapName = some CurrentMapName →
      FString.Equals CurrentMapName MapName = false := by
  cases h : env.WorldMapName with
  | none => simp
  | some m => simp

/-- When the load fails, `LoadFrontEndMap` terminates the process right after the
fatal log line. -/
theorem LoadFrontEndMap_fails (env : Env) (s : UShooterGameInstance) (MapName : String)
    (h : LoadFails env MapName) :
    LoadFrontEndMap env s MapName = Except.error ((s.emit (Event.Browse MapName)).emit
      (Event.LogFatal "Failed to enter %s: %s. Please check the log for errors." [MapName])) := by
  obtain ⟨h1, h2, h3, h4⟩ := h
  have h1 := (bAlreadyLoaded_eq_false env MapName).2 h1
  unfold LoadFrontEndMap
  simp only [h1, h2, h3, h4]
  rfl

/-- When the load does not fail, `LoadFrontEndMap` returns true after a quiet
step. -/
theorem LoadFrontEndMap_loads (env : Env) (s : UShooterGameInstance) (MapName : String)
    (h : ¬ LoadFails env MapName) :
    ∃ s1, LoadFrontEndMap env s MapName = Except.ok (true, s1) ∧ Frame s s1 [] ∧
      s1.LocalPlayers = s.LocalPlayers := by
  unfold LoadFrontEndMap
  simp only []
  split
  · exact ⟨s, rfl, Frame.frame_refl s, rfl⟩
  · rename_i hloaded
    split
    · rename_i hurl
      split
      · exact ⟨_, rfl, Frame.frame_emit_quiet _ _ rfl, rfl⟩
      · rename_i hbrowse
        exfalso
        apply h
        simp only [Bool.and_eq_true, Bool.not_eq_true', Bool.not_eq_true] at hurl hbrowse hloaded
        exact ⟨(bAlreadyLoaded_eq_false env MapName).1 hloaded, hurl.1, hurl.2, hbrowse⟩
    · exact ⟨s, rfl, Frame.frame_refl s, rfl⟩

/-- Whatever `LoadFrontEndMap` returns, it returns true, after a quiet step. -/
theorem LoadFrontEndMap_ok (env : Env) (s : UShooterGameInstance) (MapName : String)
    (r : Bool × UShooterGameInstance) (h : LoadFrontEndMap env s MapName = Except.ok r) :
    r.1 = true ∧ Frame s r.2 [] ∧ r.2.LocalPlayers = s.LocalPlayers ∧ ¬ LoadFails env MapName := by
  by_cases hf : LoadFails env MapName
  · rw [LoadFrontEndMap_fails env s MapName hf] at h
    cases h
  · obtain ⟨s1, h1, h2, h3⟩ := LoadFrontEndMap_loads env s MapName hf
    rw [h1] at h
    cases h
    exact ⟨rfl, h2, h3, hf⟩

/-- When `LoadFrontEndMap` terminates the process, the load failed and the fatal
log line is the last event. -/
theorem LoadFrontEndMap_error (env : Env) (s : UShooterGameInstance) (MapName : String)
    (t : UShooterGameInstance) (h : LoadFrontEndMap env s MapName = Except.error t) :
    LoadFails env MapName ∧ t = (s.emit (Event.Browse MapName)).emit
      (Event.LogFatal "Failed to enter %s: %s. Please check the log for errors." [MapName]) := by
  by_cases hf : LoadFails env MapName
  · rw [LoadFrontEndMap_fails env s MapName hf] at h
    cases h
    exact ⟨hf, rfl⟩
  · obtain ⟨s1, h1, _⟩ := LoadFrontEndMap_loads env s MapName hf
    rw [h1] at h
    cases h

theorem SetPresenceForLocalPlayer_frame (env : Env) (s : UShooterGameInstance)
    (p : ULocalPlayer) (a b : String) : Frame s (SetPresenceForLocalPlayer env s p a b) [] := by
  unfold SetPresenceForLocalPlayer
  split
  · split
    · exact Frame.frame_emit_quiet _ _ rfl
    · exact Frame.frame_refl s
  · exact Frame.frame_refl s

theorem foldl_SetPresenceForLocalPlayer_frame (env : Env) (ps : List ULocalPlayer)
    (s : UShooterGameInstance) (a b : String) :
    Frame s (ps.foldl (fun acc p => SetPresenceForLocalPlayer env acc p a b) s) [] := by
  induction ps generalizing s with
  | nil => exact Frame.frame_refl s
  | cons p ps ih => exact (SetPresenceForLocalPlayer_frame env s p a b).quiet_trans (ih _)

theorem SetPresenceForLocalPlayers_frame (env : Env) (s : UShooterGameInstance)
    (a b : String) : Frame s (SetPresenceForLocalPlayers env s a b) [] :=
  foldl_SetPresenceForLocalPlayer_frame env _ s a b

theorem RemoveNetworkFailureHandlers_frame (s : UShooterGameInstance) :
    Frame s s.RemoveNetworkFailureHandlers [] := by
  unfold RemoveNetworkFailureHandlers
  split
  · exact ⟨rfl, rfl, rfl, rfl, rfl, rfl, rfl, TraceExt.trace_refl s⟩
  · exact Frame.frame_refl s

theorem AddNetworkFailureHandlers_frame (s : UShooterGameInstance) :
    Frame s s.AddNetworkFailureHandlers [] := by
  unfold AddNetworkFailureHandlers
  split
  · exact ⟨rfl, rfl, rfl, rfl, rfl, rfl, rfl, TraceExt.trace_refl s⟩
  · exact Frame.frame_refl s

theorem SetFirstPlayerCachedUniqueNetId_frame (s : UShooterGameInstance)
    (Id : Option FUniqueNetId) : Frame s (s.SetFirstPlayerCachedUniqueNetId Id) [] := by
  unfold SetFirstPlayerCachedUniqueNetId
  split
  · exact Frame.frame_refl s
  · exact ⟨rfl, rfl, rfl, rfl, rfl, rfl, rfl, TraceExt.trace_refl s⟩

theorem SetFirstPlayerControllerId_frame (s : UShooterGameInstance) (Id : Int) :
    Frame s (s.SetFirstPlayerControllerId Id) [] := by
  unfold SetFirstPlayerControllerId
  split
  · exact Frame.frame_refl s
  · exact ⟨rfl, rfl, rfl, rfl, rfl, rfl, rfl, TraceExt.trace_refl s⟩

/-- Changing only registration fields is a quiet step. -/
theorem Frame.of_core_eq {a b : UShooterGameInstance}
    (h1 : b.CurrentState = a.CurrentState) (h2 : b.PendingState = a.PendingState)
    (h3 : b.PendingMessage = a.PendingMessage) (h4 : b.PendingInvite = a.PendingInvite)
    (h5 : b.OnlineMode = a.OnlineMode) (h6 : b.MainMenuMap = a.MainMenuMap)
    (h7 : b.WelcomeScreenMap = a.WelcomeScreenMap) (h8 : b.Trace = a.Trace) : Frame a b [] :=
  ⟨h1, h2, h3, h4, h5, h6, h7, [], by simp [h8], rfl⟩

theorem CleanupSessionOnReturnToMenu_frame (env : Env) (s : UShooterGameInstance) :
    Frame s (CleanupSessionOnReturnToMenu env s) [] := by
  unfold CleanupSessionOnReturnToMenu
  split
  · split <;>
    · refine ⟨rfl, rfl, rfl, rfl, rfl, rfl, rfl, ?_⟩
      simp only [TraceExt, emit, List.append_assoc]
      exact ⟨_, rfl, rfl⟩
  · exact Frame.frame_refl s

/-- A quiet step after a step. -/
theorem Frame.frame_step {a b c : UShooterGameInstance} {x : List Event}
    (h2 : Frame b c []) (h1 : Frame a b x) : Frame a c x := by
  simpa using h1.frame_trans h2

/-- A quiet trace step after a trace step. -/
theorem TraceExt.trace_step {a b c : UShooterGameInstance} {x : List Event}
    (h2 : TraceExt b c []) (h1 : TraceExt a b x) : TraceExt a c x := by
  simpa using h1.trace_trans h2

theorem GotoState_TraceExt (s : UShooterGameInstance) (m : FName) :
    TraceExt s (s.GotoState m) [] :=
  ⟨[_], rfl, rfl⟩

theorem SetOnlineMode_TraceExt (env : Env) (s : UShooterGameInstance) (m : EOnlineMode) :
    TraceExt s (SetOnlineMode env s m) [] :=
  (UpdateUsingMultiplayerFeatures_frame env { s with OnlineMode := m } _).Trace

theorem SetOnlineMode_OnlineMode (env : Env) (s : UShooterGameInstance) (m : EOnlineMode) :
    (SetOnlineMode env s m).OnlineMode = m :=
  (UpdateUsingMultiplayerFeatures_frame env { s with OnlineMode := m } _).OnlineMode

theorem SetOnlineMode_CurrentState (env : Env) (s : UShooterGameInstance) (m : EOnlineMode) :
    (SetOnlineMode env s m).CurrentState = s.CurrentState :=
  (UpdateUsingMultiplayerFeatures_frame env { s with OnlineMode := m } _).CurrentState

theorem SetOnlineMode_PendingState (env : Env) (s : UShooterGameInstance) (m : EOnlineMode) :
    (SetOnlineMode env s m).PendingState = s.PendingState :=
  (UpdateUsingMultiplayerFeatures_frame env { s with OnlineMode := m } _).PendingState

theorem SetOnlineMode_PendingInvite (env : Env) (s : UShooterGameInstance) (m : EOnlineMode) :
    (SetOnlineMode env s m).PendingInvite = s.PendingInvite :=
  (UpdateUsingMultiplayerFeatures_frame env { s with OnlineMode := m } _).PendingInvite

/-! ### The exit actions -/

theorem EndPendingInviteState_frame (s : UShooterGameInstance) :
    Frame s s.EndPendingInviteState [Event.EndState FName.PendingInvite] :=
  Frame.frame_step (Frame.frame_emit_quiet _ Event.CleanupOnlinePrivilegeTask rfl)
    (Frame.frame_emit_action s _ rfl)

theorem EndWelcomeScreenState_frame (s : UShooterGameInstance) :
    Frame s s.EndWelcomeScreenState [Event.EndState FName.WelcomeScreen] :=
  Frame.frame_emit_action s _ rfl

theorem EndMainMenuState_frame (s : UShooterGameInstance) :
    Frame s s.EndMainMenuState [Event.EndState FName.MainMenu] :=
  Frame.frame_emit_action s _ rfl

theorem EndMessageMenuState_frame (s : UShooterGameInstance) :
    Frame s s.EndMessageMenuState [Event.EndState FName.MessageMenu] :=
  Frame.frame_emit_action s _ rfl

theorem Ended_ok (s : UShooterGameInstance) : Ended (Except.ok s) = s := rfl

theorem Ended_error (s : UShooterGameInstance) : Ended (Except.error s) = s := rfl

theorem EndedCall_ok (r : Bool × UShooterGameInstance) : EndedCall (Except.ok r) = r.2 := rfl

theorem EndedCall_error (s : UShooterGameInstance) : EndedCall (Except.error s) = s := rfl

theorem Returns_ok {α : Type} (a : α) :
    Returns (Except.ok a : Except UShooterGameInstance α) := ⟨a, rfl⟩

theorem not_Returns_error {α : Type} (t : UShooterGameInstance) :
    ¬ Returns (Except.error t : Except UShooterGameInstance α) := by
  rintro ⟨a, h⟩
  cases h

theorem Terminates_error {α : Type} (t : UShooterGameInstance) :
    Terminates (Except.error t : Except UShooterGameInstance α) := ⟨t, rfl⟩

theorem not_Terminates_ok {α : Type} (a : α) :
    ¬ Terminates (Except.ok a : Except UShooterGameInstance α) := by
  rintro ⟨t, h⟩
  cases h

/-- A run terminates the process exactly when it does not return. -/
theorem Terminates_iff_not_Returns {α : Type} (r : Except UShooterGameInstance α) :
    Terminates r ↔ ¬ Returns r := by
  cases r with
  | ok a => exact ⟨fun h => absurd h (not_Terminates_ok a), fun h => absurd (Returns_ok a) h⟩
  | error t => exact ⟨fun _ => not_Returns_error t, fun _ => Terminates_error t⟩

/-- What holds of every state a run returns holds of the state in which it ended,
when it returned. -/
theorem Ended_of_Returns (P : UShooterGameInstance → Prop)
    (r : Except UShooterGameInstance UShooterGameInstance) (hr : Returns r)
    (h : ∀ s, r = Except.ok s → P s) : P (Ended r) := by
  obtain ⟨s, hs⟩ := hr
  rw [hs]
  exact h s hs

/-- What holds of every result a call returns holds of the state in which it
ended, when it returned. -/
theorem EndedCall_of_Returns (P : UShooterGameInstance → Prop)
    (r : Except UShooterGameInstance (Bool × UShooterGameInstance)) (hr : Returns r)
    (h : ∀ v, r = Except.ok v → P v.2) : P (EndedCall r) := by
  obtain ⟨v, hv⟩ := hr
  rw [hv]
  exact h v hv

/-- With a game viewport, `EndPlayingState` returns. -/
theorem EndPlayingState_returns (env : Env) (s : UShooterGameInstance)
    (hv : env.GameViewportClient.isSome = true) : Returns (EndPlayingState env s) := by
  unfold EndPlayingState
  simp only [hv, if_true]
  split <;> exact Returns_ok _

/-- Without a game viewport, `EndPlayingState` terminates the process in its
first statement. -/
theorem EndPlayingState_terminates (env : Env) (s : UShooterGameInstance)
    (hv : env.GameViewportClient.isSome = false) :
    EndPlayingState env s = Except.error (s.emit (Event.EndState FName.Playing)) := by
  unfold EndPlayingState
  simp [hv]

theorem EndPlayingState_frame (env : Env) (s : UShooterGameInstance) :
    Frame s (Ended (EndPlayingState env s)) [Event.EndState FName.Playing] := by
  have h2 : Frame s (SetPresenceForLocalPlayers env
      ((s.emit (Event.EndState FName.Playing)).emit (Event.SetForceDisableSplitscreen true))
      "In Menu" "OnMenu") [Event.EndState FName.Playing] :=
    Frame.frame_step (SetPresenceForLocalPlayers_frame env _ _ _)
      (Frame.frame_step (Frame.frame_emit_quiet _ (Event.SetForceDisableSplitscreen true) rfl)
        (Frame.frame_emit_action s _ rfl))
  unfold EndPlayingState
  simp only []
  split
  · split
    · refine Frame.frame_step (Frame.frame_emit_quiet _ Event.RequestFinishAndExitToMainMenu rfl) ?_
      refine Frame.frame_step (Frame.emitAll_quiet _ _ ?_) h2
      intro e hmem
      simp only [List.mem_filterMap] at hmem
      obtain ⟨p, _, hp⟩ := hmem
      split at hp
      · split at hp
        · cases hp; rfl
        · cases hp
      · cases hp
    · exact Frame.frame_step (CleanupSessionOnReturnToMenu_frame env _) h2
  · exact Frame.frame_emit_action s _ rfl

/-- The exit action that `EndCurrentState` runs for the current state. -/
theorem EndCurrentState_eq (env : Env) (s : UShooterGameInstance) (NextState : FName) :
    ∃ r : Except UShooterGameInstance UShooterGameInstance,
      EndCurrentState env s NextState =
        (match r with
          | Except.ok s1 => Except.ok { s1 with CurrentState := FName.None }
          | Except.error t => Except.error t) ∧
      Frame s (Ended r)
        (if s.CurrentState = FName.PendingInvite ∨ s.CurrentState = FName.WelcomeScreen ∨
            s.CurrentState = FName.MainMenu ∨ s.CurrentState = FName.MessageMenu ∨
            s.CurrentState = FName.Playing
          then [Event.EndState s.CurrentState] else []) ∧
      (Returns r ↔ ¬ (s.CurrentState = FName.Playing ∧ env.GameViewportClient.isSome = false)) ∧
      (∀ t, r = Except.error t → t = s.emit (Event.EndState FName.Playing)) := by
  unfold EndCurrentState
  by_cases h1 : s.CurrentState = FName.PendingInvite
  · refine ⟨Except.ok s.EndPendingInviteState, by simp [h1], ?_, ?_, ?_⟩
    · simpa [h1] using EndPendingInviteState_frame s
    · simp [h1, Returns_ok]
    · intro t ht; cases ht
  by_cases h2 : s.CurrentState = FName.WelcomeScreen
  · refine ⟨Except.ok s.EndWelcomeScreenState, by simp [h2], ?_, ?_, ?_⟩
    · simpa [h2] using EndWelcomeScreenState_frame s
    · simp [h2, Returns_ok]
    · intro t ht; cases ht
  by_cases h3 : s.CurrentState = FName.MainMenu
  · refine ⟨Except.ok s.EndMainMenuState, by simp [h3], ?_, ?_, ?_⟩
    · simpa [h3] using EndMainMenuState_frame s
    · simp [h3, Returns_ok]
    · intro t ht; cases ht
  by_cases h4 : s.CurrentState = FName.MessageMenu
  · refine ⟨Except.ok s.EndMessageMenuState, by simp [h4], ?_, ?_, ?_⟩
    · simpa [h4] using EndMessageMenuState_frame s
    · simp [h4, Returns_ok]
    · intro t ht; cases ht
  by_cases h5 : s.CurrentState = FName.Playing
  · refine ⟨EndPlayingState env s, by simp [h5], ?_, ?_, ?_⟩
    · simpa [h5] using EndPlayingState_frame env s
    · cases hv : env.GameViewportClient.isSome with
      | true => simpa [h5] using EndPlayingState_returns env s hv
      | false =>
        rw [EndPlayingState_terminates env s hv]
        simpa [h5] using not_Returns_error (α := UShooterGameInstance) _
    · intro t ht
      cases hv : env.GameViewportClient.isSome with
      | true =>
        obtain ⟨a, ha⟩ := EndPlayingState_returns env s hv
        rw [ha] at ht
        cases ht
      | false =>
        rw [EndPlayingState_terminates env s hv] at ht
        cases ht
        rfl
  · refine ⟨Except.ok s, by simp [h1, h2, h3, h4, h5], ?_, ?_, ?_⟩
    · simpa [h1, h2, h3, h4, h5] using Frame.frame_refl s
    · simp [h5, Returns_ok]
    · intro t ht; cases ht

/-- What `EndCurrentState` does when it returns: it ran at most the exit action
of the current state, and the current state is `None`. -/
theorem EndCurrentState_spec (env : Env) (s s1 : UShooterGameInstance) (NextState : FName)
    (h : EndCurrentState env s NextState = Except.ok s1) :
    s1.CurrentState = FName.None ∧
    s1.PendingState = s.PendingState ∧
    s1.PendingMessage = s.PendingMessage ∧
    s1.PendingInvite = s.PendingInvite ∧
    s1.OnlineMode = s.OnlineMode ∧
    TraceExt s s1
      (if s.CurrentState = FName.PendingInvite ∨ s.CurrentState = FName.WelcomeScreen ∨
          s.CurrentState = FName.MainMenu ∨ s.CurrentState = FName.MessageMenu ∨
          s.CurrentState = FName.Playing
        then [Event.EndState s.CurrentState] else []) ∧
    s1.MainMenuMap = s.MainMenuMap ∧ s1.WelcomeScreenMap = s.WelcomeScreenMap := by
  obtain ⟨r, hr, hf, _, _⟩ := EndCurrentState_eq env s NextState
  rw [hr] at h
  cases r with
  | ok a =>
    cases h
    exact ⟨rfl, hf.PendingState, hf.PendingMessage, hf.PendingInvite, hf.OnlineMode, hf.Trace,
      hf.MainMenuMap, hf.WelcomeScreenMap⟩
  | error t => cases h

/-- The one case in which `EndCurrentState` does not return: the exit action of
`Playing` without a game viewport. -/
theorem EndCurrentState_returns_iff (env : Env) (s : UShooterGameInstance) (NextState : FName) :
    Returns (EndCurrentState env s NextState) ↔
      ¬ (s.CurrentState = FName.Playing ∧ env.GameViewportClient.isSome = false) := by
  obtain ⟨r, hr, _, hret, _⟩ := EndCurrentState_eq env s NextState
  rw [hr, ← hret]
  cases r with
  | ok a => exact ⟨fun _ => Returns_ok a, fun _ => Returns_ok _⟩
  | error t => exact ⟨fun h => absurd h (not_Returns_error t), fun h => absurd h (not_Returns_error t)⟩

/-- The state in which `EndCurrentState` terminates the process. -/
theorem EndCurrentState_error (env : Env) (s t : UShooterGameInstance) (NextState : FName)
    (h : EndCurrentState env s NextState = Except.error t) :
    s.CurrentState = FName.Playing ∧ env.GameViewportClient.isSome = false ∧
      t = s.emit (Event.EndState FName.Playing) := by
  obtain ⟨r, hr, _, hret, herr⟩ := EndCurrentState_eq env s NextState
  rw [hr] at h
  cases r with
  | ok a => cases h
  | error t2 =>
    cases h
    have hn : ¬ ¬ (s.CurrentState = FName.Playing ∧ env.GameViewportClient.isSome = false) :=
      fun hcon => not_Returns_error t (hret.2 hcon)
    have hn := not_not.1 hn
    exact ⟨hn.1, hn.2, herr t rfl⟩

/-! ### The enter actions -/

theorem TraceExt.trace_emit_action (s : UShooterGameInstance) (e : Event)
    (he : e.IsStateAction = true) : TraceExt s (s.emit e) [e] :=
  (Frame.frame_emit_action s e he).Trace

theorem TraceExt.trace_emit_quiet (s : UShooterGameInstance) (e : Event)
    (he : e.IsStateAction = false) : TraceExt s (s.emit e) [] :=
  (Frame.frame_emit_quiet s e he).Trace

theorem BeginPendingInviteState_TraceExt (env : Env) (s : UShooterGameInstance) :
    TraceExt s (Ended (BeginPendingInviteState env s))
      [Event.BeginState FName.PendingInvite] := by
  have h0 := TraceExt.trace_emit_action s (Event.BeginState FName.PendingInvite) rfl
  unfold BeginPendingInviteState
  simp only []
  split
  · rename_i r hr
    have h1 := TraceExt.trace_step (LoadFrontEndMap_ok env _ _ r hr).2.1.Trace h0
    split
    · exact TraceExt.trace_step
        (TraceExt.trace_emit_quiet _ (Event.StartOnlinePrivilegeTask _) rfl) h1
    · exact TraceExt.trace_step (GotoState_TraceExt _ _) h1
  · rename_i t ht
    obtain ⟨_, rfl⟩ := LoadFrontEndMap_error env _ _ t ht
    exact TraceExt.trace_step (TraceExt.trace_emit_quiet _ (Event.LogFatal _ _) rfl)
      (TraceExt.trace_step (TraceExt.trace_emit_quiet _ (Event.Browse _) rfl) h0)

/-- When loading the main menu map fails, `BeginPendingInviteState` terminates the
process right after the fatal log line. -/
theorem BeginPendingInviteState_fails (env : Env) (s : UShooterGameInstance)
    (h : LoadFails env s.MainMenuMap) :
    BeginPendingInviteState env s = Except.error
      (((s.emit (Event.BeginState FName.PendingInvite)).emit (Event.Browse s.MainMenuMap)).emit
        (Event.LogFatal "Failed to enter %s: %s. Please check the log for errors."
          [s.MainMenuMap])) := by
  unfold BeginPendingInviteState
  simp only []
  rw [show (s.emit (Event.BeginState FName.PendingInvite)).MainMenuMap = s.MainMenuMap from rfl,
    LoadFrontEndMap_fails env _ _ h]

/-- When loading the main menu map does not fail, `BeginPendingInviteState` starts
the privilege check of the invite's user right after a quiet step. -/
theorem BeginPendingInviteState_loads (env : Env) (s : UShooterGameInstance)
    (h : ¬ LoadFails env s.MainMenuMap) :
    ∃ s1, Frame (s.emit (Event.BeginState FName.PendingInvite)) s1 [] ∧
      s1.LocalPlayers = s.LocalPlayers ∧
      BeginPendingInviteState env s =
        Except.ok (s1.StartOnlinePrivilegeTask s1.PendingInvite.UserId) := by
  obtain ⟨s1, h1, h2, h3⟩ := LoadFrontEndMap_loads env
    (s.emit (Event.BeginState FName.PendingInvite)) s.MainMenuMap h
  refine ⟨s1, h2, h3, ?_⟩
  unfold BeginPendingInviteState
  simp only []
  rw [show (s.emit (Event.BeginState FName.PendingInvite)).MainMenuMap = s.MainMenuMap from rfl,
    h1]
  rfl

theorem RemoveExistingLocalPlayer_LocalPlayers (s : UShooterGameInstance) (p : ULocalPlayer) :
    (s.RemoveExistingLocalPlayer p).LocalPlayers = s.LocalPlayers.filter fun q => q.Id != p.Id := by
  unfold RemoveExistingLocalPlayer
  simp only []
  split
  · split <;> rfl
  · rfl

/-- The players that the loop of `RemoveSplitScreenPlayers` leaves depend on the
players alone. -/
theorem RemoveSplitScreenPlayersLoop_LocalPlayers (fuel : Nat) (s t : UShooterGameInstance)
    (h : s.LocalPlayers = t.LocalPlayers) :
    (RemoveSplitScreenPlayersLoop fuel s).LocalPlayers
      = (RemoveSplitScreenPlayersLoop fuel t).LocalPlayers := by
  induction fuel generalizing s t with
  | zero => exact h
  | succ n ih =>
    unfold RemoveSplitScreenPlayersLoop
    rw [h]
    split
    · split
      · exact ih _ _ (by rw [RemoveExistingLocalPlayer_LocalPlayers,
          RemoveExistingLocalPlayer_LocalPlayers, h])
      · exact h
    · exact h

theorem RemoveSplitScreenPlayers_LocalPlayers (s t : UShooterGameInstance)
    (h : s.LocalPlayers = t.LocalPlayers) :
    s.RemoveSplitScreenPlayers.LocalPlayers = t.RemoveSplitScreenPlayers.LocalPlayers := by
  unfold RemoveSplitScreenPlayers
  rw [h]
  exact RemoveSplitScreenPlayersLoop_LocalPlayers _ s t h

theorem SetOnlineMode_LocalPlayers (env : Env) (s : UShooterGameInstance) (m : EOnlineMode) :
    (SetOnlineMode env s m).LocalPlayers = s.LocalPlayers := by
  unfold SetOnlineMode UpdateUsingMultiplayerFeatures
  split <;> rfl

theorem SetOnlineMode_frame (env : Env) (s : UShooterGameInstance) (m : EOnlineMode) :
    (SetOnlineMode env s m).MainMenuMap = s.MainMenuMap ∧
    (SetOnlineMode env s m).WelcomeScreenMap = s.WelcomeScreenMap :=
  ⟨(UpdateUsingMultiplayerFeatures_frame env { s with OnlineMode := m } _).MainMenuMap,
   (UpdateUsingMultiplayerFeatures_frame env { s with OnlineMode := m } _).WelcomeScreenMap⟩

theorem BeginWelcomeScreenState_TraceExt (env : Env) (s : UShooterGameInstance) :
    TraceExt s (Ended (BeginWelcomeScreenState env s))
      [Event.BeginState FName.WelcomeScreen] := by
  have h2 : TraceExt s (SetOnlineMode env (s.emit (Event.BeginState FName.WelcomeScreen))
      EOnlineMode.Offline).RemoveSplitScreenPlayers [Event.BeginState FName.WelcomeScreen] :=
    TraceExt.trace_step (RemoveSplitScreenPlayers_frame _).Trace
      (TraceExt.trace_step (SetOnlineMode_TraceExt env _ _) (TraceExt.trace_emit_action s _ rfl))
  unfold BeginWelcomeScreenState
  simp only []
  split
  · rename_i r hr
    have h3 := TraceExt.trace_step (LoadFrontEndMap_ok env _ _ r hr).2.1.Trace h2
    split
    · have h4 := TraceExt.trace_step
        (SetFirstPlayerCachedUniqueNetId_frame r.2 none).Trace h3
      split
      · exact TraceExt.trace_step
          (TraceExt.trace_emit_quiet _ (Event.SetForceDisableSplitscreen true) rfl) h4
      · exact h4
    · exact h3
  · rename_i t ht
    obtain ⟨_, rfl⟩ := LoadFrontEndMap_error env _ _ t ht
    exact TraceExt.trace_step (TraceExt.trace_emit_quiet _ (Event.LogFatal _ _) rfl)
      (TraceExt.trace_step (TraceExt.trace_emit_quiet _ (Event.Browse _) rfl) h2)

/-- `BeginWelcomeScreenState` returns exactly when the welcome screen map loads,
a first local player is left once the splitscreen players are removed, and there
is a game viewport. -/
theorem BeginWelcomeScreenState_returns_iff (env : Env) (s : UShooterGameInstance) :
    Returns (BeginWelcomeScreenState env s) ↔
      ¬ (LoadFails env s.WelcomeScreenMap ∨ s.RemoveSplitScreenPlayers.LocalPlayers = [] ∨
        env.GameViewportClient.isSome = false) := by
  have hM : (SetOnlineMode env (s.emit (Event.BeginState FName.WelcomeScreen))
      EOnlineMode.Offline).RemoveSplitScreenPlayers.WelcomeScreenMap = s.WelcomeScreenMap :=
    (RemoveSplitScreenPlayers_frame _).WelcomeScreenMap.trans (SetOnlineMode_frame env _ _).2
  have hP : (SetOnlineMode env (s.emit (Event.BeginState FName.WelcomeScreen))
      EOnlineMode.Offline).RemoveSplitScreenPlayers.LocalPlayers
      = s.RemoveSplitScreenPlayers.LocalPlayers :=
    RemoveSplitScreenPlayers_LocalPlayers _ _ (SetOnlineMode_LocalPlayers env _ _)
  unfold BeginWelcomeScreenState
  simp only []
  rw [hM]
  by_cases hf : LoadFails env s.WelcomeScreenMap
  · rw [LoadFrontEndMap_fails env _ _ hf]
    exact ⟨fun h => absurd h (not_Returns_error _), fun h => absurd (Or.inl hf) h⟩
  · obtain ⟨s1, h1, _, h3⟩ := LoadFrontEndMap_loads env
      (SetOnlineMode env (s.emit (Event.BeginState FName.WelcomeScreen))
        EOnlineMode.Offline).RemoveSplitScreenPlayers s.WelcomeScreenMap hf
    rw [h1]
    simp only []
    rw [hP] at h3
    unfold GetFirstGamePlayer
    rw [h3]
    cases hl : s.RemoveSplitScreenPlayers.LocalPlayers with
    | nil =>
      simp only [List.head?_nil]
      exact ⟨fun h => absurd h (not_Returns_error _), fun h => absurd (Or.inr (Or.inl trivial)) h⟩
    | cons p ps =>
      simp only [List.head?_cons]
      cases hv : env.GameViewportClient.isSome with
      | true =>
        simp only [if_true]
        refine ⟨fun _ => ?_, fun _ => Returns_ok _⟩
        rintro (h | h | h)
        · exact hf h
        · cases h
        · cases h
      | false =>
        simp only [Bool.false_eq_true, if_false]
        exact ⟨fun h => absurd h (not_Returns_error _),
          fun h => absurd (Or.inr (Or.inr trivial)) h⟩

/-- The state in which `BeginMainMenuState` has just forced the offline mode:
everything after it is a quiet step. -/
theorem BeginMainMenuState_after_SetOnlineMode (env : Env) (s : UShooterGameInstance) :
    Frame (SetOnlineMode env
        (if env.ShooterViewport then
          (s.emit (Event.BeginState FName.MainMenu)).emit Event.HideLoadingScreen
         else s.emit (Event.BeginState FName.MainMenu)) EOnlineMode.Offline)
      (Ended (BeginMainMenuState env s)) [] := by
  have h5 : ∀ s5 : UShooterGameInstance, Frame s5
      (match s5.GetFirstGamePlayer with
        | some _ => (s5.SetFirstPlayerControllerId 0).SetFirstPlayerCachedUniqueNetId
            (env.UniquePlayerId 0)
        | none => s5) [] := by
    intro s5
    split
    · exact Frame.frame_step (SetFirstPlayerCachedUniqueNetId_frame _ _)
        (SetFirstPlayerControllerId_frame _ _)
    · exact Frame.frame_refl s5
  have h4 : Frame (SetOnlineMode env
        (if env.ShooterViewport then
          (s.emit (Event.BeginState FName.MainMenu)).emit Event.HideLoadingScreen
         else s.emit (Event.BeginState FName.MainMenu)) EOnlineMode.Offline)
      (RemoveSplitScreenPlayers
        (if env.GameViewportClient.isSome then
          (SetOnlineMode env
            (if env.ShooterViewport then
              (s.emit (Event.BeginState FName.MainMenu)).emit Event.HideLoadingScreen
             else s.emit (Event.BeginState FName.MainMenu)) EOnlineMode.Offline).emit
            (Event.SetForceDisableSplitscreen true)
         else SetOnlineMode env
            (if env.ShooterViewport then
              (s.emit (Event.BeginState FName.MainMenu)).emit Event.HideLoadingScreen
             else s.emit (Event.BeginState FName.MainMenu)) EOnlineMode.Offline)) [] := by
    refine Frame.frame_step (RemoveSplitScreenPlayers_frame _) ?_
    generalize SetOnlineMode env _ EOnlineMode.Offline = t
    split
    · exact Frame.frame_emit_quiet _ _ rfl
    · exact Frame.frame_refl _
  unfold BeginMainMenuState
  simp only []
  generalize hL : LoadFrontEndMap env _ _ = L
  cases L with
  | ok r =>
    refine Frame.frame_step (RemoveNetworkFailureHandlers_frame _) ?_
    refine Frame.frame_step (h5 _) ?_
    exact Frame.frame_step (LoadFrontEndMap_ok env _ _ r hL).2.1 h4
  | error t =>
    obtain ⟨_, rfl⟩ := LoadFrontEndMap_error env _ _ t hL
    exact Frame.frame_step (Frame.frame_emit_quiet _ (Event.LogFatal _ _) rfl)
      (Frame.frame_step (Frame.frame_emit_quiet _ (Event.Browse _) rfl) h4)

theorem BeginMainMenuState_TraceExt (env : Env) (s : UShooterGameInstance) :
    TraceExt s (Ended (BeginMainMenuState env s)) [Event.BeginState FName.MainMenu] := by
  refine TraceExt.trace_step (BeginMainMenuState_after_SetOnlineMode env s).Trace ?_
  refine TraceExt.trace_step (SetOnlineMode_TraceExt env _ _) ?_
  split
  · exact TraceExt.trace_step (TraceExt.trace_emit_quiet _ Event.HideLoadingScreen rfl)
      (TraceExt.trace_emit_action s _ rfl)
  · exact TraceExt.trace_emit_action s _ rfl

theorem BeginMainMenuState_OnlineMode (env : Env) (s : UShooterGameInstance) :
    (Ended (BeginMainMenuState env s)).OnlineMode = EOnlineMode.Offline :=
  (BeginMainMenuState_after_SetOnlineMode env s).OnlineMode.trans
    (SetOnlineMode_OnlineMode env _ _)

/-- `BeginMainMenuState` returns exactly when the main menu map loads. -/
theorem BeginMainMenuState_returns_iff (env : Env) (s : UShooterGameInstance) :
    Returns (BeginMainMenuState env s) ↔ ¬ LoadFails env s.MainMenuMap := by
  have hM : (RemoveSplitScreenPlayers
        (if env.GameViewportClient.isSome then
          (SetOnlineMode env
            (if env.ShooterViewport then
              (s.emit (Event.BeginState FName.MainMenu)).emit Event.HideLoadingScreen
             else s.emit (Event.BeginState FName.MainMenu)) EOnlineMode.Offline).emit
            (Event.SetForceDisableSplitscreen true)
         else SetOnlineMode env
            (if env.ShooterViewport then
              (s.emit (Event.BeginState FName.MainMenu)).emit Event.HideLoadingScreen
             else s.emit (Event.BeginState FName.MainMenu)) EOnlineMode.Offline)).MainMenuMap
      = s.MainMenuMap := by
    rw [(RemoveSplitScreenPlayers_frame _).MainMenuMap]
    split
    · show (SetOnlineMode env _ EOnlineMode.Offline).MainMenuMap = _
      rw [(SetOnlineMode_frame env _ _).1]
      split <;> rfl
    · rw [(SetOnlineMode_frame env _ _).1]
      split <;> rfl
  unfold BeginMainMenuState
  simp only []
  rw [hM]
  by_cases hf : LoadFails env s.MainMenuMap
  · rw [LoadFrontEndMap_fails env _ _ hf]
    exact ⟨fun h => absurd h (not_Returns_error _), fun h => absurd hf h⟩
  · obtain ⟨s1, h1, _⟩ := LoadFrontEndMap_loads env
      (RemoveSplitScreenPlayers
        (if env.GameViewportClient.isSome then
          (SetOnlineMode env
            (if env.ShooterViewport then
              (s.emit (Event.BeginState FName.MainMenu)).emit Event.HideLoadingScreen
             else s.emit (Event.BeginState FName.MainMenu)) EOnlineMode.Offline).emit
            (Event.SetForceDisableSplitscreen true)
         else SetOnlineMode env
            (if env.ShooterViewport then
              (s.emit (Event.BeginState FName.MainMenu)).emit Event.HideLoadingScreen
             else s.emit (Event.BeginState FName.MainMenu)) EOnlineMode.Offline))
      s.MainMenuMap hf
    rw [h1]
    exact ⟨fun _ => hf, fun _ => Returns_ok _⟩

theorem BeginPendingInviteState_returns_iff (env : Env) (s : UShooterGameInstance) :
    Returns (BeginPendingInviteState env s) ↔ ¬ LoadFails env s.MainMenuMap := by
  by_cases hf : LoadFails env s.MainMenuMap
  · rw [BeginPendingInviteState_fails env s hf]
    exact ⟨fun h => absurd h (not_Returns_error _), fun h => absurd hf h⟩
  · obtain ⟨s1, _, _, h1⟩ := BeginPendingInviteState_loads env s hf
    rw [h1]
    exact ⟨fun _ => hf, fun _ => Returns_ok _⟩

theorem BeginMessageMenuState_TraceExt (env : Env) (s : UShooterGameInstance) :
    TraceExt s (BeginMessageMenuState env s) [Event.BeginState FName.MessageMenu] := by
  have h0 := TraceExt.trace_emit_action s (Event.BeginState FName.MessageMenu) rfl
  unfold BeginMessageMenuState
  simp only []
  split
  · exact TraceExt.trace_step (GotoState_TraceExt _ _)
      (TraceExt.trace_step (TraceExt.trace_emit_quiet _ (Event.LogWarning _ _) rfl) h0)
  · split
    · exact TraceExt.trace_step (TraceExt.trace_emit_quiet _ Event.HideLoadingScreen rfl) h0
    · exact h0

theorem BeginMessageMenuState_CurrentState (env : Env) (s : UShooterGameInstance) :
    (BeginMessageMenuState env s).CurrentState = s.CurrentState := by
  unfold BeginMessageMenuState
  simp only []
  split
  · rfl
  · split <;> rfl

theorem BeginPlayingState_frame (env : Env) (s : UShooterGameInstance) :
    Frame s (BeginPlayingState env s) [Event.BeginState FName.Playing] := by
  unfold BeginPlayingState
  simp only []
  refine Frame.frame_step (Frame.frame_emit_quiet _ Event.SetAllUserFocusToGameViewport rfl) ?_
  refine Frame.frame_step (SetPresenceForLocalPlayers_frame env _ _ _) ?_
  exact Frame.frame_step (b := s.emit (Event.BeginState FName.Playing))
    (Frame.of_core_eq rfl rfl rfl rfl rfl rfl rfl rfl)
    (Frame.frame_emit_action s (Event.BeginState FName.Playing) rfl)

theorem SetPresenceForLocalPlayer_LocalPlayers (env : Env) (s : UShooterGameInstance)
    (p : ULocalPlayer) (a b : String) :
    (SetPresenceForLocalPlayer env s p a b).LocalPlayers = s.LocalPlayers := by
  unfold SetPresenceForLocalPlayer
  split
  · split <;> rfl
  · rfl

theorem foldl_SetPresenceForLocalPlayer_LocalPlayers (env : Env) (ps : List ULocalPlayer)
    (s : UShooterGameInstance) (a b : String) :
    (ps.foldl (fun acc p => SetPresenceForLocalPlayer env acc p a b) s).LocalPlayers
      = s.LocalPlayers := by
  induction ps generalizing s with
  | nil => rfl
  | cons p ps ih =>
    exact (ih _).trans (SetPresenceForLocalPlayer_LocalPlayers env s p a b)

theorem SetPresenceForLocalPlayers_LocalPlayers (env : Env) (s : UShooterGameInstance)
    (a b : String) : (SetPresenceForLocalPlayers env s a b).LocalPlayers = s.LocalPlayers :=
  foldl_SetPresenceForLocalPlayer_LocalPlayers env _ s a b

theorem CleanupSessionOnReturnToMenu_LocalPlayers (env : Env) (s : UShooterGameInstance) :
    (CleanupSessionOnReturnToMenu env s).LocalPlayers = s.LocalPlayers := by
  unfold CleanupSessionOnReturnToMenu
  split
  · split <;> rfl
  · rfl

theorem EndPlayingState_LocalPlayers (env : Env) (s : UShooterGameInstance) :
    (Ended (EndPlayingState env s)).LocalPlayers = s.LocalPlayers := by
  have h2 : (SetPresenceForLocalPlayers env
      ((s.emit (Event.EndState FName.Playing)).emit (Event.SetForceDisableSplitscreen true))
      "In Menu" "OnMenu").LocalPlayers = s.LocalPlayers :=
    SetPresenceForLocalPlayers_LocalPlayers env _ _ _
  unfold EndPlayingState
  simp only []
  split
  · split
    · exact h2
    · exact (CleanupSessionOnReturnToMenu_LocalPlayers env _).trans h2
  · rfl

/-- The exit action that `EndCurrentState` runs leaves the local players alone. -/
theorem EndCurrentState_LocalPlayers (env : Env) (s s1 : UShooterGameInstance)
    (NextState : FName) (h : EndCurrentState env s NextState = Except.ok s1) :
    s1.LocalPlayers = s.LocalPlayers := by
  unfold EndCurrentState at h
  by_cases h1 : s.CurrentState = FName.PendingInvite
  · simp [h1] at h; subst h; rfl
  by_cases h2 : s.CurrentState = FName.WelcomeScreen
  · simp [h2] at h; subst h; rfl
  by_cases h3 : s.CurrentState = FName.MainMenu
  · simp [h3] at h; subst h; rfl
  by_cases h4 : s.CurrentState = FName.MessageMenu
  · simp [h4] at h; subst h; rfl
  by_cases h5 : s.CurrentState = FName.Playing
  · simp only [h5, reduceCtorEq, if_false, if_true] at h
    have hl := EndPlayingState_LocalPlayers env s
    cases hr : EndPlayingState env s with
    | ok a =>
      rw [hr] at h hl
      cases h
      exact hl
    | error t =>
      rw [hr] at h
      cases h
  · simp [h1, h2, h3, h4, h5] at h; subst h; rfl

/-- The enter action that `BeginNewState` runs for the new state. -/
theorem BeginNewState_eq (env : Env) (s : UShooterGameInstance) (NewState PrevState : FName) :
    ∃ r : Except UShooterGameInstance UShooterGameInstance,
      BeginNewState env s NewState PrevState =
        (match r with
          | Except.ok s1 => Except.ok { s1 with CurrentState := NewState }
          | Except.error t => Except.error t) ∧
      TraceExt s (Ended r)
        (if HasStateActions NewState then [Event.BeginState NewState] else []) ∧
      (Returns r ↔ ¬ EnterTerminates env s NewState) ∧
      (NewState = FName.MainMenu → (Ended r).OnlineMode = EOnlineMode.Offline) := by
  unfold BeginNewState HasStateActions EnterTerminates
  by_cases h1 : NewState = FName.PendingInvite
  · refine ⟨BeginPendingInviteState env s, by simp [h1], ?_, ?_, ?_⟩
    · simpa [h1] using BeginPendingInviteState_TraceExt env s
    · simpa [h1] using BeginPendingInviteState_returns_iff env s
    · simp [h1]
  by_cases h2 : NewState = FName.WelcomeScreen
  · refine ⟨BeginWelcomeScreenState env s, by simp [h2], ?_, ?_, ?_⟩
    · simpa [h2] using BeginWelcomeScreenState_TraceExt env s
    · simpa [h2] using BeginWelcomeScreenState_returns_iff env s
    · simp [h2]
  by_cases h3 : NewState = FName.MainMenu
  · refine ⟨BeginMainMenuState env s, by simp [h3], ?_, ?_, ?_⟩
    · simpa [h3] using BeginMainMenuState_TraceExt env s
    · simpa [h3] using BeginMainMenuState_returns_iff env s
    · exact fun _ => BeginMainMenuState_OnlineMode env s
  by_cases h4 : NewState = FName.MessageMenu
  · refine ⟨Except.ok (BeginMessageMenuState env s), by simp [h4], ?_, ?_, ?_⟩
    · simpa [h4] using BeginMessageMenuState_TraceExt env s
    · simp [h4, Returns_ok]
    · simp [h4]
  by_cases h5 : NewState = FName.Playing
  · refine ⟨Except.ok (BeginPlayingState env s), by simp [h5], ?_, ?_, ?_⟩
    · simpa [h5] using (BeginPlayingState_frame env s).Trace
    · simp [h5, Returns_ok]
    · simp [h5]
  · refine ⟨Except.ok s, by simp [h1, h2, h3, h4, h5], ?_, ?_, ?_⟩
    · simpa [h1, h2, h3, h4, h5] using TraceExt.trace_refl s
    · simp [h1, h2, h3, Returns_ok]
    · simp [h3]

/-- What `BeginNewState` does when it returns: it ran at most the enter action of
the new state, and the current state is the new state. -/
theorem BeginNewState_spec (env : Env) (s s1 : UShooterGameInstance)
    (NewState PrevState : FName) (h : BeginNewState env s NewState PrevState = Except.ok s1) :
    s1.CurrentState = NewState ∧
    TraceExt s s1 (if HasStateActions NewState then [Event.BeginState NewState] else []) ∧
    (NewState = FName.MainMenu → s1.OnlineMode = EOnlineMode.Offline) := by
  obtain ⟨r, hr, hT, _, hO⟩ := BeginNewState_eq env s NewState PrevState
  rw [hr] at h
  cases r with
  | ok a =>
    cases h
    exact ⟨rfl, hT, hO⟩
  | error t => cases h

/-- The cases in which `BeginNewState` does not return. -/
theorem BeginNewState_returns_iff (env : Env) (s : UShooterGameInstance)
    (NewState PrevState : FName) :
    Returns (BeginNewState env s NewState PrevState) ↔ ¬ EnterTerminates env s NewState := by
  obtain ⟨r, hr, _, hret, _⟩ := BeginNewState_eq env s NewState PrevState
  rw [hr, ← hret]
  cases r with
  | ok a => exact ⟨fun _ => Returns_ok a, fun _ => Returns_ok _⟩
  | error t => exact ⟨fun h => absurd h (not_Returns_error t), fun h => absurd h (not_Returns_error t)⟩

/-- The state in which `BeginNewState` terminates the process: the enter mark of
the new state is in its trace, and the current state is not assigned. -/
theorem BeginNewState_error (env : Env) (s t : UShooterGameInstance)
    (NewState PrevState : FName) (h : BeginNewState env s NewState PrevState = Except.error t) :
    TraceExt s t (if HasStateActions NewState then [Event.BeginState NewState] else []) := by
  obtain ⟨r, hr, hT, _, _⟩ := BeginNewState_eq env s NewState PrevState
  rw [hr] at h
  cases r with
  | ok a => cases h
  | error t2 =>
    cases h
    exact hT

/-- The enter action of a state terminates the process for the same reasons
before and after the exit action of the current state. -/
theorem EnterTerminates_after_EndCurrentState (env : Env) (s s1 : UShooterGameInstance)
    (NextState : FName) (h : EndCurrentState env s NextState = Except.ok s1) :
    EnterTerminates env s1 s1.PendingState ↔ EnterTerminates env s s.PendingState := by
  obtain ⟨_, hP, _, _, _, _, hM, hW⟩ := EndCurrentState_spec env s s1 NextState h
  have hL := RemoveSplitScreenPlayers_LocalPlayers s1 s
    (EndCurrentState_LocalPlayers env s s1 NextState h)
  unfold EnterTerminates
  rw [hP, hM, hW, hL]

/-- What a commit does when a change is pending and the commit returns. -/
theorem MaybeChangeState_commit (env : Env) (s s2 : UShooterGameInstance)
    (hne : s.PendingState ≠ s.CurrentState) (hpending : s.PendingState ≠ FName.None)
    (h : MaybeChangeState env s = Except.ok s2) :
    s2.CurrentState = s.PendingState ∧
    s2.PendingState = FName.None ∧
    TraceExt s s2 (CommitActions s.CurrentState s.PendingState) ∧
    (s.PendingState = FName.MainMenu → s2.OnlineMode = EOnlineMode.Offline) := by
  unfold MaybeChangeState at h
  rw [if_pos ⟨hne, hpending⟩] at h
  simp only [] at h
  cases hE : EndCurrentState env s s.PendingState with
  | error t => rw [hE] at h; cases h
  | ok s1 =>
    rw [hE] at h
    simp only [] at h
    obtain ⟨_, hP, _, _, _, hT, _, _⟩ := EndCurrentState_spec env s s1 _ hE
    cases hB : BeginNewState env s1 s1.PendingState s.CurrentState with
    | error t => rw [hB] at h; cases h
    | ok s3 =>
      rw [hB] at h
      cases h
      obtain ⟨hC, hT2, hO⟩ := BeginNewState_spec env s1 s3 _ _ hB
      rw [hP] at hC hT2 hO
      exact ⟨hC, rfl, hT.trace_trans (TraceExt.of_Trace_eq rfl hT2), hO⟩

/-- A commit of a pending change returns exactly when neither the exit action nor
the enter action terminates the process. -/
theorem MaybeChangeState_returns_iff (env : Env) (s : UShooterGameInstance)
    (hne : s.PendingState ≠ s.CurrentState) (hpending : s.PendingState ≠ FName.None) :
    Returns (MaybeChangeState env s) ↔ ¬ CommitTerminates env s := by
  unfold MaybeChangeState CommitTerminates
  rw [if_pos ⟨hne, hpending⟩]
  simp only []
  cases hE : EndCurrentState env s s.PendingState with
  | error t =>
    obtain ⟨h1, h2, _⟩ := EndCurrentState_error env s t _ hE
    exact ⟨fun h => absurd h (not_Returns_error t), fun h => absurd (Or.inl ⟨h1, h2⟩) h⟩
  | ok s1 =>
    have hEnd : ¬ (s.CurrentState = FName.Playing ∧ env.GameViewportClient.isSome = false) :=
      (EndCurrentState_returns_iff env s s.PendingState).1 ⟨s1, hE⟩
    have hEnter := EnterTerminates_after_EndCurrentState env s s1 _ hE
    have hB := BeginNewState_returns_iff env s1 s1.PendingState s.CurrentState
    simp only []
    cases hB2 : BeginNewState env s1 s1.PendingState s.CurrentState with
    | error t =>
      rw [hB2] at hB
      have hterm : EnterTerminates env s s.PendingState := by
        by_contra hcon
        exact not_Returns_error t (hB.2 (fun h => hcon (hEnter.1 h)))
      exact ⟨fun h => absurd h (not_Returns_error t), fun h => absurd (Or.inr hterm) h⟩
    | ok s3 =>
      rw [hB2] at hB
      refine ⟨fun _ => ?_, fun _ => Returns_ok _⟩
      rintro (h | h)
      · exact hEnd h
      · exact hB.1 (Returns_ok s3) (hEnter.2 h)

/-- The state in which a commit terminates the process: the current state and the
pending state are not assigned after the action that terminated it, and the marks
in the trace are the exit mark, when the exit action was reached alone, or the
marks of the commit. -/
theorem MaybeChangeState_error (env : Env) (s t : UShooterGameInstance)
    (h : MaybeChangeState env s = Except.error t) :
    (s.PendingState ≠ s.CurrentState ∧ s.PendingState ≠ FName.None) ∧
    (TraceExt s t [Event.EndState FName.Playing] ∨
      TraceExt s t (CommitActions s.CurrentState s.PendingState)) := by
  unfold MaybeChangeState at h
  by_cases hc : s.PendingState ≠ s.CurrentState ∧ s.PendingState ≠ FName.None
  · refine ⟨hc, ?_⟩
    rw [if_pos hc] at h
    simp only [] at h
    cases hE : EndCurrentState env s s.PendingState with
    | error t2 =>
      rw [hE] at h
      cases h
      obtain ⟨_, _, rfl⟩ := EndCurrentState_error env s t _ hE
      exact Or.inl (TraceExt.trace_emit_action s _ rfl)
    | ok s1 =>
      rw [hE] at h
      simp only [] at h
      obtain ⟨_, hP, _, _, _, hT, _, _⟩ := EndCurrentState_spec env s s1 _ hE
      cases hB : BeginNewState env s1 s1.PendingState s.CurrentState with
      | ok s3 => rw [hB] at h; cases h
      | error t2 =>
        rw [hB] at h
        cases h
        have hT2 := BeginNewState_error env s1 t _ _ hB
        rw [hP] at hT2
        exact Or.inr (hT.trace_trans hT2)
  · rw [if_neg hc] at h
    cases h

/-- A commit with nothing pending changes nothing. -/
theorem MaybeChangeState_idle (env : Env) (s : UShooterGameInstance)
    (h : s.PendingState = s.CurrentState ∨ s.PendingState = FName.None) :
    MaybeChangeState env s = Except.ok s := by
  unfold MaybeChangeState
  rw [if_neg]
  rintro ⟨h1, h2⟩
  rcases h with h | h
  · exact h1 h
  · exact h2 h

theorem ShowMessageThenGotoState_cases (env : Env) (s : UShooterGameInstance)
    (Message OK Cancel : FText) (NewState : FName) (Override : Bool) (Owner : Option Nat) :
    (GateRejects s NewState Override ∧ ∃ line ∈ IgnoredLines,
      ShowMessageThenGotoState env s Message OK Cancel NewState Override Owner =
        (s.emit (Event.Log "ShowMessageThenGotoState: Message: %s, NewState: %s"
          [Message, NewState.ToString])).emit (Event.Log line [])) ∨
    (¬ GateRejects s NewState Override ∧
      ShowMessageThenGotoState env s Message OK Cancel NewState Override Owner =
        if s.CurrentState = FName.MessageMenu then
          BeginMessageMenuState env
            ((StoreMessage s Message OK Cancel NewState Owner).emit
              (Event.Log "ShowMessageThenGotoState: Forcing new message" [])).EndMessageMenuState
        else (StoreMessage s Message OK Cancel NewState Owner).GotoState FName.MessageMenu) := by
  unfold ShowMessageThenGotoState GateRejects
  simp only []
  by_cases h1 : s.PendingState = FName.WelcomeScreen ∨ s.CurrentState = FName.WelcomeScreen
  · left
    refine ⟨Or.inl h1, _, List.mem_cons_self _ _, ?_⟩
    rw [if_pos]
    · simpa [emit] using h1
  by_cases h2 : (s.PendingState = FName.MessageMenu ∨ s.CurrentState = FName.MessageMenu) ∧
      s.PendingMessage.NextState = NewState ∧ Override = false
  · left
    refine ⟨Or.inr (Or.inl h2), _, List.mem_cons_of_mem _ (List.mem_cons_self _ _), ?_⟩
    rw [if_neg (by simpa [emit] using h1), if_pos (by simpa [emit, and_assoc] using h2)]
  by_cases h3 : (s.PendingState = FName.MessageMenu ∨ s.CurrentState = FName.MessageMenu) ∧
      s.PendingMessage.NextState = FName.WelcomeScreen
  · left
    refine ⟨Or.inr (Or.inr (Or.inl h3)), _,
      List.mem_cons_of_mem _ (List.mem_cons_of_mem _ (List.mem_cons_self _ _)), ?_⟩
    rw [if_neg (by simpa [emit] using h1), if_neg (by simpa [emit, and_assoc] using h2),
      if_pos (by simpa [emit, and_assoc] using h3)]
  by_cases h4 : (s.PendingState = NewState ∨ s.CurrentState = NewState) ∧ Override = false
  · left
    refine ⟨Or.inr (Or.inr (Or.inr h4)), _,
      List.mem_cons_of_mem _ (List.mem_cons_of_mem _ (List.mem_cons_of_mem _
        (List.mem_cons_self _ _))), ?_⟩
    rw [if_neg (by simpa [emit] using h1), if_neg (by simpa [emit, and_assoc] using h2),
      if_neg (by simpa [emit, and_assoc] using h3), if_pos (by simpa [emit, and_assoc] using h4)]
  · right
    refine ⟨fun h => ?_, ?_⟩
    · rcases h with h | h | h | h
      · exact h1 h
      · exact h2 h
      · exact h3 h
      · exact h4 h
    · rw [if_neg (by simpa [emit] using h1), if_neg (by simpa [emit, and_assoc] using h2),
        if_neg (by simpa [emit, and_assoc] using h3), if_neg (by simpa [emit, and_assoc] using h4)]
      rfl

/-! ### The message gate -/

/-- A rejected call leaves every field but the trace as it was. -/
theorem ShowMessageThenGotoState_rejected (env : Env) (s : UShooterGameInstance)
    (Message OK Cancel : FText) (NewState : FName) (Override : Bool) (Owner : Option Nat)
    (h : GateRejects s NewState Override) :
    (ShowMessageThenGotoState env s Message OK Cancel NewState Override Owner).PendingMessage
      = s.PendingMessage ∧
    (ShowMessageThenGotoState env s Message OK Cancel NewState Override Owner).PendingState
      = s.PendingState ∧
    (ShowMessageThenGotoState env s Message OK Cancel NewState Override Owner).CurrentState
      = s.CurrentState ∧
    EndsIgnored (ShowMessageThenGotoState env s Message OK Cancel NewState Override Owner) := by
  rcases ShowMessageThenGotoState_cases env s Message OK Cancel NewState Override Owner with
    ⟨_, line, hline, heq⟩ | ⟨hno, _⟩
  · rw [heq]
    exact ⟨rfl, rfl, rfl, line, hline, by simp [emit]⟩
  · exact absurd h hno

/-- The state an accepted call produces. -/
theorem ShowMessageThenGotoState_accepted (env : Env) (s : UShooterGameInstance)
    (Message OK Cancel : FText) (NewState : FName) (Override : Bool) (Owner : Option Nat)
    (h : ¬ GateRejects s NewState Override) :
    ShowMessageThenGotoState env s Message OK Cancel NewState Override Owner =
      if s.CurrentState = FName.MessageMenu then
        BeginMessageMenuState env
          ((StoreMessage s Message OK Cancel NewState Owner).emit
            (Event.Log "ShowMessageThenGotoState: Forcing new message" [])).EndMessageMenuState
      else (StoreMessage s Message OK Cancel NewState Owner).GotoState FName.MessageMenu := by
  rcases ShowMessageThenGotoState_cases env s Message OK Cancel NewState Override Owner with
    ⟨hyes, _⟩ | ⟨_, heq⟩
  · exact absurd hyes h
  · exact heq

/-- The trace of an accepted call does not end in an "Ignoring" line. -/
theorem ShowMessageThenGotoState_accepted_not_EndsIgnored (env : Env) (s : UShooterGameInstance)
    (Message OK Cancel : FText) (NewState : FName) (Override : Bool) (Owner : Option Nat)
    (h : ¬ GateRejects s NewState Override) :
    ¬ EndsIgnored (ShowMessageThenGotoState env s Message OK Cancel NewState Override Owner) := by
  rw [ShowMessageThenGotoState_accepted env s Message OK Cancel NewState Override Owner h]
  rintro ⟨line, _, hlast⟩
  split at hlast
  · unfold BeginMessageMenuState at hlast
    simp only [] at hlast
    split at hlast
    · simp [emit, GotoState, GotoInitialState, EndMessageMenuState, StoreMessage] at hlast
    · split at hlast
      · simp [emit, EndMessageMenuState, StoreMessage] at hlast
      · simp [emit, EndMessageMenuState, StoreMessage] at hlast
  · simp [emit, GotoState, StoreMessage] at hlast

/-- A call returns early exactly when the ladder of the specification rejects it. -/
theorem EndsIgnored_iff_GateRejects (env : Env) (s : UShooterGameInstance)
    (Message OK Cancel : FText) (NewState : FName) (Override : Bool) (Owner : Option Nat) :
    EndsIgnored (ShowMessageThenGotoState env s Message OK Cancel NewState Override Owner) ↔
      GateRejects s NewState Override := by
  constructor
  · intro hi
    by_contra hno
    exact ShowMessageThenGotoState_accepted_not_EndsIgnored env s Message OK Cancel NewState
      Override Owner hno hi
  · intro h
    exact (ShowMessageThenGotoState_rejected env s Message OK Cancel NewState Override Owner h).2.2.2

/-- The enter action of `MessageMenu` keeps the labels, the next state and the
owner of the pending message. -/
theorem BeginMessageMenuState_PendingMessage (env : Env) (s : UShooterGameInstance) :
    (BeginMessageMenuState env s).PendingMessage.NextState = s.PendingMessage.NextState ∧
    (BeginMessageMenuState env s).PendingMessage.OKButtonString
      = s.PendingMessage.OKButtonString ∧
    (BeginMessageMenuState env s).PendingMessage.CancelButtonString
      = s.PendingMessage.CancelButtonString ∧
    (BeginMessageMenuState env s).PendingMessage.PlayerOwner = s.PendingMessage.PlayerOwner := by
  unfold BeginMessageMenuState
  simp only []
  split
  · exact ⟨rfl, rfl, rfl, rfl⟩
  · split <;> exact ⟨rfl, rfl, rfl, rfl⟩

/-- The enter action of `MessageMenu` on a non-empty text: the text is consumed
and no transition is requested. -/
theorem BeginMessageMenuState_nonempty (env : Env) (s : UShooterGameInstance)
    (h : s.PendingMessage.DisplayString ≠ FText.GetEmpty) :
    (BeginMessageMenuState env s).PendingState = s.PendingState ∧
    (BeginMessageMenuState env s).PendingMessage.DisplayString = FText.GetEmpty := by
  unfold BeginMessageMenuState
  simp only []
  rw [if_neg (by simpa [FTextIsEmpty, emit] using h)]
  split <;> exact ⟨rfl, rfl⟩

theorem Calm.calm_refl (s : UShooterGameInstance) : Calm s s :=
  ⟨rfl, TraceExt.trace_refl s⟩

theorem Calm.calm_trans {a b c : UShooterGameInstance} (h1 : Calm a b) (h2 : Calm b c) : Calm a c :=
  ⟨h2.1.trans h1.1, TraceExt.trace_step h2.2 h1.2⟩

theorem Frame.calm {a b : UShooterGameInstance} (h : Frame a b []) : Calm a b :=
  ⟨h.CurrentState, h.Trace⟩

theorem Calm.calm_emit_quiet (s : UShooterGameInstance) (e : Event)
    (he : e.IsStateAction = false) : Calm s (s.emit e) :=
  (Frame.frame_emit_quiet s e he).calm

theorem GotoState_calm (s : UShooterGameInstance) (m : FName) : Calm s (s.GotoState m) :=
  ⟨rfl, GotoState_TraceExt s m⟩

theorem SetOnlineMode_calm (env : Env) (s : UShooterGameInstance) (m : EOnlineMode) :
    Calm s (SetOnlineMode env s m) :=
  ⟨SetOnlineMode_CurrentState env s m, SetOnlineMode_TraceExt env s m⟩

/-- A fold of steps that are calm outside `MessageMenu` is calm outside
`MessageMenu`. -/
theorem foldl_calm {α : Type} (f : UShooterGameInstance → α → UShooterGameInstance)
    (hf : ∀ s a, s.CurrentState ≠ FName.MessageMenu → Calm s (f s a))
    (l : List α) (s : UShooterGameInstance) (h : s.CurrentState ≠ FName.MessageMenu) :
    Calm s (l.foldl f s) := by
  induction l generalizing s with
  | nil => exact Calm.calm_refl s
  | cons a l ih =>
    have h1 := hf s a h
    exact h1.calm_trans (ih (f s a) (by rw [h1.1]; exact h))

/-- As `foldl_calm`, for a fold that starts after a calm step. -/
theorem foldl_calm_from {α : Type} (f : UShooterGameInstance → α → UShooterGameInstance)
    (hf : ∀ s a, s.CurrentState ≠ FName.MessageMenu → Calm s (f s a))
    (l : List α) (s s2 : UShooterGameInstance) (h : s.CurrentState ≠ FName.MessageMenu)
    (h12 : Calm s s2) : Calm s (l.foldl f s2) :=
  h12.calm_trans (foldl_calm f hf l s2 (by rw [h12.1]; exact h))

theorem ShowMessageThenGotoState_calm (env : Env) (s : UShooterGameInstance)
    (Message OK Cancel : FText) (NewState : FName) (Override : Bool) (Owner : Option Nat)
    (h : s.CurrentState ≠ FName.MessageMenu) :
    Calm s (ShowMessageThenGotoState env s Message OK Cancel NewState Override Owner) := by
  rcases ShowMessageThenGotoState_cases env s Message OK Cancel NewState Override Owner with
    ⟨_, line, _, heq⟩ | ⟨_, heq⟩
  · rw [heq]
    exact Calm.calm_trans (b := s.emit (Event.Log
      "ShowMessageThenGotoState: Message: %s, NewState: %s" [Message, NewState.ToString]))
      (Calm.calm_emit_quiet _ _ rfl) (Calm.calm_emit_quiet _ _ rfl)
  · rw [heq, if_neg h]
    refine Calm.calm_trans (b := StoreMessage s Message OK Cancel NewState Owner) ?_
      (GotoState_calm _ _)
    exact ⟨rfl, (TraceExt.trace_emit_quiet s (Event.Log
      "ShowMessageThenGotoState: Message: %s, NewState: %s" [Message, NewState.ToString]) rfl)⟩

theorem ShowMessageThenGoMain_calm (env : Env) (s : UShooterGameInstance)
    (Message OK Cancel : FText) (h : s.CurrentState ≠ FName.MessageMenu) :
    Calm s (ShowMessageThenGoMain env s Message OK Cancel) :=
  ShowMessageThenGotoState_calm env s Message OK Cancel FName.MainMenu true none h

/-- `ShowMessageThenGoMain` after `RemoveNetworkFailureHandlers`. -/
theorem ShowMessageThenGoMain_after_remove_calm (env : Env) (s : UShooterGameInstance)
    (Message OK Cancel : FText) (h : s.CurrentState ≠ FName.MessageMenu) :
    Calm s (ShowMessageThenGoMain env s.RemoveNetworkFailureHandlers Message OK Cancel) := by
  have h1 := (RemoveNetworkFailureHandlers_frame s).calm
  exact h1.calm_trans (ShowMessageThenGoMain_calm env _ Message OK Cancel (by rw [h1.1]; exact h))

theorem InternalTravelToSession_calm (env : Env) (s : UShooterGameInstance) (n : FName)
    (h : s.CurrentState ≠ FName.MessageMenu) : Calm s (InternalTravelToSession env s n) := by
  unfold InternalTravelToSession
  split
  · exact ShowMessageThenGoMain_after_remove_calm env s _ _ _ h
  · split
    · exact ShowMessageThenGoMain_after_remove_calm env s _ _ _ h
    · split
      · exact (ShowMessageThenGoMain_calm env s _ _ _ h).calm_trans (Calm.calm_emit_quiet _ _ rfl)
      · exact Calm.calm_emit_quiet _ _ rfl

theorem FinishJoinSession_calm (env : Env) (s : UShooterGameInstance)
    (Result : EOnJoinSessionCompleteResult) (h : s.CurrentState ≠ FName.MessageMenu) :
    Calm s (FinishJoinSession env s Result) := by
  unfold FinishJoinSession
  split
  · exact ShowMessageThenGoMain_after_remove_calm env s _ _ _ h
  · exact InternalTravelToSession_calm env s _ h

theorem RegisterSplitscreenPlayer_calm (env : Env) (s : UShooterGameInstance) (b : Bool) :
    Calm s (RegisterSplitscreenPlayer env s b) := by
  unfold RegisterSplitscreenPlayer
  split
  · split
    · exact Calm.calm_emit_quiet _ _ rfl
    · exact Calm.calm_refl s
  · exact Calm.calm_refl s

/-- A run of steps that are calm outside `MessageMenu`, up to the step that
terminates the process if one does, is calm outside `MessageMenu`. -/
theorem RunEach_calm {α : Type}
    (f : UShooterGameInstance → α → Except UShooterGameInstance UShooterGameInstance)
    (hf : ∀ s a, s.CurrentState ≠ FName.MessageMenu → Calm s (Ended (f s a)))
    (l : List α) (s : UShooterGameInstance) (h : s.CurrentState ≠ FName.MessageMenu) :
    Calm s (Ended (RunEach f l s)) := by
  induction l generalizing s with
  | nil => exact Calm.calm_refl s
  | cons a l ih =>
    have h1 := hf s a h
    unfold RunEach
    cases hfa : f s a with
    | ok s1 =>
      rw [hfa] at h1
      have h2 : Calm s s1 := h1
      exact h2.calm_trans (ih s1 (by rw [h2.1]; exact h))
    | error t =>
      rw [hfa] at h1
      exact h1

/-- As `RunEach_calm`, for a run that starts after a calm step. -/
theorem RunEach_calm_from {α : Type}
    (f : UShooterGameInstance → α → Except UShooterGameInstance UShooterGameInstance)
    (hf : ∀ s a, s.CurrentState ≠ FName.MessageMenu → Calm s (Ended (f s a)))
    (l : List α) (s s2 : UShooterGameInstance) (h : s.CurrentState ≠ FName.MessageMenu)
    (h12 : Calm s s2) : Calm s (Ended (RunEach f l s2)) :=
  h12.calm_trans (RunEach_calm f hf l s2 (by rw [h12.1]; exact h))

theorem FinishSessionCreation_calm (env : Env) (s : UShooterGameInstance)
    (Result : EOnJoinSessionCompleteResult) (h : s.CurrentState ≠ FName.MessageMenu) :
    Calm s (Ended (FinishSessionCreation env s Result)) := by
  unfold FinishSessionCreation
  split
  · split
    · exact Calm.calm_emit_quiet _ _ rfl
    · exact Calm.calm_refl s
  · exact ShowMessageThenGoMain_calm env s _ _ _ h

theorem OnJoinSessionComplete_calm (env : Env) (s : UShooterGameInstance)
    (Result : EOnJoinSessionCompleteResult) (h : s.CurrentState ≠ FName.MessageMenu) :
    Calm s (OnJoinSessionComplete env s Result) := by
  have h1 : ∀ s1 : UShooterGameInstance, Calm s s1 →
      Calm s (if Result = EOnJoinSessionCompleteResult.Success ∧ s1.LocalPlayers.length > 1 then
        RegisterSplitscreenPlayer env s1 true else FinishJoinSession env s1 Result) := by
    intro s1 hs1
    split
    · exact hs1.calm_trans (RegisterSplitscreenPlayer_calm env s1 true)
    · exact hs1.calm_trans (FinishJoinSession_calm env s1 Result (by rw [hs1.1]; exact h))
  unfold OnJoinSessionComplete
  simp only []
  apply h1
  split
  · exact ⟨rfl, TraceExt.trace_refl s⟩
  · exact Calm.calm_refl s

theorem OnCreatePresenceSessionComplete_calm (env : Env) (s : UShooterGameInstance)
    (n : FName) (b : Bool) (h : s.CurrentState ≠ FName.MessageMenu) :
    Calm s (Ended (OnCreatePresenceSessionComplete env s n b)) := by
  unfold OnCreatePresenceSessionComplete
  split
  · simp only []
    split
    · exact Calm.calm_trans (b := { s with GameSession := _ }) ⟨rfl, TraceExt.trace_refl s⟩
        (RegisterSplitscreenPlayer_calm env _ false)
    · exact Calm.calm_trans (b := { s with GameSession := _ }) ⟨rfl, TraceExt.trace_refl s⟩
        (FinishSessionCreation_calm env _ _ h)
  · exact Calm.calm_refl s

theorem BroadcastJoinSessionComplete_calm (env : Env) (s : UShooterGameInstance)
    (Result : EOnJoinSessionCompleteResult) (h : s.CurrentState ≠ FName.MessageMenu) :
    Calm s (BroadcastJoinSessionComplete env s Result) := by
  unfold BroadcastJoinSessionComplete
  split
  · apply foldl_calm _ _ _ s h
    intro acc hd hacc
    split
    · split
      · exact OnJoinSessionComplete_calm env acc Result hacc
      · exact Calm.calm_refl acc
    · exact Calm.calm_refl acc
  · exact Calm.calm_refl s

theorem BroadcastCreatePresenceSessionComplete_calm (env : Env) (s : UShooterGameInstance)
    (b : Bool) (h : s.CurrentState ≠ FName.MessageMenu) :
    Calm s (Ended (BroadcastCreatePresenceSessionComplete env s b)) := by
  unfold BroadcastCreatePresenceSessionComplete
  split
  · apply RunEach_calm _ _ _ s h
    intro acc hd hacc
    split
    · split
      · exact OnCreatePresenceSessionComplete_calm env acc _ b hacc
      · exact Calm.calm_refl acc
    · exact Calm.calm_refl acc
  · exact Calm.calm_refl s

/-- The tail shared by the session calls: the verdict and the pending-state
test, then possibly `GotoState(Playing)`. -/
theorem session_call_tail_calm (s s3 : UShooterGameInstance) (Accepted : Bool)
    (h : Calm s s3) :
    Calm s (if Accepted then
        if s3.PendingState = s3.CurrentState ∨ s3.PendingState = FName.None then
          (true, s3.GotoState FName.Playing)
        else (false, s3)
      else (false, s3)).2 := by
  split
  · split
    · exact h.calm_trans (GotoState_calm _ _)
    · exact h
  · exact h

/-- The tail shared by the host calls, after the completions that the session
delivered during its call. -/
theorem host_call_tail_calm (s : UShooterGameInstance)
    (r : Except UShooterGameInstance UShooterGameInstance) (Accepted : Bool) :
    Calm s (Ended r) → Calm s (EndedCall (match r with
      | Except.ok s3 =>
        if Accepted then
          if s3.PendingState = s3.CurrentState ∨ s3.PendingState = FName.None then
            Except.ok (true, s3.GotoState FName.Playing)
          else Except.ok (false, s3)
        else Except.ok (false, s3)
      | Except.error t => Except.error t)) := by
  intro h
  cases r with
  | ok s3 =>
    simp only []
    split
    · split
      · exact h.calm_trans (GotoState_calm _ _)
      · exact h
    · exact h
  | error t => exact h

theorem HostQuickSession_calm (env : Env) (s : UShooterGameInstance) (p : ULocalPlayer)
    (Settings : FOnlineSessionSettings) (h : s.CurrentState ≠ FName.MessageMenu) :
    Calm s (EndedCall (HostQuickSession env s p Settings)) := by
  unfold HostQuickSession
  split
  · simp only []
    apply host_call_tail_calm
    apply RunEach_calm_from _ (fun acc b hacc =>
      BroadcastCreatePresenceSessionComplete_calm env acc b hacc) _ _ _ h
    exact ⟨rfl, [_], rfl, rfl⟩
  · exact Calm.calm_refl s

theorem JoinSession_calm (env : Env) (s : UShooterGameInstance) (p : ULocalPlayer)
    (SearchResult : FOnlineSessionSearchResult) (h : s.CurrentState ≠ FName.MessageMenu) :
    Calm s (JoinSession env s p SearchResult).2 := by
  unfold JoinSession
  split
  · simp only []
    apply session_call_tail_calm
    have h0 := (AddNetworkFailureHandlers_frame s).calm
    apply foldl_calm_from _ (fun acc r hacc =>
      BroadcastJoinSessionComplete_calm env acc r hacc) _ _ _ h
    refine h0.calm_trans ?_
    exact ⟨rfl, [_], rfl, rfl⟩
  · exact Calm.calm_refl s

/-! ### The periodic driver -/

/-- The exit and enter marks of a commit: at most one of each. -/
theorem CommitActions_count (Current Pending : FName) :
    (CommitActions Current Pending).countP Event.IsEndState ≤ 1 ∧
    (CommitActions Current Pending).countP Event.IsBeginState ≤ 1 := by
  unfold CommitActions
  by_cases h1 : HasStateActions Current <;> by_cases h2 : HasStateActions Pending <;>
    simp [h1, h2, Event.IsEndState, Event.IsBeginState]

/-- One `MaybeChangeState`: at most one exit and one enter action, also when the
process is terminated in one of them; and when it returns, the current state
stays or becomes the pending state. -/
theorem MaybeChangeState_once (env : Env) (s : UShooterGameInstance) :
    (∃ acts, TraceExt s (Ended (MaybeChangeState env s)) acts ∧
      acts.countP Event.IsEndState ≤ 1 ∧ acts.countP Event.IsBeginState ≤ 1) ∧
    (∀ s1, MaybeChangeState env s = Except.ok s1 →
      s1.CurrentState = s.CurrentState ∨ s1.CurrentState = s.PendingState) := by
  by_cases h : s.PendingState ≠ s.CurrentState ∧ s.PendingState ≠ FName.None
  · cases hm : MaybeChangeState env s with
    | ok s1 =>
      have hc := MaybeChangeState_commit env s s1 h.1 h.2 hm
      refine ⟨⟨_, hc.2.2.1, CommitActions_count _ _⟩, fun s2 h2 => ?_⟩
      cases h2
      exact Or.inr hc.1
    | error t =>
      refine ⟨?_, fun s2 h2 => by cases h2⟩
      rcases (MaybeChangeState_error env s t hm).2 with hT | hT
      · exact ⟨_, hT, by simp [Event.IsEndState], by simp [Event.IsBeginState]⟩
      · exact ⟨_, hT, CommitActions_count _ _⟩
  · have hidle : s.PendingState = s.CurrentState ∨ s.PendingState = FName.None := by
      by_contra hcon
      exact h ⟨fun h1 => hcon (Or.inl h1), fun h2 => hcon (Or.inr h2)⟩
    rw [MaybeChangeState_idle env s hidle]
    refine ⟨⟨[], TraceExt.trace_refl s, by simp, by simp⟩, fun s2 h2 => ?_⟩
    cases h2
    exact Or.inl rfl

theorem Ended_map_snd (r : Except UShooterGameInstance (Bool × UShooterGameInstance)) :
    Ended (r.map Prod.snd) = EndedCall r := by
  cases r <;> rfl

/-- What `Tick` does after its commit step, if it is not skipped, is calm, up to
the point where the process is terminated if it is. -/
theorem Tick_after_commit (env : Env) (s : UShooterGameInstance) :
    Tick env s = Except.ok (true, s) ∨
      (Calm (Ended (MaybeChangeState env s)) (EndedCall (Tick env s)) ∧
        (Returns (Tick env s) → Returns (MaybeChangeState env s))) := by
  unfold Tick
  split
  · exact Or.inl rfl
  · split
    · exact Or.inl rfl
    · right
      cases hm : MaybeChangeState env s with
      | error t => exact ⟨Calm.calm_refl t, fun h => absurd h (not_Returns_error t)⟩
      | ok s1 =>
      refine ⟨?_, fun _ => Returns_ok s1⟩
      simp only []
      show Calm s1 _
      split
      · rename_i hinvite
        have hcur : s1.CurrentState = FName.PendingInvite := by
          simp only [Bool.and_eq_true, decide_eq_true_eq] at hinvite
          exact hinvite.2
        have hmm : s1.CurrentState ≠ FName.MessageMenu := by
          rw [hcur]
          decide
        split
        · split
          · have key : ∀ r2 : Except UShooterGameInstance UShooterGameInstance,
                Calm s1 (Ended r2) →
                Calm s1 (EndedCall (match r2 with
                  | Except.ok s2 => Except.ok (true,
                      { s2 with PendingInvite := { s2.PendingInvite with UserId := none } })
                  | Except.error t => Except.error t)) := by
              intro r2 h2
              cases r2 with
              | ok s2 => exact ⟨h2.1, h2.2⟩
              | error t => exact h2
            refine key _ ?_
            split
            · have h3 := (SetFirstPlayerControllerId_frame s1
                s1.PendingInvite.ControllerId).calm
              have h4 := h3.calm_trans (SetFirstPlayerCachedUniqueNetId_frame _
                (s1.SetFirstPlayerControllerId
                  s1.PendingInvite.ControllerId).PendingInvite.UserId).calm
              have h5 := h4.calm_trans (SetOnlineMode_calm env _ EOnlineMode.Online)
              have hmm5 := hmm
              rw [← h5.1] at hmm5
              split
              · split
                · rw [Ended_map_snd]
                  exact h5.calm_trans (HostQuickSession_calm env _ _ _ hmm5)
                · exact h5.calm_trans (JoinSession_calm env _ _ _ hmm5)
              · exact h5
            · exact Calm.calm_refl _
          · exact Calm.calm_refl _
        · exact Calm.calm_refl _
      · exact Calm.calm_refl _

/-! ### Entering `MessageMenu` and `PendingInvite` by a commit -/

/-- The enter action of `MessageMenu` on an empty text: a warning and a request
for the initial state, nothing else. -/
theorem BeginMessageMenuState_empty (env : Env) (s : UShooterGameInstance)
    (h : s.PendingMessage.DisplayString = FText.GetEmpty) :
    BeginMessageMenuState env s =
      ((s.emit (Event.BeginState FName.MessageMenu)).emit (Event.LogWarning
        "UShooterGameInstance::BeginMessageMenuState: Display string is empty"
        [])).GotoInitialState := by
  unfold BeginMessageMenuState
  simp only []
  rw [if_pos (by simpa [FTextIsEmpty, emit] using h)]

/-- A commit that enters `MessageMenu` and returns leaves the pending message the
enter action leaves. -/
theorem MaybeChangeState_MessageMenu_PendingMessage (env : Env) (s s2 : UShooterGameInstance)
    (hp : s.PendingState = FName.MessageMenu) (hne : s.CurrentState ≠ FName.MessageMenu)
    (h : MaybeChangeState env s = Except.ok s2) :
    ∃ s1, EndCurrentState env s s.PendingState = Except.ok s1 ∧
      s2.PendingMessage = (BeginMessageMenuState env s1).PendingMessage := by
  unfold MaybeChangeState at h
  rw [if_pos ⟨by rw [hp]; exact fun h => hne h.symm, by rw [hp]; decide⟩] at h
  simp only [] at h
  cases hE : EndCurrentState env s s.PendingState with
  | error t => rw [hE] at h; cases h
  | ok s1 =>
    rw [hE] at h
    simp only [] at h
    have hP : s1.PendingState = FName.MessageMenu :=
      (EndCurrentState_spec env s s1 _ hE).2.1.trans hp
    rw [hP] at h
    unfold BeginNewState at h
    simp only [reduceCtorEq, if_false, if_true] at h
    cases h
    exact ⟨s1, rfl, rfl⟩

/-- After `GotoState(MessageMenu)` a commit from another state that returns ends
with the current state `MessageMenu` and nothing pending, whatever the enter
action asked for. -/
theorem MaybeChangeState_GotoState_MessageMenu (env : Env) (s s2 : UShooterGameInstance)
    (hne : s.CurrentState ≠ FName.MessageMenu)
    (h : MaybeChangeState env (s.GotoState FName.MessageMenu) = Except.ok s2) :
    s2.CurrentState = FName.MessageMenu ∧ s2.PendingState = FName.None := by
  have h := MaybeChangeState_commit env (s.GotoState FName.MessageMenu) s2
    (by rw [GotoState_PendingState, GotoState_CurrentState]; exact fun h => hne h.symm)
    (by rw [GotoState_PendingState]; decide) h
  exact ⟨h.1, h.2.1⟩

/-! ### Session operations: the verdict -/

theorem VerdictTail_contract (bAccepted : Bool) (s3 : UShooterGameInstance) :
    VerdictContract (VerdictTail bAccepted s3) s3 true bAccepted := by
  unfold VerdictContract VerdictTail
  by_cases ha : bAccepted = true
  · by_cases hp : s3.PendingState = s3.CurrentState ∨ s3.PendingState = FName.None
    · simp [ha, hp, GotoState]
    · simp [ha, hp]
  · simp [ha]

theorem no_session_contract (bAccepted : Bool) (s : UShooterGameInstance) :
    VerdictContract (false, s) s false bAccepted := by
  simp [VerdictContract]

/-- The tail of a host operation is `VerdictTail` of the state in which the call
to the session returned. -/
theorem host_call_tail_eq (R : Except UShooterGameInstance UShooterGameInstance)
    (bAccepted : Bool) :
    (match R with
      | Except.ok s3 =>
        if bAccepted then
          if s3.PendingState = s3.CurrentState ∨ s3.PendingState = FName.None then
            Except.ok (true, s3.GotoState FName.Playing)
          else Except.ok (false, s3)
        else Except.ok (false, s3)
      | Except.error t => Except.error t) =
    (match R with
      | Except.ok after => Except.ok (VerdictTail bAccepted after)
      | Except.error t => Except.error t) := by
  cases R with
  | error t => rfl
  | ok s3 =>
    unfold VerdictTail
    by_cases ha : bAccepted = true
    · by_cases hp : s3.PendingState = s3.CurrentState ∨ s3.PendingState = FName.None
      · simp [ha, hp]
      · simp [ha, hp]
    · simp [ha]

theorem HostGame_online (env : Env) (s : UShooterGameInstance) (LocalPlayer : ULocalPlayer)
    (GameType InTravelURL : String) (honline : s.OnlineMode ≠ EOnlineMode.Offline) :
    HostGame env s LocalPlayer GameType InTravelURL =
      match HostGameAfterCall env s LocalPlayer GameType InTravelURL with
      | Except.ok after =>
        Except.ok (if s.GameSession.isSome then VerdictTail env.HostSessionReply.Accepted after
          else (false, s))
      | Except.error t => Except.error t := by
  unfold HostGame HostGameAfterCall GetOnlineMode
  rw [if_neg honline]
  cases hgs : s.GameSession with
  | none => rfl
  | some g =>
    simp only [Option.isSome_some, if_true]
    exact host_call_tail_eq _ _

theorem HostQuickSession_eq (env : Env) (s : UShooterGameInstance) (LocalPlayer : ULocalPlayer)
    (SessionSettings : FOnlineSessionSettings) :
    HostQuickSession env s LocalPlayer SessionSettings =
      match HostQuickSessionAfterCall env s LocalPlayer SessionSettings with
      | Except.ok after =>
        Except.ok (if s.GameSession.isSome then VerdictTail env.HostSessionReply.Accepted after
          else (false, s))
      | Except.error t => Except.error t := by
  unfold HostQuickSession HostQuickSessionAfterCall
  cases hgs : s.GameSession with
  | none => rfl
  | some g =>
    simp only [Option.isSome_some, if_true]
    exact host_call_tail_eq _ _

theorem JoinSession_eq (env : Env) (s : UShooterGameInstance) (LocalPlayer : ULocalPlayer)
    (SearchResult : FOnlineSessionSearchResult) :
    JoinSession env s LocalPlayer SearchResult =
      if s.GameSession.isSome then
        VerdictTail env.JoinSessionReply.Accepted
          (JoinAfterCall env s
            (Event.JoinSession (LocalPlayer.GetPreferredUniqueNetId env) SearchResult))
      else (false, s) := by
  unfold JoinSession JoinAfterCall JoinRegistered VerdictTail
  cases hgs : s.GameSession <;> rfl

theorem JoinSessionAtIndex_eq (env : Env) (s : UShooterGameInstance)
    (LocalPlayer : ULocalPlayer) (Index : Int) :
    JoinSessionAtIndex env s LocalPlayer Index =
      if s.GameSession.isSome then
        VerdictTail env.JoinSessionReply.Accepted
          (JoinAfterCall env s
            (Event.JoinSessionAtIndex (LocalPlayer.GetPreferredUniqueNetId env) Index))
      else (false, s) := by
  unfold JoinSessionAtIndex JoinAfterCall JoinRegistered VerdictTail
  cases hgs : s.GameSession <;> rfl

/-- The contract of a session operation that is `VerdictTail` of its state after
the call when there is a game session, and does nothing otherwise. -/
theorem contract_of_eq (r : Bool × UShooterGameInstance) (s after : UShooterGameInstance)
    (bAccepted : Bool) (hnone : s.GameSession.isSome = false → after = s)
    (h : r = if s.GameSession.isSome then VerdictTail bAccepted after else (false, s)) :
    VerdictContract r after s.GameSession.isSome bAccepted := by
  by_cases hgs : s.GameSession.isSome = true
  · rw [h, if_pos hgs, hgs]
    exact VerdictTail_contract bAccepted after
  · have hf : s.GameSession.isSome = false := by simpa using hgs
    rw [h, if_neg hgs, hf, hnone hf]
    exact no_session_contract bAccepted s

/-- The contract of a host operation that is `VerdictTail` of its state after the
call when there is a game session and the call returned, does nothing without a
game session, and ends where the call terminated the process. -/
theorem host_contract_of_eq (r : Except UShooterGameInstance (Bool × UShooterGameInstance))
    (s : UShooterGameInstance) (after : Except UShooterGameInstance UShooterGameInstance)
    (bAccepted : Bool)
    (h : r = match after with
      | Except.ok a =>
        Except.ok (if s.GameSession.isSome then VerdictTail bAccepted a else (false, s))
      | Except.error t => Except.error t)
    (hnone : s.GameSession.isSome = false → after = Except.ok s) :
    HostVerdictContract r after s.GameSession.isSome bAccepted := by
  cases after with
  | error t => exact h
  | ok a =>
    exact ⟨_, h, contract_of_eq _ s a bAccepted
      (fun hf => by
        have := hnone hf
        cases this
        rfl) rfl⟩

theorem HostGameAfterCall_none (env : Env) (s : UShooterGameInstance) (p : ULocalPlayer)
    (GameType URL : String) (h : s.GameSession.isSome = false) :
    HostGameAfterCall env s p GameType URL = Except.ok s := by
  unfold HostGameAfterCall
  cases hgs : s.GameSession
  · rfl
  · rw [hgs] at h
    cases h

theorem HostQuickSessionAfterCall_none (env : Env) (s : UShooterGameInstance)
    (p : ULocalPlayer) (Settings : FOnlineSessionSettings) (h : s.GameSession.isSome = false) :
    HostQuickSessionAfterCall env s p Settings = Except.ok s := by
  unfold HostQuickSessionAfterCall
  cases hgs : s.GameSession
  · rfl
  · rw [hgs] at h
    cases h

theorem JoinAfterCall_none (env : Env) (s : UShooterGameInstance) (Call : Event)
    (h : s.GameSession.isSome = false) : JoinAfterCall env s Call = s := by
  unfold JoinAfterCall
  cases hgs : s.GameSession
  · rfl
  · rw [hgs] at h
    cases h

/-! ### What a message request, a travel and a completion may change -/

theorem MessageStep.step_refl (s : UShooterGameInstance) : MessageStep s s :=
  ⟨Or.inl rfl, rfl, rfl, rfl, rfl, rfl⟩

theorem MessageStep.step_trans {a b c : UShooterGameInstance}
    (h1 : MessageStep a b) (h2 : MessageStep b c) : MessageStep a c := by
  refine ⟨?_, h2.GameSession.trans h1.GameSession, h2.JoinHandle.trans h1.JoinHandle,
    h2.CreateHandle.trans h1.CreateHandle, h2.LocalPlayers.trans h1.LocalPlayers,
    h2.TravelURL.trans h1.TravelURL⟩
  rcases h2.PendingState with h | h | h
  · rw [h]
    exact h1.PendingState
  · exact Or.inr (Or.inl h)
  · exact Or.inr (Or.inr h)

theorem MessageStep.step_emit (s : UShooterGameInstance) (e : Event) :
    MessageStep s (s.emit e) :=
  ⟨Or.inl rfl, rfl, rfl, rfl, rfl, rfl⟩

theorem RemoveNetworkFailureHandlers_step (s : UShooterGameInstance) :
    MessageStep s s.RemoveNetworkFailureHandlers := by
  unfold RemoveNetworkFailureHandlers
  split
  · exact ⟨Or.inl rfl, rfl, rfl, rfl, rfl, rfl⟩
  · exact MessageStep.step_refl s

theorem BeginMessageMenuState_step (env : Env) (s : UShooterGameInstance) :
    MessageStep s (BeginMessageMenuState env s) := by
  unfold BeginMessageMenuState
  simp only []
  split
  · exact ⟨Or.inr (Or.inr rfl), rfl, rfl, rfl, rfl, rfl⟩
  · split <;> exact ⟨Or.inl rfl, rfl, rfl, rfl, rfl, rfl⟩

theorem ShowMessageThenGotoState_step (env : Env) (s : UShooterGameInstance)
    (Message OK Cancel : FText) (NewState : FName) (Override : Bool) (Owner : Option Nat) :
    MessageStep s (ShowMessageThenGotoState env s Message OK Cancel NewState Override Owner) := by
  rcases ShowMessageThenGotoState_cases env s Message OK Cancel NewState Override Owner with
    ⟨_, line, _, heq⟩ | ⟨_, heq⟩
  · rw [heq]
    exact ⟨Or.inl rfl, rfl, rfl, rfl, rfl, rfl⟩
  · rw [heq]
    split
    · refine MessageStep.step_trans (b := ((StoreMessage s Message OK Cancel NewState Owner).emit
        (Event.Log "ShowMessageThenGotoState: Forcing new message" [])).EndMessageMenuState) ?_
        (BeginMessageMenuState_step env _)
      exact ⟨Or.inl rfl, rfl, rfl, rfl, rfl, rfl⟩
    · exact ⟨Or.inr (Or.inl rfl), rfl, rfl, rfl, rfl, rfl⟩

theorem ShowMessageThenGoMain_step (env : Env) (s : UShooterGameInstance)
    (Message OK Cancel : FText) : MessageStep s (ShowMessageThenGoMain env s Message OK Cancel) :=
  ShowMessageThenGotoState_step env s Message OK Cancel FName.MainMenu true none

theorem ShowMessageThenGoMain_after_remove_step (env : Env) (s : UShooterGameInstance)
    (Message OK Cancel : FText) :
    MessageStep s (ShowMessageThenGoMain env s.RemoveNetworkFailureHandlers Message OK Cancel) :=
  (RemoveNetworkFailureHandlers_step s).step_trans (ShowMessageThenGoMain_step env _ _ _ _)

theorem InternalTravelToSession_step (env : Env) (s : UShooterGameInstance) (n : FName) :
    MessageStep s (InternalTravelToSession env s n) := by
  unfold InternalTravelToSession
  split
  · exact ShowMessageThenGoMain_after_remove_step env s _ _ _
  · split
    · exact ShowMessageThenGoMain_after_remove_step env s _ _ _
    · split
      · exact (ShowMessageThenGoMain_step env s _ _ _).step_trans (MessageStep.step_emit _ _)
      · exact MessageStep.step_emit _ _

theorem FinishJoinSession_step (env : Env) (s : UShooterGameInstance)
    (Result : EOnJoinSessionCompleteResult) : MessageStep s (FinishJoinSession env s Result) := by
  unfold FinishJoinSession
  split
  · exact ShowMessageThenGoMain_after_remove_step env s _ _ _
  · exact InternalTravelToSession_step env s _

theorem RegisterSplitscreenPlayer_step (env : Env) (s : UShooterGameInstance) (b : Bool) :
    MessageStep s (RegisterSplitscreenPlayer env s b) := by
  unfold RegisterSplitscreenPlayer
  split
  · split
    · exact MessageStep.step_emit _ _
    · exact MessageStep.step_refl s
  · exact MessageStep.step_refl s

theorem FinishSessionCreation_step (env : Env) (s : UShooterGameInstance)
    (Result : EOnJoinSessionCompleteResult) :
    MessageStep s (Ended (FinishSessionCreation env s Result)) := by
  unfold FinishSessionCreation
  split
  · split
    · exact MessageStep.step_emit _ _
    · exact MessageStep.step_refl s
  · exact ShowMessageThenGoMain_step env s _ _ _

/-! ### The completion handlers -/

theorem OnJoinSessionComplete_eq (env : Env) (s : UShooterGameInstance)
    (Result : EOnJoinSessionCompleteResult) :
    OnJoinSessionComplete env s Result =
      if Result = EOnJoinSessionCompleteResult.Success ∧ s.LocalPlayers.length > 1 then
        RegisterSplitscreenPlayer env s.RemoveJoinBinding true
      else FinishJoinSession env s.RemoveJoinBinding Result := by
  unfold OnJoinSessionComplete RemoveJoinBinding
  cases hgs : s.GameSession <;> rfl

theorem OnCreatePresenceSessionComplete_eq (env : Env) (s : UShooterGameInstance)
    (n : FName) (b : Bool) :
    OnCreatePresenceSessionComplete env s n b =
      if s.GameSession.isSome then
        if b = true ∧ s.LocalPlayers.length > 1 then
          Except.ok (RegisterSplitscreenPlayer env s.RemoveCreateBinding false)
        else FinishSessionCreation env s.RemoveCreateBinding
          (if b then EOnJoinSessionCompleteResult.Success
           else EOnJoinSessionCompleteResult.UnknownError)
      else Except.ok s := by
  unfold OnCreatePresenceSessionComplete RemoveCreateBinding
  cases hgs : s.GameSession <;> rfl

theorem RemoveJoinBinding_unregistered (s : UShooterGameInstance) :
    JoinHandleUnregistered s.RemoveJoinBinding s.OnJoinSessionCompleteDelegateHandle := by
  unfold JoinHandleUnregistered RemoveJoinBinding
  intro g hg hmem
  cases hgs : s.GameSession with
  | none =>
    rw [hgs] at hg
    simp only [] at hg
    rw [hgs] at hg
    cases hg
  | some g0 =>
    rw [hgs] at hg
    simp only [Option.some.injEq] at hg
    subst hg
    simp at hmem

theorem RemoveCreateBinding_unregistered (s : UShooterGameInstance) :
    CreateHandleUnregistered s.RemoveCreateBinding
      s.OnCreatePresenceSessionCompleteDelegateHandle := by
  unfold CreateHandleUnregistered RemoveCreateBinding
  intro g hg hmem
  cases hgs : s.GameSession with
  | none =>
    rw [hgs] at hg
    simp only [] at hg
    rw [hgs] at hg
    cases hg
  | some g0 =>
    rw [hgs] at hg
    simp only [Option.some.injEq] at hg
    subst hg
    simp at hmem

/-- Removing a binding changes nothing but the game session. -/
theorem RemoveJoinBinding_frame (s : UShooterGameInstance) :
    s.RemoveJoinBinding.Trace = s.Trace ∧
    s.RemoveJoinBinding.PendingMessage = s.PendingMessage ∧
    s.RemoveJoinBinding.PendingState = s.PendingState ∧
    s.RemoveJoinBinding.CurrentState = s.CurrentState ∧
    s.RemoveJoinBinding.OnJoinSessionCompleteDelegateHandle
      = s.OnJoinSessionCompleteDelegateHandle := by
  unfold RemoveJoinBinding
  cases hgs : s.GameSession <;> exact ⟨rfl, rfl, rfl, rfl, rfl⟩

theorem RemoveCreateBinding_frame (s : UShooterGameInstance) :
    s.RemoveCreateBinding.Trace = s.Trace ∧
    s.RemoveCreateBinding.PendingMessage = s.PendingMessage ∧
    s.RemoveCreateBinding.PendingState = s.PendingState ∧
    s.RemoveCreateBinding.CurrentState = s.CurrentState ∧
    s.RemoveCreateBinding.OnCreatePresenceSessionCompleteDelegateHandle
      = s.OnCreatePresenceSessionCompleteDelegateHandle := by
  unfold RemoveCreateBinding
  cases hgs : s.GameSession <;> exact ⟨rfl, rfl, rfl, rfl, rfl⟩

/-- What `OnJoinSessionComplete` does after the removal is a message step. -/
theorem OnJoinSessionComplete_step (env : Env) (s : UShooterGameInstance)
    (Result : EOnJoinSessionCompleteResult) :
    MessageStep s.RemoveJoinBinding (OnJoinSessionComplete env s Result) := by
  rw [OnJoinSessionComplete_eq]
  split
  · exact RegisterSplitscreenPlayer_step env _ true
  · exact FinishJoinSession_step env _ Result

/-- What `OnCreatePresenceSessionComplete` does after the removal is a message
step. -/
theorem OnCreatePresenceSessionComplete_step (env : Env) (s : UShooterGameInstance)
    (n : FName) (b : Bool) :
    MessageStep s.RemoveCreateBinding (Ended (OnCreatePresenceSessionComplete env s n b)) := by
  rw [OnCreatePresenceSessionComplete_eq]
  split
  · split
    · exact RegisterSplitscreenPlayer_step env _ false
    · exact FinishSessionCreation_step env _ _
  · rename_i hnone
    have : s.RemoveCreateBinding = s := by
      unfold RemoveCreateBinding
      cases hgs : s.GameSession
      · rfl
      · rw [hgs] at hnone
        simp at hnone
    rw [this]
    exact MessageStep.step_refl s

/-! ### The pending state across a session call -/

theorem PendingStep.pending_refl (s : UShooterGameInstance) : PendingStep s s :=
  Or.inl rfl

theorem PendingStep.pending_trans {a b c : UShooterGameInstance}
    (h1 : PendingStep a b) (h2 : PendingStep b c) : PendingStep a c := by
  rcases h2 with h | h | h
  · unfold PendingStep
    rw [h]
    exact h1
  · exact Or.inr (Or.inl h)
  · exact Or.inr (Or.inr h)

/-- A pending step never makes `Playing` pending. -/
theorem PendingStep.not_newly_Playing {a b : UShooterGameInstance} (h : PendingStep a b)
    (hb : b.PendingState = FName.Playing) : a.PendingState = FName.Playing := by
  rcases h with h | h | h
  · rw [← h]
    exact hb
  · rw [hb] at h
    cases h
  · rw [hb] at h
    cases h

theorem foldl_PendingStep {α : Type} (f : UShooterGameInstance → α → UShooterGameInstance)
    (hf : ∀ s a, PendingStep s (f s a)) (l : List α) (s : UShooterGameInstance) :
    PendingStep s (l.foldl f s) := by
  induction l generalizing s with
  | nil => exact PendingStep.pending_refl s
  | cons a l ih => exact (hf s a).pending_trans (ih (f s a))

theorem RunEach_PendingStep {α : Type}
    (f : UShooterGameInstance → α → Except UShooterGameInstance UShooterGameInstance)
    (hf : ∀ s a, PendingStep s (Ended (f s a))) (l : List α) (s : UShooterGameInstance) :
    PendingStep s (Ended (RunEach f l s)) := by
  induction l generalizing s with
  | nil => exact PendingStep.pending_refl s
  | cons a l ih =>
    have h1 := hf s a
    unfold RunEach
    cases hfa : f s a with
    | ok s1 =>
      rw [hfa] at h1
      exact PendingStep.pending_trans (b := s1) h1 (ih s1)
    | error t =>
      rw [hfa] at h1
      exact h1

theorem OnJoinSessionComplete_PendingStep (env : Env) (s : UShooterGameInstance)
    (Result : EOnJoinSessionCompleteResult) :
    PendingStep s (OnJoinSessionComplete env s Result) := by
  have h := (OnJoinSessionComplete_step env s Result).PendingState
  rw [(RemoveJoinBinding_frame s).2.2.1] at h
  exact h

theorem OnCreatePresenceSessionComplete_PendingStep (env : Env) (s : UShooterGameInstance)
    (n : FName) (b : Bool) :
    PendingStep s (Ended (OnCreatePresenceSessionComplete env s n b)) := by
  have h := (OnCreatePresenceSessionComplete_step env s n b).PendingState
  rw [(RemoveCreateBinding_frame s).2.2.1] at h
  exact h

theorem BroadcastJoinSessionComplete_PendingStep (env : Env) (s : UShooterGameInstance)
    (Result : EOnJoinSessionCompleteResult) :
    PendingStep s (BroadcastJoinSessionComplete env s Result) := by
  unfold BroadcastJoinSessionComplete
  split
  · apply foldl_PendingStep
    intro acc hd
    split
    · split
      · exact OnJoinSessionComplete_PendingStep env acc Result
      · exact PendingStep.pending_refl acc
    · exact PendingStep.pending_refl acc
  · exact PendingStep.pending_refl s

theorem BroadcastCreatePresenceSessionComplete_PendingStep (env : Env)
    (s : UShooterGameInstance) (b : Bool) :
    PendingStep s (Ended (BroadcastCreatePresenceSessionComplete env s b)) := by
  unfold BroadcastCreatePresenceSessionComplete
  split
  · apply RunEach_PendingStep
    intro acc hd
    split
    · split
      · exact OnCreatePresenceSessionComplete_PendingStep env acc _ b
      · exact PendingStep.pending_refl acc
    · exact PendingStep.pending_refl acc
  · exact PendingStep.pending_refl s

theorem AddNetworkFailureHandlers_Trace (s : UShooterGameInstance) :
    s.AddNetworkFailureHandlers.Trace = s.Trace := by
  unfold AddNetworkFailureHandlers
  split <;> rfl

theorem JoinRegistered_frame (s : UShooterGameInstance) :
    s.JoinRegistered.PendingState = s.PendingState ∧
    s.JoinRegistered.PendingMessage = s.PendingMessage ∧
    s.JoinRegistered.Trace = s.Trace := by
  have h := AddNetworkFailureHandlers_frame s
  unfold JoinRegistered
  cases hgs : s.GameSession
  · exact ⟨rfl, rfl, rfl⟩
  · exact ⟨h.PendingState, h.PendingMessage, AddNetworkFailureHandlers_Trace s⟩

theorem JoinAfterCall_PendingStep (env : Env) (s : UShooterGameInstance) (Call : Event) :
    PendingStep s (JoinAfterCall env s Call) := by
  unfold JoinAfterCall
  split
  · refine PendingStep.pending_trans (b := s.JoinRegistered.emit Call) ?_
      (foldl_PendingStep _ (fun acc r => BroadcastJoinSessionComplete_PendingStep env acc r) _ _)
    exact Or.inl (JoinRegistered_frame s).1
  · exact PendingStep.pending_refl s

theorem HostGameAfterCall_PendingStep (env : Env) (s : UShooterGameInstance)
    (p : ULocalPlayer) (GameType URL : String) :
    PendingStep s (Ended (HostGameAfterCall env s p GameType URL)) := by
  unfold HostGameAfterCall
  split
  · exact PendingStep.pending_trans (Or.inl rfl)
      (RunEach_PendingStep _
        (fun acc b => BroadcastCreatePresenceSessionComplete_PendingStep env acc b) _ _)
  · exact PendingStep.pending_refl s

/-- Without a synchronous completion the join call leaves the pending state and
the pending message alone and only records the call. -/
theorem JoinAfterCall_no_completion (env : Env) (s : UShooterGameInstance) (Call : Event)
    (h : env.JoinSessionReply.Completions = []) :
    (JoinAfterCall env s Call).PendingState = s.PendingState ∧
    (JoinAfterCall env s Call).PendingMessage = s.PendingMessage ∧
    (JoinAfterCall env s Call).Trace = s.Trace ++ (if s.GameSession.isSome then [Call] else []) := by
  unfold JoinAfterCall
  cases hgs : s.GameSession
  · simp
  · simp only [h, List.foldl_nil, Option.isSome_some, if_true]
    obtain ⟨h1, h2, h3⟩ := JoinRegistered_frame s
    exact ⟨h1, h2, by simp [emit, h3]⟩

/-- Without a synchronous completion the host call leaves the pending state and
the pending message alone. -/
theorem HostGameAfterCall_no_completion (env : Env) (s : UShooterGameInstance)
    (p : ULocalPlayer) (GameType URL : String) (h : env.HostSessionReply.Completions = []) :
    ∃ after, HostGameAfterCall env s p GameType URL = Except.ok after ∧
      after.PendingState = s.PendingState ∧ after.PendingMessage = s.PendingMessage := by
  unfold HostGameAfterCall
  cases hgs : s.GameSession
  · exact ⟨_, rfl, rfl, rfl⟩
  · simp only [h, RunEach]
    exact ⟨_, rfl, rfl, rfl⟩

/-! ### Message requests and travels in the trace -/

theorem Outcome.outcome_trans {a b c : UShooterGameInstance} {x y : List Event}
    (h1 : Outcome a b x) (h2 : Outcome b c y) : Outcome a c (x ++ y) := by
  obtain ⟨u, hu, hx⟩ := h1
  obtain ⟨v, hv, hy⟩ := h2
  exact ⟨u ++ v, by rw [hv, hu, List.append_assoc], by rw [List.filter_append, hx, hy]⟩

theorem Outcome.of_Trace_eq_left {a b c : UShooterGameInstance} {x : List Event}
    (h : a.Trace = b.Trace) (h1 : Outcome b c x) : Outcome a c x := by
  obtain ⟨u, hu, hx⟩ := h1
  exact ⟨u, by rw [h, hu], hx⟩

theorem RemoveNetworkFailureHandlers_Trace (s : UShooterGameInstance) :
    s.RemoveNetworkFailureHandlers.Trace = s.Trace := by
  unfold RemoveNetworkFailureHandlers
  split <;> rfl

/-- None of the four "Ignoring" lines is the opening line of a request. -/
theorem IgnoredLines_not_request (line : String) (h : line ∈ IgnoredLines) :
    IsMessageOrTravel (Event.Log line []) = false := by
  unfold IgnoredLines at h
  simp only [List.mem_cons, List.mem_singleton, List.not_mem_nil, or_false] at h
  rcases h with h | h | h | h <;> subst h <;> decide

/-- The enter action of `MessageMenu` requests no message and no travel. -/
theorem BeginMessageMenuState_Outcome (env : Env) (s : UShooterGameInstance) :
    Outcome s (BeginMessageMenuState env s) [] := by
  unfold BeginMessageMenuState
  simp only []
  split
  · simp only [Outcome, emit, GotoInitialState, GotoState, List.append_assoc]
    exact ⟨_, rfl, rfl⟩
  · split
    · simp only [Outcome, emit, List.append_assoc]
      exact ⟨_, rfl, rfl⟩
    · simp only [Outcome, emit, List.append_assoc]
      exact ⟨_, rfl, rfl⟩

/-- Every call of `ShowMessageThenGotoState` leaves exactly one request in the
trace, its own, and no travel. -/
theorem ShowMessageThenGotoState_Outcome (env : Env) (s : UShooterGameInstance)
    (Message OK Cancel : FText) (NewState : FName) (Override : Bool) (Owner : Option Nat) :
    Outcome s (ShowMessageThenGotoState env s Message OK Cancel NewState Override Owner)
      [MessageRequest Message NewState] := by
  rcases ShowMessageThenGotoState_cases env s Message OK Cancel NewState Override Owner with
    ⟨_, line, hline, heq⟩ | ⟨_, heq⟩
  · rw [heq]
    refine ⟨[MessageRequest Message NewState, Event.Log line []], ?_, ?_⟩
    · simp [emit, MessageRequest]
    · have hl := IgnoredLines_not_request line hline
      simp only [List.filter, hl]
      rfl
  · rw [heq]
    have hstore : Outcome s ((StoreMessage s Message OK Cancel NewState Owner).emit
        (Event.Log "ShowMessageThenGotoState: Forcing new message" [])).EndMessageMenuState
        [MessageRequest Message NewState] := by
      simp only [Outcome, emit, StoreMessage, EndMessageMenuState, List.append_assoc]
      exact ⟨_, rfl, rfl⟩
    split
    · have := hstore.outcome_trans (BeginMessageMenuState_Outcome env _)
      simpa using this
    · simp only [Outcome, emit, StoreMessage, GotoState, List.append_assoc]
      exact ⟨_, rfl, rfl⟩

theorem ShowMessageThenGoMain_after_remove_Outcome (env : Env) (s : UShooterGameInstance)
    (Message OK Cancel : FText) :
    Outcome s (ShowMessageThenGoMain env s.RemoveNetworkFailureHandlers Message OK Cancel)
      [MessageRequest Message FName.MainMenu] :=
  Outcome.of_Trace_eq_left (RemoveNetworkFailureHandlers_Trace s).symm
    (ShowMessageThenGotoState_Outcome env _ Message OK Cancel FName.MainMenu true none)

/-- The one message or travel that `InternalTravelToSession` leaves in the trace:
a request with one of its three texts, or a client travel. -/
theorem InternalTravelToSession_Outcome (env : Env) (s : UShooterGameInstance) (n : FName) :
    ∃ e, Outcome s (InternalTravelToSession env s n) [e] ∧
      (e = MessageRequest "Invalid Player Controller" FName.MainMenu ∨
       e = MessageRequest "OSS missing" FName.MainMenu ∨
       e = MessageRequest "Travel to Session failed." FName.MainMenu ∨
       ∃ URL, e = Event.ClientTravel URL) := by
  unfold InternalTravelToSession
  split
  · exact ⟨_, ShowMessageThenGoMain_after_remove_Outcome env s _ _ _, Or.inl rfl⟩
  · split
    · exact ⟨_, ShowMessageThenGoMain_after_remove_Outcome env s _ _ _, Or.inr (Or.inl rfl)⟩
    · split
      · refine ⟨_, ?_, Or.inr (Or.inr (Or.inl rfl))⟩
        have h1 := ShowMessageThenGotoState_Outcome env s "Travel to Session failed." "OK"
          FText.GetEmpty FName.MainMenu true none
        have h2 : Outcome (ShowMessageThenGoMain env s "Travel to Session failed." "OK"
            FText.GetEmpty)
            ((ShowMessageThenGoMain env s "Travel to Session failed." "OK" FText.GetEmpty).emit
              (Event.LogWarning "Failed to travel to session upon joining it" [])) [] :=
          ⟨[_], rfl, rfl⟩
        simpa using Outcome.outcome_trans h1 h2
      · exact ⟨_, ⟨[_], rfl, rfl⟩, Or.inr (Or.inr (Or.inr ⟨_, rfl⟩))⟩

/-- A session operation whose call was not accepted returns false in the state
the call returned in. -/
theorem VerdictContract.rejected {r : Bool × UShooterGameInstance}
    {after : UShooterGameInstance} {bHasSession : Bool}
    (h : VerdictContract r after bHasSession false) : r.1 = false ∧ r.2 = after := by
  have hf : r.1 = false := by
    cases hr : r.1
    · rfl
    · have := (h.1.1 hr).2.1
      cases this
  exact ⟨hf, h.2.2 hf⟩

/-- The text of the `switch` in `FinishJoinSession` is the text of the
specification. -/
theorem FinishJoinSession_failed (env : Env) (s : UShooterGameInstance)
    (Result : EOnJoinSessionCompleteResult)
    (h : Result ≠ EOnJoinSessionCompleteResult.Success) :
    FinishJoinSession env s Result =
      ShowMessageThenGotoState env s.RemoveNetworkFailureHandlers (JoinFailureText Result)
        "OK" FText.GetEmpty FName.MainMenu true none := by
  unfold FinishJoinSession
  rw [if_pos h]
  cases Result <;> first | exact absurd rfl h | rfl

/-- None of the texts of `InternalTravelToSession` is a join-failure text, and a
travel is no request. -/
theorem travel_outcome_is_no_join_failure (e : Event)
    (he : e = MessageRequest "Invalid Player Controller" FName.MainMenu ∨
       e = MessageRequest "OSS missing" FName.MainMenu ∨
       e = MessageRequest "Travel to Session failed." FName.MainMenu ∨
       ∃ URL, e = Event.ClientTravel URL)
    (Result : EOnJoinSessionCompleteResult) :
    e ≠ MessageRequest (JoinFailureText Result) FName.MainMenu := by
  rcases he with he | he | he | ⟨URL, he⟩
  · subst he
    cases Result <;> decide
  · subst he
    cases Result <;> decide
  · subst he
    cases Result <;> decide
  · subst he
    intro hcon
    cases hcon

/-- With no registration left on the join event, a broadcast of a join completion
reaches no handler: the state is unchanged. -/
theorem BroadcastJoinSessionComplete_without_binding (env : Env) (s : UShooterGameInstance)
    (Result : EOnJoinSessionCompleteResult)
    (h : ∀ g, s.GameSession = some g → g.JoinSessionCompleteEvent = []) :
    BroadcastJoinSessionComplete env s Result = s := by
  unfold BroadcastJoinSessionComplete
  cases hgs : s.GameSession with
  | none => rfl
  | some g =>
    simp only []
    rw [h g hgs]
    rfl

/-! ## The claims -/

/-- C1: after a non-empty run of `GotoState` calls with no commit in between, the
pending state is the target of the last call, and the current state, the pending
message and the online mode are what they were before the first call. -/
theorem GotoState_last_write_wins (s : UShooterGameInstance) (targets : List FName)
    (h : targets ≠ []) :
    (targets.foldl GotoState s).PendingState = targets.getLast h ∧
    (targets.foldl GotoState s).CurrentState = s.CurrentState ∧
    (targets.foldl GotoState s).PendingMessage = s.PendingMessage ∧
    (targets.foldl GotoState s).OnlineMode = s.OnlineMode :=
  ⟨foldl_GotoState_PendingState targets s h, foldl_GotoState_frame targets s⟩

/-- Witness of C1: three requests on a freshly constructed instance. -/
theorem GotoState_last_write_wins_witness :
    ([FName.Playing, FName.WelcomeScreen, FName.MainMenu].foldl GotoState
        (Constructed "Welcome" "Menu")).PendingState = FName.MainMenu ∧
    ([FName.Playing, FName.WelcomeScreen, FName.MainMenu].foldl GotoState
        (Constructed "Welcome" "Menu")).CurrentState = FName.None :=
  ⟨(GotoState_last_write_wins (Constructed "Welcome" "Menu")
      [FName.Playing, FName.WelcomeScreen, FName.MainMenu] (by decide)).1,
   (GotoState_last_write_wins (Constructed "Welcome" "Menu")
      [FName.Playing, FName.WelcomeScreen, FName.MainMenu] (by decide)).2.1⟩

/-- C3: `MaybeChangeState` returns the state unchanged, trace included (so no exit
or enter action ran), whenever the pending state equals the current state or is
`None`; and a second `MaybeChangeState` right after a first one changes nothing:
the two calls in a row end as the first call alone does. -/
theorem MaybeChangeState_noop_and_idempotent (env env2 : Env) (s : UShooterGameInstance) :
    ((s.PendingState = s.CurrentState ∨ s.PendingState = FName.None) →
      MaybeChangeState env s = Except.ok s) ∧
    (MaybeChangeState env s).bind (MaybeChangeState env2) = MaybeChangeState env s := by
  refine ⟨MaybeChangeState_idle env s, ?_⟩
  cases hm : MaybeChangeState env s with
  | error t => rfl
  | ok s1 =>
    show MaybeChangeState env2 s1 = Except.ok s1
    by_cases h : s.PendingState ≠ s.CurrentState ∧ s.PendingState ≠ FName.None
    · exact MaybeChangeState_idle env2 _
        (Or.inr (MaybeChangeState_commit env s s1 h.1 h.2 hm).2.1)
    · have hidle : s.PendingState = s.CurrentState ∨ s.PendingState = FName.None := by
        by_contra hcon
        exact h ⟨fun h1 => hcon (Or.inl h1), fun h2 => hcon (Or.inr h2)⟩
      rw [MaybeChangeState_idle env s hidle] at hm
      cases hm
      exact MaybeChangeState_idle env2 s hidle

/-- Witness of C3: nothing is pending on a freshly constructed instance. -/
theorem MaybeChangeState_noop_and_idempotent_witness :
    MaybeChangeState Env.Client (Constructed "Welcome" "Menu")
      = Except.ok (Constructed "Welcome" "Menu") :=
  (MaybeChangeState_noop_and_idempotent Env.Client Env.Client (Constructed "Welcome" "Menu")).1
    (Or.inr rfl)

/-- C6: when the current state or the pending state is `WelcomeScreen`,
`ShowMessageThenGotoState` changes neither the pending message nor the pending
state nor the current state, for every message, labels, target, override flag and
owner. -/
theorem ShowMessageThenGotoState_at_WelcomeScreen (env : Env) (s : UShooterGameInstance)
    (Message OK Cancel : FText) (NewState : FName) (Override : Bool) (Owner : Option Nat)
    (h : s.CurrentState = FName.WelcomeScreen ∨ s.PendingState = FName.WelcomeScreen) :
    (ShowMessageThenGotoState env s Message OK Cancel NewState Override Owner).PendingMessage
      = s.PendingMessage ∧
    (ShowMessageThenGotoState env s Message OK Cancel NewState Override Owner).PendingState
      = s.PendingState ∧
    (ShowMessageThenGotoState env s Message OK Cancel NewState Override Owner).CurrentState
      = s.CurrentState := by
  have hr : GateRejects s NewState Override := Or.inl h.symm
  have := ShowMessageThenGotoState_rejected env s Message OK Cancel NewState Override Owner hr
  exact ⟨this.1, this.2.1, this.2.2.1⟩

/-- Witness of C6: an instance at the welcome screen is asked to show a message. -/
theorem ShowMessageThenGotoState_at_WelcomeScreen_witness :
    (ShowMessageThenGotoState Env.Client
      { Constructed "Welcome" "Menu" with CurrentState := FName.WelcomeScreen }
      "Signed out" "OK" "" FName.MainMenu true none).PendingState = FName.None :=
  (ShowMessageThenGotoState_at_WelcomeScreen Env.Client
    { Constructed "Welcome" "Menu" with CurrentState := FName.WelcomeScreen }
    "Signed out" "OK" "" FName.MainMenu true none (Or.inl rfl)).2.1

/-- C7: if a first call with text "A", target `MainMenu` and `OverrideExisting`
true is accepted in a state whose current state is not `MessageMenu`, then a second
call with text "B", target `MainMenu` and `OverrideExisting` false, made before
any commit, leaves the queued text "A", with next state `MainMenu` and pending
state `MessageMenu`. -/
theorem second_message_without_override_is_dropped (env1 env2 : Env) (s : UShooterGameInstance)
    (OK1 Cancel1 OK2 Cancel2 : FText) (Owner1 Owner2 : Option Nat)
    (hacc : ¬ EndsIgnored
      (ShowMessageThenGotoState env1 s "A" OK1 Cancel1 FName.MainMenu true Owner1))
    (hcur : s.CurrentState ≠ FName.MessageMenu) :
    (ShowMessageThenGotoState env2
      (ShowMessageThenGotoState env1 s "A" OK1 Cancel1 FName.MainMenu true Owner1)
      "B" OK2 Cancel2 FName.MainMenu false Owner2).PendingMessage.DisplayString = "A" ∧
    (ShowMessageThenGotoState env2
      (ShowMessageThenGotoState env1 s "A" OK1 Cancel1 FName.MainMenu true Owner1)
      "B" OK2 Cancel2 FName.MainMenu false Owner2).PendingMessage.NextState = FName.MainMenu ∧
    (ShowMessageThenGotoState env2
      (ShowMessageThenGotoState env1 s "A" OK1 Cancel1 FName.MainMenu true Owner1)
      "B" OK2 Cancel2 FName.MainMenu false Owner2).PendingState = FName.MessageMenu := by
  have hno : ¬ GateRejects s FName.MainMenu true := fun hr =>
    hacc ((EndsIgnored_iff_GateRejects env1 s "A" OK1 Cancel1 FName.MainMenu true Owner1).2 hr)
  have h1 := ShowMessageThenGotoState_accepted env1 s "A" OK1 Cancel1 FName.MainMenu true
    Owner1 hno
  rw [if_neg hcur] at h1
  rw [h1]
  have hr : GateRejects ((StoreMessage s "A" OK1 Cancel1 FName.MainMenu Owner1).GotoState
      FName.MessageMenu) FName.MainMenu false :=
    Or.inr (Or.inl ⟨Or.inl rfl, rfl, rfl⟩)
  have h2 := ShowMessageThenGotoState_rejected env2 _ "B" OK2 Cancel2 FName.MainMenu false
    Owner2 hr
  rw [h2.1, h2.2.1]
  exact ⟨rfl, rfl, rfl⟩

/-- Witness of C7: the two calls on an instance that is in `Playing`. -/
theorem second_message_without_override_is_dropped_witness :
    (ShowMessageThenGotoState Env.Client
      (ShowMessageThenGotoState Env.Client
        { Constructed "Welcome" "Menu" with CurrentState := FName.Playing }
        "A" "OK" "" FName.MainMenu true none)
      "B" "OK" "" FName.MainMenu false none).PendingMessage.DisplayString = "A" :=
  (second_message_without_override_is_dropped Env.Client Env.Client
    { Constructed "Welcome" "Menu" with CurrentState := FName.Playing }
    "OK" "" "OK" "" none none
    (by
      intro h
      have := (EndsIgnored_iff_GateRejects Env.Client
        { Constructed "Welcome" "Menu" with CurrentState := FName.Playing }
        "A" "OK" "" FName.MainMenu true none).1 h
      simp [GateRejects, Constructed] at this)
    (by decide)).1

/-- C8: when the pending or the current state is `MessageMenu` and the stored
next state is `WelcomeScreen`, every call is rejected, whatever its target and
also with `OverrideExisting` true: the call returns early, and the pending
message, the pending state and the current state are unchanged. -/
theorem ShowMessageThenGotoState_protects_WelcomeScreen_message (env : Env)
    (s : UShooterGameInstance) (Message OK Cancel : FText) (NewState : FName) (Override : Bool)
    (Owner : Option Nat)
    (hmenu : s.PendingState = FName.MessageMenu ∨ s.CurrentState = FName.MessageMenu)
    (hnext : s.PendingMessage.NextState = FName.WelcomeScreen) :
    EndsIgnored (ShowMessageThenGotoState env s Message OK Cancel NewState Override Owner) ∧
    (ShowMessageThenGotoState env s Message OK Cancel NewState Override Owner).PendingMessage
      = s.PendingMessage ∧
    (ShowMessageThenGotoState env s Message OK Cancel NewState Override Owner).PendingState
      = s.PendingState ∧
    (ShowMessageThenGotoState env s Message OK Cancel NewState Override Owner).CurrentState
      = s.CurrentState := by
  have hr : GateRejects s NewState Override := Or.inr (Or.inr (Or.inl ⟨hmenu, hnext⟩))
  have := ShowMessageThenGotoState_rejected env s Message OK Cancel NewState Override Owner hr
  exact ⟨this.2.2.2, this.1, this.2.1, this.2.2.1⟩

/-- Witness of C8: a message bound for the welcome screen is queued, and a call
with `OverrideExisting` true tries to replace it. -/
theorem ShowMessageThenGotoState_protects_WelcomeScreen_message_witness :
    (ShowMessageThenGotoState Env.Client
      { Constructed "Welcome" "Menu" with
        CurrentState := FName.Playing
        PendingState := FName.MessageMenu
        PendingMessage := ⟨"Signed out", "OK", "", FName.WelcomeScreen, none⟩ }
      "Join failed." "OK" "" FName.MainMenu true none).PendingMessage
      = ⟨"Signed out", "OK", "", FName.WelcomeScreen, none⟩ :=
  (ShowMessageThenGotoState_protects_WelcomeScreen_message Env.Client
    { Constructed "Welcome" "Menu" with
      CurrentState := FName.Playing
      PendingState := FName.MessageMenu
      PendingMessage := ⟨"Signed out", "OK", "", FName.WelcomeScreen, none⟩ }
    "Join failed." "OK" "" FName.MainMenu true none (Or.inl rfl) rfl).2.1

/-- C9: `ShowMessageThenGotoState` returns early exactly when one of the four
conditions of the ladder holds (`GateRejects`); then the pending message, the
pending state and the current state are unchanged. When none holds, the stored
next state, OK label, cancel label and owner are the arguments of the call. -/
theorem ShowMessageThenGotoState_ladder (env : Env) (s : UShooterGameInstance)
    (Message OK Cancel : FText) (NewState : FName) (Override : Bool) (Owner : Option Nat) :
    (EndsIgnored (ShowMessageThenGotoState env s Message OK Cancel NewState Override Owner) ↔
      GateRejects s NewState Override) ∧
    (GateRejects s NewState Override →
      (ShowMessageThenGotoState env s Message OK Cancel NewState Override Owner).PendingMessage
        = s.PendingMessage ∧
      (ShowMessageThenGotoState env s Message OK Cancel NewState Override Owner).PendingState
        = s.PendingState ∧
      (ShowMessageThenGotoState env s Message OK Cancel NewState Override Owner).CurrentState
        = s.CurrentState) ∧
    (¬ GateRejects s NewState Override →
      (ShowMessageThenGotoState env s Message OK Cancel NewState Override
        Owner).PendingMessage.NextState = NewState ∧
      (ShowMessageThenGotoState env s Message OK Cancel NewState Override
        Owner).PendingMessage.OKButtonString = OK ∧
      (ShowMessageThenGotoState env s Message OK Cancel NewState Override
        Owner).PendingMessage.CancelButtonString = Cancel ∧
      (ShowMessageThenGotoState env s Message OK Cancel NewState Override
        Owner).PendingMessage.PlayerOwner = Owner) := by
  refine ⟨EndsIgnored_iff_GateRejects env s Message OK Cancel NewState Override Owner, ?_, ?_⟩
  · intro hr
    have := ShowMessageThenGotoState_rejected env s Message OK Cancel NewState Override Owner hr
    exact ⟨this.1, this.2.1, this.2.2.1⟩
  · intro hno
    rw [ShowMessageThenGotoState_accepted env s Message OK Cancel NewState Override Owner hno]
    split
    · exact BeginMessageMenuState_PendingMessage env _
    · exact ⟨rfl, rfl, rfl, rfl⟩

/-- Witness of C9: a call in `Playing` with nothing queued is accepted and
stores its arguments. -/
theorem ShowMessageThenGotoState_ladder_witness :
    (ShowMessageThenGotoState Env.Client
      { Constructed "Welcome" "Menu" with CurrentState := FName.Playing }
      "Join failed." "OK" "Cancel" FName.MainMenu false (some 7)).PendingMessage.NextState
      = FName.MainMenu :=
  ((ShowMessageThenGotoState_ladder Env.Client
    { Constructed "Welcome" "Menu" with CurrentState := FName.Playing }
    "Join failed." "OK" "Cancel" FName.MainMenu false (some 7)).2.2
    (by simp [GateRejects, Constructed])).1

/-- C10: an accepted call with a non-empty message. If the current state is not
`MessageMenu`, the pending state becomes `MessageMenu`, the current state is
unchanged and the stored text is the message. If the current state is
`MessageMenu`, the call itself runs the exit action and then the enter action of
`MessageMenu`, on a state that holds the new message; the enter action consumes
the text, the current state stays `MessageMenu` and the pending state is not
modified. -/
theorem ShowMessageThenGotoState_accepted_effect (env : Env) (s : UShooterGameInstance)
    (Message OK Cancel : FText) (NewState : FName) (Override : Bool) (Owner : Option Nat)
    (hmsg : Message ≠ FText.GetEmpty)
    (hacc : ¬ EndsIgnored
      (ShowMessageThenGotoState env s Message OK Cancel NewState Override Owner)) :
    (s.CurrentState ≠ FName.MessageMenu →
      (ShowMessageThenGotoState env s Message OK Cancel NewState Override Owner).PendingState
        = FName.MessageMenu ∧
      (ShowMessageThenGotoState env s Message OK Cancel NewState Override Owner).CurrentState
        = s.CurrentState ∧
      (ShowMessageThenGotoState env s Message OK Cancel NewState Override
        Owner).PendingMessage.DisplayString = Message) ∧
    (s.CurrentState = FName.MessageMenu →
      TraceExt s (ShowMessageThenGotoState env s Message OK Cancel NewState Override Owner)
        [Event.EndState FName.MessageMenu, Event.BeginState FName.MessageMenu] ∧
      (∃ mid : UShooterGameInstance,
        mid.PendingMessage = ⟨Message, OK, Cancel, NewState, Owner⟩ ∧
        ShowMessageThenGotoState env s Message OK Cancel NewState Override Owner
          = BeginMessageMenuState env mid.EndMessageMenuState) ∧
      (ShowMessageThenGotoState env s Message OK Cancel NewState Override
        Owner).PendingMessage.DisplayString = FText.GetEmpty ∧
      (ShowMessageThenGotoState env s Message OK Cancel NewState Override Owner).CurrentState
        = FName.MessageMenu ∧
      (ShowMessageThenGotoState env s Message OK Cancel NewState Override Owner).PendingState
        = s.PendingState) := by
  have hno : ¬ GateRejects s NewState Override := fun hr =>
    hacc ((EndsIgnored_iff_GateRejects env s Message OK Cancel NewState Override Owner).2 hr)
  have heq := ShowMessageThenGotoState_accepted env s Message OK Cancel NewState Override
    Owner hno
  constructor
  · intro hcur
    rw [if_neg hcur] at heq
    rw [heq]
    exact ⟨rfl, rfl, rfl⟩
  · intro hcur
    rw [if_pos hcur] at heq
    rw [heq]
    have hne := BeginMessageMenuState_nonempty env
      ((StoreMessage s Message OK Cancel NewState Owner).emit
        (Event.Log "ShowMessageThenGotoState: Forcing new message" [])).EndMessageMenuState hmsg
    refine ⟨?_, ⟨_, rfl, rfl⟩, hne.2, ?_, hne.1⟩
    · have hb := BeginMessageMenuState_TraceExt env
        ((StoreMessage s Message OK Cancel NewState Owner).emit
          (Event.Log "ShowMessageThenGotoState: Forcing new message" [])).EndMessageMenuState
      have he : TraceExt s
          ((StoreMessage s Message OK Cancel NewState Owner).emit
            (Event.Log "ShowMessageThenGotoState: Forcing new message" [])).EndMessageMenuState
          [Event.EndState FName.MessageMenu] := by
        simp only [TraceExt, emit, StoreMessage, EndMessageMenuState, List.append_assoc]
        exact ⟨_, rfl, rfl⟩
      exact he.trace_trans hb
    · rw [BeginMessageMenuState_CurrentState]
      exact hcur

/-- Witness of C10: a message is shown while another one is on screen. -/
theorem ShowMessageThenGotoState_accepted_effect_witness :
    (ShowMessageThenGotoState Env.Client
      { Constructed "Welcome" "Menu" with CurrentState := FName.MessageMenu }
      "Join failed." "OK" "" FName.MainMenu true none).CurrentState = FName.MessageMenu :=
  ((ShowMessageThenGotoState_accepted_effect Env.Client
    { Constructed "Welcome" "Menu" with CurrentState := FName.MessageMenu }
    "Join failed." "OK" "" FName.MainMenu true none (by decide)
    (by
      intro h
      have := (EndsIgnored_iff_GateRejects Env.Client
        { Constructed "Welcome" "Menu" with CurrentState := FName.MessageMenu }
        "Join failed." "OK" "" FName.MainMenu true none).1 h
      simp [GateRejects, Constructed] at this)).2 rfl).2.2.2.1

/-- C5: a single `Tick` commits at most one transition. It runs at most one exit
action and at most one enter action, also when the process is terminated during
the call, and when it returns the current state is the old current state or the
old pending state. Unless the `Tick` is skipped, everything it does after its one
`MaybeChangeState`, the host or join call for a pending invite and the
completions delivered during that call included, runs no exit or enter action and
leaves the current state as the commit left it: what that call requests stays
pending. -/
theorem Tick_commits_at_most_one_transition (env : Env) (s : UShooterGameInstance) :
    (∃ acts, TraceExt s (EndedCall (Tick env s)) acts ∧
      acts.countP Event.IsEndState ≤ 1 ∧ acts.countP Event.IsBeginState ≤ 1) ∧
    (∀ r, Tick env s = Except.ok r →
      r.2.CurrentState = s.CurrentState ∨ r.2.CurrentState = s.PendingState) ∧
    (Tick env s = Except.ok (true, s) ∨
      ((EndedCall (Tick env s)).CurrentState = (Ended (MaybeChangeState env s)).CurrentState ∧
        TraceExt (Ended (MaybeChangeState env s)) (EndedCall (Tick env s)) [])) := by
  obtain ⟨⟨acts, hT, hE, hB⟩, hC⟩ := MaybeChangeState_once env s
  rcases Tick_after_commit env s with hskip | ⟨hcalm, hret⟩
  · rw [hskip]
    refine ⟨⟨[], TraceExt.trace_refl s, by simp, by simp⟩, fun r hr => ?_, Or.inl rfl⟩
    cases hr
    exact Or.inl rfl
  · refine ⟨⟨acts, TraceExt.trace_step hcalm.2 hT, hE, hB⟩, fun r hr => ?_, Or.inr hcalm⟩
    obtain ⟨s1, hs1⟩ := hret ⟨r, hr⟩
    have h1 := hcalm.1
    rw [hr, hs1] at h1
    have h2 : r.2.CurrentState = s1.CurrentState := h1
    rw [h2]
    exact hC s1 hs1

/-- Witness of C5: a `Tick` of a client that commits the pending `Playing`. -/
theorem Tick_commits_at_most_one_transition_witness :
    Returns (Tick Env.Client ((Constructed "Welcome" "Menu").GotoState FName.Playing)) ∧
    ((EndedCall (Tick Env.Client
        ((Constructed "Welcome" "Menu").GotoState FName.Playing))).CurrentState = FName.None ∨
      (EndedCall (Tick Env.Client
        ((Constructed "Welcome" "Menu").GotoState FName.Playing))).CurrentState
        = FName.Playing) :=
  ⟨by decide, EndedCall_of_Returns
    (fun t => t.CurrentState = FName.None ∨ t.CurrentState = FName.Playing)
    (Tick Env.Client ((Constructed "Welcome" "Menu").GotoState FName.Playing)) (by decide)
    (Tick_commits_at_most_one_transition Env.Client
      ((Constructed "Welcome" "Menu").GotoState FName.Playing)).2.1⟩

/-- C11: the code at a failing input. An instance in `Playing` with an empty
pending text is sent to `MessageMenu` and commits. The enter action logs the
warning and requests `MainMenu`, and hands nothing to the dialog; but when the
commit returns the current state is `MessageMenu` and the pending state is `None`,
so the requested redirect is lost. -/
theorem commit_to_MessageMenu_with_empty_text_loses_redirect :
    Returns (MaybeChangeState Env.Client
      (({ Constructed "Welcome" "Menu" with CurrentState := FName.Playing } :
        UShooterGameInstance).GotoState FName.MessageMenu)) ∧
    (Ended (MaybeChangeState Env.Client
      (({ Constructed "Welcome" "Menu" with CurrentState := FName.Playing } :
        UShooterGameInstance).GotoState FName.MessageMenu))).CurrentState
      = FName.MessageMenu ∧
    (Ended (MaybeChangeState Env.Client
      (({ Constructed "Welcome" "Menu" with CurrentState := FName.Playing } :
        UShooterGameInstance).GotoState FName.MessageMenu))).PendingState = FName.None ∧
    (BeginMessageMenuState Env.Client
      (Ended (EndCurrentState Env.Client
        (({ Constructed "Welcome" "Menu" with CurrentState := FName.Playing } :
          UShooterGameInstance).GotoState FName.MessageMenu) FName.MessageMenu))).PendingState
      = FName.MainMenu ∧
    (Ended (MaybeChangeState Env.Client
      (({ Constructed "Welcome" "Menu" with CurrentState := FName.Playing } :
        UShooterGameInstance).GotoState FName.MessageMenu))).Trace =
      [Event.Log "GotoState: NewState: %s" ["MessageMenu"],
       Event.EndState FName.Playing,
       Event.SetForceDisableSplitscreen true,
       Event.Log "Session %s is '%s'" ["GameSession"],
       Event.BeginState FName.MessageMenu,
       Event.LogWarning "UShooterGameInstance::BeginMessageMenuState: Display string is empty" [],
       Event.Log "GotoState: NewState: %s" ["MainMenu"]] := by
  decide

/-- C12: entering `MessageMenu` with a non-empty pending text consumes the text.
The enter action, run by a forced re-entry right after the exit action or by a
commit, leaves the text empty and requests no transition; and as long as the
pending message stays what the entry left, entering again takes the empty-text
branch: a warning and a request for the initial state. The commit that enters
`MessageMenu` returns unless it leaves `Playing` without a game viewport. -/
theorem MessageMenu_entry_consumes_text (env env2 : Env) (s : UShooterGameInstance)
    (h : s.PendingMessage.DisplayString ≠ FText.GetEmpty) :
    ((BeginMessageMenuState env s).PendingMessage.DisplayString = FText.GetEmpty ∧
      (BeginMessageMenuState env s).PendingState = s.PendingState) ∧
    ((BeginMessageMenuState env s.EndMessageMenuState).PendingMessage.DisplayString
        = FText.GetEmpty ∧
      (BeginMessageMenuState env s.EndMessageMenuState).PendingState = s.PendingState) ∧
    (s.PendingState = FName.MessageMenu → s.CurrentState ≠ FName.MessageMenu →
      (Returns (MaybeChangeState env s) ↔
        ¬ (s.CurrentState = FName.Playing ∧ env.GameViewportClient.isSome = false)) ∧
      ∀ s2, MaybeChangeState env s = Except.ok s2 →
        s2.PendingMessage.DisplayString = FText.GetEmpty) ∧
    (∀ t : UShooterGameInstance,
      t.PendingMessage = (BeginMessageMenuState env s).PendingMessage →
      BeginMessageMenuState env2 t =
        ((t.emit (Event.BeginState FName.MessageMenu)).emit (Event.LogWarning
          "UShooterGameInstance::BeginMessageMenuState: Display string is empty"
          [])).GotoInitialState) := by
  have h1 := BeginMessageMenuState_nonempty env s h
  have h2 := BeginMessageMenuState_nonempty env s.EndMessageMenuState h
  refine ⟨⟨h1.2, h1.1⟩, ⟨h2.2, h2.1⟩, ?_, ?_⟩
  · intro hp hne
    refine ⟨?_, fun s2 hs2 => ?_⟩
    · rw [MaybeChangeState_returns_iff env s (by rw [hp]; exact fun h => hne h.symm)
        (by rw [hp]; decide)]
      unfold CommitTerminates EnterTerminates
      rw [hp]
      simp
    · obtain ⟨s1, hE, hM⟩ := MaybeChangeState_MessageMenu_PendingMessage env s s2 hp hne hs2
      rw [hM]
      refine (BeginMessageMenuState_nonempty env _ ?_).2
      rw [(EndCurrentState_spec env s s1 _ hE).2.2.1]
      exact h
  · intro t ht
    exact BeginMessageMenuState_empty env2 t (by rw [ht]; exact h1.2)

/-- Witness of C12: a queued message is committed to the screen. -/
theorem MessageMenu_entry_consumes_text_witness :
    Returns (MaybeChangeState Env.Client
      { Constructed "Welcome" "Menu" with
        CurrentState := FName.Playing
        PendingState := FName.MessageMenu
        PendingMessage := ⟨"Join failed.", "OK", "", FName.MainMenu, none⟩ }) ∧
    (Ended (MaybeChangeState Env.Client
      { Constructed "Welcome" "Menu" with
        CurrentState := FName.Playing
        PendingState := FName.MessageMenu
        PendingMessage := ⟨"Join failed.", "OK", "", FName.MainMenu, none⟩ })
      ).PendingMessage.DisplayString = FText.GetEmpty :=
  ⟨((MessageMenu_entry_consumes_text Env.Client Env.Client
      { Constructed "Welcome" "Menu" with
        CurrentState := FName.Playing
        PendingState := FName.MessageMenu
        PendingMessage := ⟨"Join failed.", "OK", "", FName.MainMenu, none⟩ }
      (by decide)).2.2.1 rfl (by decide)).1.2 (by decide),
   Ended_of_Returns (fun t => t.PendingMessage.DisplayString = FText.GetEmpty) _ (by decide)
    ((MessageMenu_entry_consumes_text Env.Client Env.Client
      { Constructed "Welcome" "Menu" with
        CurrentState := FName.Playing
        PendingState := FName.MessageMenu
        PendingMessage := ⟨"Join failed.", "OK", "", FName.MainMenu, none⟩ }
      (by decide)).2.2.1 rfl (by decide)).2⟩

/-- C13, counterexample: an instance in `MainMenu` commits to `PendingInvite`
while the engine fails to browse to the main menu map. `MaybeChangeState` does not
return: the failed load is logged with verbosity `Fatal`, which terminates the
process inside the enter action. No alternate transition is queued: the last
event is the fatal line, there is no `GotoState` line for `WelcomeScreen`, and the
pending state is still `PendingInvite`. -/
theorem commit_to_PendingInvite_with_failed_map_terminates :
    LoadFails { Env.Client with BrowseSucceeds := false } "Menu" ∧
    Terminates (MaybeChangeState { Env.Client with BrowseSucceeds := false }
      (({ Constructed "Welcome" "Menu" with CurrentState := FName.MainMenu } :
        UShooterGameInstance).GotoState FName.PendingInvite)) ∧
    (Ended (MaybeChangeState { Env.Client with BrowseSucceeds := false }
      (({ Constructed "Welcome" "Menu" with CurrentState := FName.MainMenu } :
        UShooterGameInstance).GotoState FName.PendingInvite))).PendingState
      = FName.PendingInvite ∧
    (Ended (MaybeChangeState { Env.Client with BrowseSucceeds := false }
      (({ Constructed "Welcome" "Menu" with CurrentState := FName.MainMenu } :
        UShooterGameInstance).GotoState FName.PendingInvite))).Trace =
      [Event.Log "GotoState: NewState: %s" ["PendingInvite"],
       Event.EndState FName.MainMenu,
       Event.BeginState FName.PendingInvite,
       Event.Browse "Menu",
       Event.LogFatal "Failed to enter %s: %s. Please check the log for errors." ["Menu"]] := by
  decide

/-- C13, amended: when a commit enters `PendingInvite` and loading the main menu
map fails, `MaybeChangeState` does not return: the process is terminated. In the
state of the termination the pending state is still `PendingInvite`, so no
alternate transition is queued; and when the exit action of the current state
returned, the events after it are the enter mark, the `Browse` call and the fatal
log line, so no privilege check was started. `LoadFrontEndMap` never returns
false: the branch of the enter action that requests `WelcomeScreen` is not
reached. -/
theorem commit_to_PendingInvite_with_failed_map (env : Env) (s : UShooterGameInstance)
    (hp : s.PendingState = FName.PendingInvite) (hne : s.CurrentState ≠ FName.PendingInvite)
    (hf : LoadFails env s.MainMenuMap) :
    Terminates (MaybeChangeState env s) ∧
    (Ended (MaybeChangeState env s)).PendingState = FName.PendingInvite ∧
    (∀ s1, EndCurrentState env s s.PendingState = Except.ok s1 →
      MaybeChangeState env s = Except.error
        (((s1.emit (Event.BeginState FName.PendingInvite)).emit
          (Event.Browse s.MainMenuMap)).emit
          (Event.LogFatal "Failed to enter %s: %s. Please check the log for errors."
            [s.MainMenuMap]))) ∧
    (∀ (env2 : Env) (t : UShooterGameInstance) (MapName : String)
      (r : Bool × UShooterGameInstance),
      LoadFrontEndMap env2 t MapName = Except.ok r → r.1 = true) := by
  have hc : s.PendingState ≠ s.CurrentState ∧ s.PendingState ≠ FName.None :=
    ⟨by rw [hp]; exact fun h => hne h.symm, by rw [hp]; decide⟩
  have hbegin : ∀ s1, EndCurrentState env s s.PendingState = Except.ok s1 →
      MaybeChangeState env s = Except.error
        (((s1.emit (Event.BeginState FName.PendingInvite)).emit
          (Event.Browse s.MainMenuMap)).emit
          (Event.LogFatal "Failed to enter %s: %s. Please check the log for errors."
            [s.MainMenuMap])) := by
    intro s1 hE
    obtain ⟨_, hP, _, _, _, _, hM, _⟩ := EndCurrentState_spec env s s1 _ hE
    unfold MaybeChangeState
    rw [if_pos hc]
    simp only []
    rw [hE]
    simp only []
    rw [hP, hp]
    unfold BeginNewState
    simp only [if_true]
    rw [BeginPendingInviteState_fails env s1 (by rw [hM]; exact hf), hM]
  refine ⟨?_, ?_, hbegin, fun env2 t MapName r hr => (LoadFrontEndMap_ok env2 t MapName r hr).1⟩
  · rw [Terminates_iff_not_Returns, MaybeChangeState_returns_iff env s hc.1 hc.2, not_not]
    exact Or.inr (Or.inl ⟨Or.inl hp, hf⟩)
  · cases hE : EndCurrentState env s s.PendingState with
    | ok s1 =>
      rw [hbegin s1 hE]
      exact (EndCurrentState_spec env s s1 _ hE).2.1.trans hp
    | error t =>
      obtain ⟨_, _, rfl⟩ := EndCurrentState_error env s t _ hE
      have : MaybeChangeState env s = Except.error (s.emit (Event.EndState FName.Playing)) := by
        unfold MaybeChangeState
        rw [if_pos hc]
        simp only []
        rw [hE]
      rw [this]
      exact hp

/-- Witness of C13 as amended: the commit of the counterexample. -/
theorem commit_to_PendingInvite_with_failed_map_witness :
    Terminates (MaybeChangeState { Env.Client with BrowseSucceeds := false }
      (({ Constructed "Welcome" "Menu" with CurrentState := FName.MainMenu } :
        UShooterGameInstance).GotoState FName.PendingInvite)) :=
  (commit_to_PendingInvite_with_failed_map { Env.Client with BrowseSucceeds := false }
    (({ Constructed "Welcome" "Menu" with CurrentState := FName.MainMenu } :
      UShooterGameInstance).GotoState FName.PendingInvite) rfl (by decide) (by decide)).1

/-- C14, counterexample: an instance in the offline mode hosts where the engine
has no world. `HostGame` does not return true: after it made `Playing` pending
and stored the URL, it calls `ServerTravel` through the null world, which
terminates the process, and no travel is issued. -/
theorem HostGame_offline_without_world_terminates :
    ({ InMainMenu with OnlineMode := EOnlineMode.Offline } : UShooterGameInstance).OnlineMode
      = EOnlineMode.Offline ∧
    Terminates (HostGame { Env.Client with WorldMapName := none }
      { InMainMenu with OnlineMode := EOnlineMode.Offline } SignedInPlayer
      "FFA" "/Game/Maps/Sanctuary?game=FFA") ∧
    (EndedCall (HostGame { Env.Client with WorldMapName := none }
      { InMainMenu with OnlineMode := EOnlineMode.Offline } SignedInPlayer
      "FFA" "/Game/Maps/Sanctuary?game=FFA")).Trace
      = [Event.Log "GotoState: NewState: %s" ["Playing"]] := by
  decide

/-- C14, amended: in the offline mode, for every game type and travel URL,
`HostGame` makes `Playing` pending and stores the URL as `TravelURL`; it makes no
call to the session and registers no completion handle. When the engine has a
world, it issues a server travel to the URL and returns true, and the only events
it adds are the log line of `GotoState` and that travel. When the engine has no
world, the call of the travel terminates the process and `HostGame` returns
nothing. -/
theorem HostGame_offline (env : Env) (s : UShooterGameInstance) (LocalPlayer : ULocalPlayer)
    (GameType InTravelURL : String) (h : s.OnlineMode = EOnlineMode.Offline) :
    (Returns (HostGame env s LocalPlayer GameType InTravelURL)
      ↔ env.WorldMapName.isSome = true) ∧
    (∀ r, HostGame env s LocalPlayer GameType InTravelURL = Except.ok r → r.1 = true) ∧
    (EndedCall (HostGame env s LocalPlayer GameType InTravelURL)).PendingState
      = FName.Playing ∧
    (EndedCall (HostGame env s LocalPlayer GameType InTravelURL)).TravelURL = InTravelURL ∧
    (EndedCall (HostGame env s LocalPlayer GameType InTravelURL)).Trace =
      s.Trace ++ [Event.Log "GotoState: NewState: %s" ["Playing"]] ++
        (if env.WorldMapName.isSome then [Event.ServerTravel InTravelURL] else []) ∧
    (EndedCall (HostGame env s LocalPlayer GameType InTravelURL)).GameSession
      = s.GameSession ∧
    (EndedCall (HostGame env s LocalPlayer GameType InTravelURL)).NextDelegateId
      = s.NextDelegateId ∧
    (EndedCall (HostGame env s LocalPlayer GameType
      InTravelURL)).OnCreatePresenceSessionCompleteDelegateHandle
      = s.OnCreatePresenceSessionCompleteDelegateHandle ∧
    (EndedCall (HostGame env s LocalPlayer GameType InTravelURL)).StartSessionCompleteDelegates
      = s.StartSessionCompleteDelegates ∧
    (EndedCall (HostGame env s LocalPlayer GameType InTravelURL)).EndSessionCompleteDelegates
      = s.EndSessionCompleteDelegates ∧
    (EndedCall (HostGame env s LocalPlayer GameType InTravelURL)).DestroySessionCompleteDelegates
      = s.DestroySessionCompleteDelegates := by
  unfold HostGame GetOnlineMode
  rw [if_pos h]
  cases hw : env.WorldMapName.isSome with
  | true =>
    simp only [if_true]
    refine ⟨?_, ?_, rfl, rfl, ?_, rfl, rfl, rfl, rfl, rfl, rfl⟩
    · exact ⟨fun _ => trivial, fun _ => Returns_ok _⟩
    · intro r hr
      cases hr
      rfl
    · simp [EndedCall, emit, GotoState, FName.ToString]
  | false =>
    simp only [Bool.false_eq_true, if_false]
    refine ⟨?_, ?_, rfl, rfl, ?_, rfl, rfl, rfl, rfl, rfl, rfl⟩
    · exact ⟨fun hr => absurd hr (not_Returns_error _), fun hf => hf.elim⟩
    · intro r hr
      cases hr
    · simp [EndedCall, emit, GotoState, FName.ToString]

/-- Witness of C14 as amended: an instance switched to offline hosts on a client
with a world. -/
theorem HostGame_offline_witness :
    Returns (HostGame Env.Client { InMainMenu with OnlineMode := EOnlineMode.Offline }
      SignedInPlayer "FFA" "/Game/Maps/Sanctuary?game=FFA") ∧
    (EndedCall (HostGame Env.Client { InMainMenu with OnlineMode := EOnlineMode.Offline }
      SignedInPlayer "FFA" "/Game/Maps/Sanctuary?game=FFA")).PendingState = FName.Playing :=
  ⟨(HostGame_offline Env.Client { InMainMenu with OnlineMode := EOnlineMode.Offline }
      SignedInPlayer "FFA" "/Game/Maps/Sanctuary?game=FFA" rfl).1.2 rfl,
   (HostGame_offline Env.Client { InMainMenu with OnlineMode := EOnlineMode.Offline }
      SignedInPlayer "FFA" "/Game/Maps/Sanctuary?game=FFA" rfl).2.2.1⟩

/-- C15: `HostGame` outside the offline mode, both `JoinSession` overloads and
`HostQuickSession`, in every online mode, satisfy the verdict contract: each
returns true exactly when a game session exists, the session accepted the call
and, in the state right after that call returned, the pending state equals the
current state or is `None`; when it returns true the pending state is `Playing`,
and when it returns false the state is the one the call returned in, so the
operation does not touch the pending state. When a completion that the host call
delivered terminated the process, the host operation ends there and returns
nothing (`HostVerdictContract`). -/
theorem session_operations_verdict (env : Env) (s : UShooterGameInstance)
    (LocalPlayer : ULocalPlayer) (GameType InTravelURL : String)
    (SessionSettings : FOnlineSessionSettings) (SearchResult : FOnlineSessionSearchResult)
    (Index : Int) :
    (s.OnlineMode ≠ EOnlineMode.Offline →
      HostVerdictContract (HostGame env s LocalPlayer GameType InTravelURL)
        (HostGameAfterCall env s LocalPlayer GameType InTravelURL)
        s.GameSession.isSome env.HostSessionReply.Accepted) ∧
    VerdictContract (JoinSessionAtIndex env s LocalPlayer Index)
      (JoinAfterCall env s
        (Event.JoinSessionAtIndex (LocalPlayer.GetPreferredUniqueNetId env) Index))
      s.GameSession.isSome env.JoinSessionReply.Accepted ∧
    VerdictContract (JoinSession env s LocalPlayer SearchResult)
      (JoinAfterCall env s
        (Event.JoinSession (LocalPlayer.GetPreferredUniqueNetId env) SearchResult))
      s.GameSession.isSome env.JoinSessionReply.Accepted ∧
    HostVerdictContract (HostQuickSession env s LocalPlayer SessionSettings)
      (HostQuickSessionAfterCall env s LocalPlayer SessionSettings)
      s.GameSession.isSome env.HostSessionReply.Accepted :=
  ⟨fun honline => host_contract_of_eq _ s _ _
      (HostGame_online env s LocalPlayer GameType InTravelURL honline)
      (HostGameAfterCall_none env s _ _ _),
   contract_of_eq _ s _ _ (JoinAfterCall_none env s _)
      (JoinSessionAtIndex_eq env s LocalPlayer Index),
   contract_of_eq _ s _ _ (JoinAfterCall_none env s _)
      (JoinSession_eq env s LocalPlayer SearchResult),
   host_contract_of_eq _ s _ _ (HostQuickSession_eq env s LocalPlayer SessionSettings)
      (HostQuickSessionAfterCall_none env s _ _)⟩

/-- Witness of C15: an accepted join from the main menu returns true and makes
`Playing` pending, and a host call outside the offline mode satisfies the
contract. -/
theorem session_operations_verdict_witness :
    (JoinSession Env.Client InMainMenu SignedInPlayer FoundSession).2.PendingState
      = FName.Playing ∧
    HostVerdictContract (HostGame Env.Client InMainMenu SignedInPlayer "FFA"
        "/Game/Maps/Sanctuary?game=FFA")
      (HostGameAfterCall Env.Client InMainMenu SignedInPlayer "FFA"
        "/Game/Maps/Sanctuary?game=FFA")
      InMainMenu.GameSession.isSome Env.Client.HostSessionReply.Accepted :=
  ⟨(session_operations_verdict Env.Client InMainMenu SignedInPlayer "FFA"
      "/Game/Maps/Sanctuary?game=FFA" ⟨4, []⟩ FoundSession 0).2.2.1.2.1 (by decide),
   (session_operations_verdict Env.Client InMainMenu SignedInPlayer "FFA"
      "/Game/Maps/Sanctuary?game=FFA" ⟨4, []⟩ FoundSession 0).1 (by decide)⟩

/-- C16, counterexample: the session rejects the call and completes nothing
during it. `JoinSession` and `HostGame` then only record the call: the pending
message is untouched and no `ShowMessageThenGotoState` request is in the trace. -/
theorem rejected_call_stores_no_message :
    Env.Rejecting.JoinSessionReply.Accepted = false ∧
    Env.Rejecting.HostSessionReply.Accepted = false ∧
    (JoinSession Env.Rejecting InMainMenu SignedInPlayer FoundSession).2.PendingMessage
      = InMainMenu.PendingMessage ∧
    (JoinSession Env.Rejecting InMainMenu SignedInPlayer FoundSession).2.Trace
      = [Event.JoinSession (some 11) FoundSession] ∧
    Returns (HostGame Env.Rejecting InMainMenu SignedInPlayer "FFA"
      "/Game/Maps/Sanctuary?game=FFA?listen") ∧
    (EndedCall (HostGame Env.Rejecting InMainMenu SignedInPlayer "FFA"
      "/Game/Maps/Sanctuary?game=FFA?listen")).PendingMessage = InMainMenu.PendingMessage ∧
    (EndedCall (HostGame Env.Rejecting InMainMenu SignedInPlayer "FFA"
      "/Game/Maps/Sanctuary?game=FFA?listen")).Trace
      = [Event.HostSessionOfType (some 11) "FFA" "Sanctuary" false true] := by
  decide

/-- C16, amended: when the session's `HostSession` call returns not-accepted,
`HostGame` outside the offline mode returns false in the very state the call
returned in (and ends where the call ended, if a completion delivered during the
call terminated the process); when the session's `JoinSession` call returns
not-accepted, both `JoinSession` overloads, in every online mode, return false in
the very state the call returned in. So they store no message and request no
transition themselves. `Playing` is not newly pending afterwards, and if the
session delivered no completion during the call, the pending message and the
pending state are what they were before. -/
theorem rejected_call_returns_false_without_transition (env : Env) (s : UShooterGameInstance)
    (LocalPlayer : ULocalPlayer) (GameType InTravelURL : String)
    (SearchResult : FOnlineSessionSearchResult) (Index : Int) :
    (s.OnlineMode ≠ EOnlineMode.Offline → env.HostSessionReply.Accepted = false →
      HostGame env s LocalPlayer GameType InTravelURL
        = (HostGameAfterCall env s LocalPlayer GameType InTravelURL).map
          (fun after => (false, after)) ∧
      ((EndedCall (HostGame env s LocalPlayer GameType InTravelURL)).PendingState
          = FName.Playing → s.PendingState = FName.Playing) ∧
      (env.HostSessionReply.Completions = [] →
        ∃ after, HostGame env s LocalPlayer GameType InTravelURL = Except.ok (false, after) ∧
          after.PendingMessage = s.PendingMessage ∧ after.PendingState = s.PendingState)) ∧
    (env.JoinSessionReply.Accepted = false →
      ((JoinSession env s LocalPlayer SearchResult).1 = false ∧
        (JoinSession env s LocalPlayer SearchResult).2 = JoinAfterCall env s
          (Event.JoinSession (LocalPlayer.GetPreferredUniqueNetId env) SearchResult) ∧
        ((JoinSession env s LocalPlayer SearchResult).2.PendingState = FName.Playing →
          s.PendingState = FName.Playing) ∧
        (env.JoinSessionReply.Completions = [] →
          (JoinSession env s LocalPlayer SearchResult).2.PendingMessage = s.PendingMessage ∧
          (JoinSession env s LocalPlayer SearchResult).2.PendingState = s.PendingState)) ∧
      ((JoinSessionAtIndex env s LocalPlayer Index).1 = false ∧
        (JoinSessionAtIndex env s LocalPlayer Index).2 = JoinAfterCall env s
          (Event.JoinSessionAtIndex (LocalPlayer.GetPreferredUniqueNetId env) Index) ∧
        ((JoinSessionAtIndex env s LocalPlayer Index).2.PendingState = FName.Playing →
          s.PendingState = FName.Playing) ∧
        (env.JoinSessionReply.Completions = [] →
          (JoinSessionAtIndex env s LocalPlayer Index).2.PendingMessage = s.PendingMessage ∧
          (JoinSessionAtIndex env s LocalPlayer Index).2.PendingState = s.PendingState))) := by
  refine ⟨fun honline hhost => ?_, fun hjoin => ?_⟩
  · have hH := HostGame_online env s LocalPlayer GameType InTravelURL honline
    have hP := HostGameAfterCall_PendingStep env s LocalPlayer GameType InTravelURL
    have heq : HostGame env s LocalPlayer GameType InTravelURL
        = (HostGameAfterCall env s LocalPlayer GameType InTravelURL).map
          (fun after => (false, after)) := by
      rw [hH]
      cases hA : HostGameAfterCall env s LocalPlayer GameType InTravelURL with
      | error t => rfl
      | ok after =>
        show Except.ok _ = Except.ok _
        by_cases hgs : s.GameSession.isSome = true
        · rw [if_pos hgs]
          unfold VerdictTail
          rw [hhost]
          rfl
        · rw [if_neg hgs]
          have := HostGameAfterCall_none env s LocalPlayer GameType InTravelURL
            (by simpa using hgs)
          rw [this] at hA
          cases hA
          rfl
    refine ⟨heq, ?_, fun hc => ?_⟩
    · rw [heq]
      cases hA : HostGameAfterCall env s LocalPlayer GameType InTravelURL with
      | error t =>
        rw [hA] at hP
        exact hP.not_newly_Playing
      | ok after =>
        rw [hA] at hP
        exact hP.not_newly_Playing
    · obtain ⟨after, hA, h1, h2⟩ :=
        HostGameAfterCall_no_completion env s LocalPlayer GameType InTravelURL hc
      exact ⟨after, by rw [heq, hA]; rfl, h2, h1⟩
  · have hJ := contract_of_eq _ s _ _ (JoinAfterCall_none env s _)
      (JoinSession_eq env s LocalPlayer SearchResult)
    have hI := contract_of_eq _ s _ _ (JoinAfterCall_none env s _)
      (JoinSessionAtIndex_eq env s LocalPlayer Index)
    rw [hjoin] at hJ hI
    obtain ⟨hJ1, hJ2⟩ := hJ.rejected
    obtain ⟨hI1, hI2⟩ := hI.rejected
    refine ⟨⟨hJ1, hJ2, ?_, ?_⟩, ⟨hI1, hI2, ?_, ?_⟩⟩
    · rw [hJ2]
      exact (JoinAfterCall_PendingStep env s _).not_newly_Playing
    · intro hc
      rw [hJ2]
      have := JoinAfterCall_no_completion env s
        (Event.JoinSession (LocalPlayer.GetPreferredUniqueNetId env) SearchResult) hc
      exact ⟨this.2.1, this.1⟩
    · rw [hI2]
      exact (JoinAfterCall_PendingStep env s _).not_newly_Playing
    · intro hc
      rw [hI2]
      have := JoinAfterCall_no_completion env s
        (Event.JoinSessionAtIndex (LocalPlayer.GetPreferredUniqueNetId env) Index) hc
      exact ⟨this.2.1, this.1⟩

/-- Witness of C16 as amended: a rejected join from the main menu, and a rejected
host call outside the offline mode. -/
theorem rejected_call_returns_false_without_transition_witness :
    (JoinSession Env.Rejecting InMainMenu SignedInPlayer FoundSession).1 = false ∧
    ∃ after, HostGame Env.Rejecting InMainMenu SignedInPlayer "FFA"
        "/Game/Maps/Sanctuary?game=FFA?listen" = Except.ok (false, after) ∧
      after.PendingMessage = InMainMenu.PendingMessage ∧
      after.PendingState = InMainMenu.PendingState :=
  ⟨((rejected_call_returns_false_without_transition Env.Rejecting InMainMenu SignedInPlayer
      "FFA" "/Game/Maps/Sanctuary?game=FFA?listen" FoundSession 0).2 rfl).1.1,
   ((rejected_call_returns_false_without_transition Env.Rejecting InMainMenu SignedInPlayer
      "FFA" "/Game/Maps/Sanctuary?game=FFA?listen" FoundSession 0).1 (by decide) rfl).2.2 rfl⟩

/-- C17: for every join result other than `Success`, `FinishJoinSession` is one
call of `ShowMessageThenGotoState` with next state `MainMenu` and
`OverrideExisting` true, its text being "Game is full." for `SessionIsFull`,
"Game no longer exists." for `SessionDoesNotExist` and "Join failed." for every
other failure; that request is the only message request in the trace and no client
travel is issued. For `Success` it is `InternalTravelToSession`, which leaves one
request or travel in the trace, never a request with a join-failure text. -/
theorem FinishJoinSession_outcome (env : Env) (s : UShooterGameInstance)
    (Result : EOnJoinSessionCompleteResult) :
    (Result ≠ EOnJoinSessionCompleteResult.Success →
      FinishJoinSession env s Result =
        ShowMessageThenGotoState env s.RemoveNetworkFailureHandlers (JoinFailureText Result)
          "OK" FText.GetEmpty FName.MainMenu true none ∧
      Outcome s (FinishJoinSession env s Result)
        [MessageRequest (JoinFailureText Result) FName.MainMenu]) ∧
    (Result = EOnJoinSessionCompleteResult.Success →
      FinishJoinSession env s Result = InternalTravelToSession env s FName.GameSession ∧
      ∃ e, Outcome s (FinishJoinSession env s Result) [e] ∧
        ∀ Failure, e ≠ MessageRequest (JoinFailureText Failure) FName.MainMenu) ∧
    JoinFailureText EOnJoinSessionCompleteResult.SessionIsFull = "Game is full." ∧
    JoinFailureText EOnJoinSessionCompleteResult.SessionDoesNotExist
      = "Game no longer exists." ∧
    (Result ≠ EOnJoinSessionCompleteResult.SessionIsFull →
      Result ≠ EOnJoinSessionCompleteResult.SessionDoesNotExist →
      JoinFailureText Result = "Join failed.") := by
  refine ⟨?_, ?_, rfl, rfl, ?_⟩
  · intro h
    have heq := FinishJoinSession_failed env s Result h
    refine ⟨heq, ?_⟩
    rw [heq]
    exact ShowMessageThenGoMain_after_remove_Outcome env s _ _ _
  · intro h
    have heq : FinishJoinSession env s Result
        = InternalTravelToSession env s FName.GameSession := by
      unfold FinishJoinSession
      rw [if_neg (by simpa using h)]
    refine ⟨heq, ?_⟩
    rw [heq]
    obtain ⟨e, ho, he⟩ := InternalTravelToSession_Outcome env s FName.GameSession
    exact ⟨e, ho, travel_outcome_is_no_join_failure e he⟩
  · intro h1 h2
    unfold JoinFailureText
    rw [if_neg h1, if_neg h2]

/-- Witness of C17: a full session, reported to an instance that is joining. -/
theorem FinishJoinSession_outcome_witness :
    FinishJoinSession Env.Client JoiningWithUnsignedGuest
        EOnJoinSessionCompleteResult.SessionIsFull =
      ShowMessageThenGotoState Env.Client JoiningWithUnsignedGuest.RemoveNetworkFailureHandlers
        "Game is full." "OK" FText.GetEmpty FName.MainMenu true none :=
  ((FinishJoinSession_outcome Env.Client JoiningWithUnsignedGuest
    EOnJoinSessionCompleteResult.SessionIsFull).1 (by decide)).1

/-- C18: the code at a failing input. A join completes with `Success` while
there are two local players, the second without a valid identity. The handler
removes its handle and does nothing else: the trace, the pending message and the
pending state are untouched, so neither the splitscreen registration is issued nor
`FinishJoinSession` invoked. -/
theorem OnJoinSessionComplete_with_unsigned_guest_does_nothing :
    OnJoinSessionComplete Env.Client JoiningWithUnsignedGuest
        EOnJoinSessionCompleteResult.Success =
      { JoiningWithUnsignedGuest with GameSession := some ⟨[], [], []⟩ } ∧
    (OnJoinSessionComplete Env.Client JoiningWithUnsignedGuest
        EOnJoinSessionCompleteResult.Success).Trace = [] ∧
    FinishJoinSession Env.Client JoiningWithUnsignedGuest.RemoveJoinBinding
        EOnJoinSessionCompleteResult.Success ≠
      OnJoinSessionComplete Env.Client JoiningWithUnsignedGuest
        EOnJoinSessionCompleteResult.Success := by
  decide

/-- Both completion handlers remove the stored handle of their event before
anything else. Each is its continuation (splitscreen registration, or the
finishing step with its message or travel) run on the state in which only that
removal has happened; in that state and in the state in which the handler ends,
the stored handle is not registered with the game session. Without a game session
`OnCreatePresenceSessionComplete` does nothing at all. -/
theorem stored_handle_unregistered_first (env : Env) (s : UShooterGameInstance)
    (Result : EOnJoinSessionCompleteResult) (SessionName : FName) (bWasSuccessful : Bool) :
    (OnJoinSessionComplete env s Result =
        (if Result = EOnJoinSessionCompleteResult.Success ∧ s.LocalPlayers.length > 1 then
          RegisterSplitscreenPlayer env s.RemoveJoinBinding true
        else FinishJoinSession env s.RemoveJoinBinding Result) ∧
      (s.RemoveJoinBinding.Trace = s.Trace ∧
        s.RemoveJoinBinding.PendingMessage = s.PendingMessage ∧
        s.RemoveJoinBinding.PendingState = s.PendingState) ∧
      JoinHandleUnregistered s.RemoveJoinBinding s.OnJoinSessionCompleteDelegateHandle ∧
      JoinHandleUnregistered (OnJoinSessionComplete env s Result)
        s.OnJoinSessionCompleteDelegateHandle) ∧
    (OnCreatePresenceSessionComplete env s SessionName bWasSuccessful =
        (if s.GameSession.isSome then
          if bWasSuccessful = true ∧ s.LocalPlayers.length > 1 then
            Except.ok (RegisterSplitscreenPlayer env s.RemoveCreateBinding false)
          else FinishSessionCreation env s.RemoveCreateBinding
            (if bWasSuccessful then EOnJoinSessionCompleteResult.Success
             else EOnJoinSessionCompleteResult.UnknownError)
        else Except.ok s) ∧
      (s.RemoveCreateBinding.Trace = s.Trace ∧
        s.RemoveCreateBinding.PendingMessage = s.PendingMessage ∧
        s.RemoveCreateBinding.PendingState = s.PendingState) ∧
      CreateHandleUnregistered s.RemoveCreateBinding
        s.OnCreatePresenceSessionCompleteDelegateHandle ∧
      CreateHandleUnregistered
        (Ended (OnCreatePresenceSessionComplete env s SessionName bWasSuccessful))
        s.OnCreatePresenceSessionCompleteDelegateHandle) := by
  have hj := RemoveJoinBinding_frame s
  have hc := RemoveCreateBinding_frame s
  refine ⟨⟨OnJoinSessionComplete_eq env s Result, ⟨hj.1, hj.2.1, hj.2.2.1⟩,
    RemoveJoinBinding_unregistered s, ?_⟩,
    ⟨OnCreatePresenceSessionComplete_eq env s SessionName bWasSuccessful,
      ⟨hc.1, hc.2.1, hc.2.2.1⟩, RemoveCreateBinding_unregistered s, ?_⟩⟩
  · intro g hg
    rw [(OnJoinSessionComplete_step env s Result).GameSession] at hg
    exact RemoveJoinBinding_unregistered s g hg
  · intro g hg
    rw [(OnCreatePresenceSessionComplete_step env s SessionName bWasSuccessful).GameSession]
      at hg
    exact RemoveCreateBinding_unregistered s g hg

/-- C19: the code at a failing input. After two `JoinSession` calls the join event
carries the registrations 2 and 3 of this instance and the stored handle is 3. A
completion `SessionIsFull` is broadcast: the handler runs once for each
registration, 3 first. Each run removes the stored handle 3 and no other. So the
run through registration 2 is `FinishJoinSession` on a state in which
registration 2 is bound: it requests the message and makes `MessageMenu` pending
while its own registration is registered with the session, and it still is when
the broadcast is over. -/
theorem handler_stores_message_while_registered :
    TwiceJoined.GameSession = some ⟨[], [2, 3], []⟩ ∧
    TwiceJoined.OnJoinSessionCompleteDelegateHandle = 3 ∧
    (OnJoinSessionComplete Env.Client TwiceJoined
      EOnJoinSessionCompleteResult.SessionIsFull).GameSession = some ⟨[], [2], []⟩ ∧
    BroadcastJoinSessionComplete Env.Client TwiceJoined
        EOnJoinSessionCompleteResult.SessionIsFull =
      OnJoinSessionComplete Env.Client
        (OnJoinSessionComplete Env.Client TwiceJoined
          EOnJoinSessionCompleteResult.SessionIsFull)
        EOnJoinSessionCompleteResult.SessionIsFull ∧
    OnJoinSessionComplete Env.Client
        (OnJoinSessionComplete Env.Client TwiceJoined
          EOnJoinSessionCompleteResult.SessionIsFull)
        EOnJoinSessionCompleteResult.SessionIsFull =
      FinishJoinSession Env.Client
        (OnJoinSessionComplete Env.Client TwiceJoined
          EOnJoinSessionCompleteResult.SessionIsFull).RemoveJoinBinding
        EOnJoinSessionCompleteResult.SessionIsFull ∧
    (OnJoinSessionComplete Env.Client TwiceJoined
      EOnJoinSessionCompleteResult.SessionIsFull).RemoveJoinBinding.GameSession
      = some ⟨[], [2], []⟩ ∧
    (BroadcastJoinSessionComplete Env.Client TwiceJoined
      EOnJoinSessionCompleteResult.SessionIsFull).Trace =
      (OnJoinSessionComplete Env.Client TwiceJoined
        EOnJoinSessionCompleteResult.SessionIsFull).Trace ++
        [MessageRequest "Game is full." FName.MainMenu,
         Event.Log "GotoState: NewState: %s" ["MessageMenu"]] ∧
    (BroadcastJoinSessionComplete Env.Client TwiceJoined
      EOnJoinSessionCompleteResult.SessionIsFull).PendingState = FName.MessageMenu ∧
    (BroadcastJoinSessionComplete Env.Client TwiceJoined
      EOnJoinSessionCompleteResult.SessionIsFull).GameSession = some ⟨[], [2], []⟩ := by
  decide

/-- C20: the code at a failing input. After a rejected `JoinSession`, an accepted
`JoinSession` and the completion `SessionIsFull`, the stored join handle 3 is no
longer registered, but the registration 2 of the first call still is. A completion
`SessionDoesNotExist` fired afterwards reaches the handler through it:
`FinishJoinSession` runs, requests a message and replaces the pending message. -/
theorem late_join_completion_still_finishes :
    AfterRepeatedJoin.OnJoinSessionCompleteDelegateHandle = 3 ∧
    AfterRepeatedJoin.GameSession = some ⟨[], [2], []⟩ ∧
    AfterRepeatedJoin.PendingMessage.DisplayString = "Game is full." ∧
    (BroadcastJoinSessionComplete Env.Client AfterRepeatedJoin
      EOnJoinSessionCompleteResult.SessionDoesNotExist).PendingMessage.DisplayString
      = "Game no longer exists." ∧
    (BroadcastJoinSessionComplete Env.Client AfterRepeatedJoin
      EOnJoinSessionCompleteResult.SessionDoesNotExist).Trace =
      AfterRepeatedJoin.Trace ++
        [MessageRequest "Game no longer exists." FName.MainMenu,
         Event.Log "GotoState: NewState: %s" ["MessageMenu"]] := by
  decide

/-! ### Registrations of the completion callbacks -/

/-- A successful `FindSessions` leaves exactly one search registration on the
game session, the one whose handle it stores. -/
theorem FindSessions_registers_once (env : Env) (s : UShooterGameInstance)
    (PlayerOwner : Option ULocalPlayer) (bIsDedicatedServer bFindLAN : Bool)
    (h : (FindSessions env s PlayerOwner bIsDedicatedServer bFindLAN).1 = true) :
    ∃ g, (FindSessions env s PlayerOwner bIsDedicatedServer bFindLAN).2.GameSession = some g ∧
      g.FindSessionsCompleteEvent =
        [(FindSessions env s PlayerOwner bIsDedicatedServer
          bFindLAN).2.OnSearchSessionsCompleteDelegateHandle] := by
  unfold FindSessions at h ⊢
  cases PlayerOwner with
  | none => simp at h
  | some Player =>
    cases hg : s.GameSession with
    | none => simp [hg] at h
    | some g => exact ⟨_, rfl, rfl⟩

/-- C21: the code at a failing input. `JoinSession` is issued twice from the main
menu, the session accepting both calls and completing neither. The join event then
carries two registrations of this instance, 2 and 3, and the stored handle names
only the second. `FindSessions` issued twice from the same state leaves the one
registration 2, which is the stored handle. -/
theorem second_JoinSession_leaves_two_registrations :
    (JoinSession Env.Client (JoinSession Env.Client InMainMenu SignedInPlayer FoundSession).2
      SignedInPlayer FoundSession).2.GameSession = some ⟨[], [2, 3], []⟩ ∧
    (JoinSession Env.Client (JoinSession Env.Client InMainMenu SignedInPlayer FoundSession).2
      SignedInPlayer FoundSession).2.OnJoinSessionCompleteDelegateHandle = 3 ∧
    (JoinSession Env.Client InMainMenu SignedInPlayer FoundSession).2.PendingState
      = FName.Playing ∧
    (FindSessions Env.Client (FindSessions Env.Client InMainMenu (some SignedInPlayer)
      false false).2 (some SignedInPlayer) false false).2.GameSession = some ⟨[], [], [2]⟩ ∧
    (FindSessions Env.Client (FindSessions Env.Client InMainMenu (some SignedInPlayer)
      false false).2 (some SignedInPlayer) false false).2.OnSearchSessionsCompleteDelegateHandle
      = 2 := by
  decide

/-! ### Travelling to a session -/

/-- C22: `InternalTravelToSession` decides in this order. Without a first local
player controller it requests the message "Invalid Player Controller"; otherwise
without an online subsystem "OSS missing"; otherwise, when the session interface
is invalid or the connect string does not resolve, "Travel to Session failed.".
Each request names `MainMenu` as next state and is the only message request of
the call, and no client travel is issued with it; the three texts are pairwise
distinct. When none of the three applies the call issues exactly one client
travel and no message request, to the resolved address, with
"?EncryptionToken=1" appended exactly when the test-encryption flag is not zero. -/
theorem InternalTravelToSession_decision (env : Env) (s : UShooterGameInstance) (n : FName) :
    (env.FirstLocalPlayerController = false →
      Outcome s (InternalTravelToSession env s n)
        [MessageRequest "Invalid Player Controller" FName.MainMenu]) ∧
    (env.FirstLocalPlayerController = true → env.OnlineSub = false →
      Outcome s (InternalTravelToSession env s n)
        [MessageRequest "OSS missing" FName.MainMenu]) ∧
    (env.FirstLocalPlayerController = true → env.OnlineSub = true →
      (env.SessionInterface = false ∨ env.ResolvedConnectString = none) →
      Outcome s (InternalTravelToSession env s n)
        [MessageRequest "Travel to Session failed." FName.MainMenu]) ∧
    (∀ URL, env.FirstLocalPlayerController = true → env.OnlineSub = true →
      env.SessionInterface = true → env.ResolvedConnectString = some URL →
      Outcome s (InternalTravelToSession env s n)
        [Event.ClientTravel (if env.TestEncryption = 0 then URL else URL ++ "?EncryptionToken=1")]) ∧
    ("Invalid Player Controller" : FText) ≠ "OSS missing" ∧
    ("Invalid Player Controller" : FText) ≠ "Travel to Session failed." ∧
    ("OSS missing" : FText) ≠ "Travel to Session failed." := by
  have hfail : Outcome s
      ((ShowMessageThenGoMain env s "Travel to Session failed." "OK" FText.GetEmpty).emit
        (Event.LogWarning "Failed to travel to session upon joining it" []))
      [MessageRequest "Travel to Session failed." FName.MainMenu] := by
    have h1 := ShowMessageThenGotoState_Outcome env s "Travel to Session failed." "OK"
      FText.GetEmpty FName.MainMenu true none
    have h2 : Outcome (ShowMessageThenGoMain env s "Travel to Session failed." "OK"
        FText.GetEmpty)
        ((ShowMessageThenGoMain env s "Travel to Session failed." "OK" FText.GetEmpty).emit
          (Event.LogWarning "Failed to travel to session upon joining it" [])) [] :=
      ⟨[_], rfl, rfl⟩
    simpa using Outcome.outcome_trans h1 h2
  refine ⟨?_, ?_, ?_, ?_, by decide, by decide, by decide⟩
  · intro hpc
    unfold InternalTravelToSession
    rw [if_pos (by simp [hpc])]
    exact ShowMessageThenGoMain_after_remove_Outcome env s _ _ _
  · intro hpc hoss
    unfold InternalTravelToSession
    rw [if_neg (by simp [hpc]), if_pos (by simp [hoss])]
    exact ShowMessageThenGoMain_after_remove_Outcome env s _ _ _
  · intro hpc hoss hbad
    unfold InternalTravelToSession
    rw [if_neg (by simp [hpc]), if_neg (by simp [hoss])]
    have hnone : (if env.SessionInterface then env.ResolvedConnectString else none) = none := by
      rcases hbad with h | h
      · simp [h]
      · simp [h]
    rw [hnone]
    exact hfail
  · intro URL hpc hoss hsi hurl
    unfold InternalTravelToSession
    rw [if_neg (by simp [hpc]), if_neg (by simp [hoss])]
    have hsome : (if env.SessionInterface then env.ResolvedConnectString else none)
        = some URL := by simp [hsi, hurl]
    rw [hsome]
    by_cases ht : env.TestEncryption = 0
    · simp only [ht, ne_eq, not_true_eq_false, if_false, if_true]
      exact ⟨[_], rfl, rfl⟩
    · simp only [ht, ne_eq, not_false_eq_true, if_true, if_false]
      exact ⟨[_], rfl, rfl⟩

theorem RemoveNetworkFailureHandlers_core (s : UShooterGameInstance) :
    s.RemoveNetworkFailureHandlers.CurrentState = s.CurrentState ∧
    s.RemoveNetworkFailureHandlers.PendingState = s.PendingState ∧
    s.RemoveNetworkFailureHandlers.PendingMessage = s.PendingMessage := by
  unfold RemoveNetworkFailureHandlers
  split <;> exact ⟨rfl, rfl, rfl⟩

theorem AddNetworkFailureHandlers_core (s : UShooterGameInstance) :
    s.AddNetworkFailureHandlers.CurrentState = s.CurrentState ∧
    s.AddNetworkFailureHandlers.PendingState = s.PendingState ∧
    s.AddNetworkFailureHandlers.PendingMessage = s.PendingMessage := by
  unfold AddNetworkFailureHandlers
  split <;> exact ⟨rfl, rfl, rfl⟩

/-- A message for the main menu requested while `Playing` is pending, from a
current state other than `WelcomeScreen` and `MessageMenu`, is stored and
`MessageMenu` becomes the pending state. -/
theorem ShowMessageThenGoMain_stored (env : Env) (t : UShooterGameInstance)
    (Message OK Cancel : FText) (hp : t.PendingState = FName.Playing)
    (hw : t.CurrentState ≠ FName.WelcomeScreen) (hm : t.CurrentState ≠ FName.MessageMenu) :
    (ShowMessageThenGoMain env t Message OK Cancel).PendingMessage
      = ⟨Message, OK, Cancel, FName.MainMenu, none⟩ ∧
    (ShowMessageThenGoMain env t Message OK Cancel).PendingState = FName.MessageMenu ∧
    (ShowMessageThenGoMain env t Message OK Cancel).CurrentState = t.CurrentState := by
  have hno : ¬ GateRejects t FName.MainMenu true := by
    simp [GateRejects, hp, hw, hm]
  unfold ShowMessageThenGoMain
  rw [ShowMessageThenGotoState_accepted env t Message OK Cancel FName.MainMenu true none hno,
    if_neg hm]
  exact ⟨rfl, rfl, rfl⟩

/-- A message requested while the current state is `WelcomeScreen` is dropped. -/
theorem ShowMessageThenGoMain_at_WelcomeScreen (env : Env) (t : UShooterGameInstance)
    (Message OK Cancel : FText) (hw : t.CurrentState = FName.WelcomeScreen) :
    (ShowMessageThenGoMain env t Message OK Cancel).PendingMessage = t.PendingMessage ∧
    (ShowMessageThenGoMain env t Message OK Cancel).PendingState = t.PendingState := by
  have h := ShowMessageThenGotoState_rejected env t Message OK Cancel FName.MainMenu true none
    (Or.inl (Or.inr hw))
  exact ⟨h.1, h.2.1⟩

/-- A failed `InternalTravelToSession` has the pending message, pending state and
current state of one call of `ShowMessageThenGoMain` with the failure text, made
in a state with the same three fields. -/
theorem InternalTravelToSession_failed (env : Env) (s : UShooterGameInstance) (n : FName)
    (hfail : TravelFails env) :
    ∃ t : UShooterGameInstance, t.CurrentState = s.CurrentState ∧
      t.PendingState = s.PendingState ∧ t.PendingMessage = s.PendingMessage ∧
      (InternalTravelToSession env s n).PendingMessage =
        (ShowMessageThenGoMain env t (TravelFailureText env) "OK" FText.GetEmpty).PendingMessage ∧
      (InternalTravelToSession env s n).PendingState =
        (ShowMessageThenGoMain env t (TravelFailureText env) "OK" FText.GetEmpty).PendingState ∧
      (InternalTravelToSession env s n).CurrentState =
        (ShowMessageThenGoMain env t (TravelFailureText env) "OK" FText.GetEmpty).CurrentState := by
  have hr := RemoveNetworkFailureHandlers_core s
  unfold InternalTravelToSession TravelFailureText
  by_cases hpc : env.FirstLocalPlayerController = false
  · rw [if_pos (by simp [hpc]), if_pos hpc]
    exact ⟨_, hr.1, hr.2.1, hr.2.2, rfl, rfl, rfl⟩
  · rw [if_neg (by simpa using hpc), if_neg hpc]
    by_cases hoss : env.OnlineSub = false
    · rw [if_pos (by simp [hoss]), if_pos hoss]
      exact ⟨_, hr.1, hr.2.1, hr.2.2, rfl, rfl, rfl⟩
    · rw [if_neg (by simpa using hoss), if_neg hoss]
      have hnone : (if env.SessionInterface then env.ResolvedConnectString else none)
          = none := by
        rcases hfail with h | h | h | h
        · exact absurd h hpc
        · exact absurd h hoss
        · simp [h]
        · simp [h]
      rw [hnone]
      exact ⟨s, rfl, rfl, rfl, rfl, rfl, rfl⟩

/-- C23, counterexample: at the welcome screen, a `TravelToSession` that fails
because the connect string does not resolve stores no message and leaves
`Playing` pending. -/
theorem TravelToSession_fails_at_WelcomeScreen :
    TravelFails Env.Client ∧
    (TravelToSession Env.Client
      { Constructed "Welcome" "Menu" with CurrentState := FName.WelcomeScreen }
      FName.GameSession).PendingState = FName.Playing ∧
    (TravelToSession Env.Client
      { Constructed "Welcome" "Menu" with CurrentState := FName.WelcomeScreen }
      FName.GameSession).PendingMessage = ⟨"", "", "", FName.None, none⟩ := by
  decide

/-- C23, amended: when `TravelToSession` fails for one of the three travel
reasons from a current state other than `WelcomeScreen` and `MessageMenu`, the
pending message afterwards is the failure text with the label "OK", no cancel
label, next state `MainMenu` and no owner, the pending state is `MessageMenu`
(so it is not `Playing`) and the current state is unchanged. When it fails while
the current state is `WelcomeScreen`, the gate drops the message: the pending
message is unchanged and the pending state is `Playing`. -/
theorem TravelToSession_failure_routing (env : Env) (s : UShooterGameInstance) (n : FName)
    (hfail : TravelFails env) :
    (s.CurrentState ≠ FName.WelcomeScreen → s.CurrentState ≠ FName.MessageMenu →
      (TravelToSession env s n).PendingMessage
        = ⟨TravelFailureText env, "OK", FText.GetEmpty, FName.MainMenu, none⟩ ∧
      (TravelToSession env s n).PendingState = FName.MessageMenu ∧
      (TravelToSession env s n).PendingState ≠ FName.Playing ∧
      (TravelToSession env s n).CurrentState = s.CurrentState) ∧
    (s.CurrentState = FName.WelcomeScreen →
      (TravelToSession env s n).PendingMessage = s.PendingMessage ∧
      (TravelToSession env s n).PendingState = FName.Playing) := by
  have ha := AddNetworkFailureHandlers_core s
  obtain ⟨t, htc, htp, htm, hm, hp, hc⟩ := InternalTravelToSession_failed env
    (s.AddNetworkFailureHandlers.GotoState FName.Playing) n hfail
  have htc2 : t.CurrentState = s.CurrentState := htc.trans ha.1
  have htp2 : t.PendingState = FName.Playing := htp
  have htm2 : t.PendingMessage = s.PendingMessage := htm.trans ha.2.2
  unfold TravelToSession
  rw [hm, hp, hc]
  constructor
  · intro hw hmm
    have h := ShowMessageThenGoMain_stored env t (TravelFailureText env) "OK" FText.GetEmpty
      htp2 (by rw [htc2]; exact hw) (by rw [htc2]; exact hmm)
    refine ⟨h.1, h.2.1, ?_, h.2.2.trans htc2⟩
    rw [h.2.1]
    decide
  · intro hw
    have h := ShowMessageThenGoMain_at_WelcomeScreen env t (TravelFailureText env) "OK"
      FText.GetEmpty (htc2.trans hw)
    exact ⟨h.1.trans htm2, h.2.trans htp2⟩

/-- Witness of C23: the connect string does not resolve for a client in the main
menu. -/
theorem TravelToSession_failure_routing_witness :
    TravelFails Env.Client ∧
    (TravelToSession Env.Client InMainMenu FName.GameSession).PendingMessage
      = ⟨"Travel to Session failed.", "OK", "", FName.MainMenu, none⟩ :=
  ⟨by decide, ((TravelToSession_failure_routing Env.Client InMainMenu FName.GameSession
    (by decide)).1 (by decide) (by decide)).1⟩

/-! ### The settings of a quick session -/


/-- C26: the code at a failing input. `HostQuickSession` is called from the main
menu with settings of 4 public connections and no game mode or map name. The
`HostSession` call of the session receives these settings as they are: 4 public
connections, not 16, and neither "TDM" nor "Highrise". -/
theorem HostQuickSession_hands_over_caller_settings :
    Returns (HostQuickSession Env.Client InMainMenu SignedInPlayer ⟨4, []⟩) ∧
    (EndedCall (HostQuickSession Env.Client InMainMenu SignedInPlayer ⟨4, []⟩)).Trace =
      [Event.HostSession (some 11) ⟨4, []⟩,
       Event.Log "GotoState: NewState: %s" ["Playing"]] := by
  decide

/-! ### The pending invite is touched by `SetPendingInvite` and `Tick` only -/

theorem BeginPendingInviteState_PendingInvite (env : Env) (s : UShooterGameInstance) :
    (Ended (BeginPendingInviteState env s)).PendingInvite = s.PendingInvite := by
  unfold BeginPendingInviteState
  simp only []
  split
  · rename_i r hr
    have h := (LoadFrontEndMap_ok env _ _ r hr).2.1.PendingInvite
    split
    · exact h
    · exact h
  · rename_i t ht
    obtain ⟨_, rfl⟩ := LoadFrontEndMap_error env _ _ t ht
    rfl

theorem BeginWelcomeScreenState_PendingInvite (env : Env) (s : UShooterGameInstance) :
    (Ended (BeginWelcomeScreenState env s)).PendingInvite = s.PendingInvite := by
  have h2 : (SetOnlineMode env (s.emit (Event.BeginState FName.WelcomeScreen))
      EOnlineMode.Offline).RemoveSplitScreenPlayers.PendingInvite = s.PendingInvite := by
    rw [(RemoveSplitScreenPlayers_frame _).PendingInvite, SetOnlineMode_PendingInvite]
    rfl
  unfold BeginWelcomeScreenState
  simp only []
  split
  · rename_i r hr
    have h3 := (LoadFrontEndMap_ok env _ _ r hr).2.1.PendingInvite.trans h2
    split
    · have h4 := (SetFirstPlayerCachedUniqueNetId_frame r.2 none).PendingInvite.trans h3
      split
      · exact h4
      · exact h4
    · exact h3
  · rename_i t ht
    obtain ⟨_, rfl⟩ := LoadFrontEndMap_error env _ _ t ht
    exact h2

theorem BeginMainMenuState_PendingInvite (env : Env) (s : UShooterGameInstance) :
    (Ended (BeginMainMenuState env s)).PendingInvite = s.PendingInvite := by
  rw [(BeginMainMenuState_after_SetOnlineMode env s).PendingInvite, SetOnlineMode_PendingInvite]
  split <;> rfl

theorem BeginMessageMenuState_PendingInvite (env : Env) (s : UShooterGameInstance) :
    (BeginMessageMenuState env s).PendingInvite = s.PendingInvite := by
  unfold BeginMessageMenuState
  simp only []
  split
  · rfl
  · split <;> rfl

/-- Wrapping the state an action ended in keeps the pending invite. -/
theorem Ended_with_CurrentState_PendingInvite
    (r : Except UShooterGameInstance UShooterGameInstance) (m : FName) :
    (Ended (match r with
      | Except.ok s1 => Except.ok { s1 with CurrentState := m }
      | Except.error t => Except.error t)).PendingInvite = (Ended r).PendingInvite := by
  cases r <;> rfl

theorem BeginNewState_PendingInvite (env : Env) (s : UShooterGameInstance)
    (NewState PrevState : FName) :
    (Ended (BeginNewState env s NewState PrevState)).PendingInvite = s.PendingInvite := by
  unfold BeginNewState
  simp only []
  rw [Ended_with_CurrentState_PendingInvite]
  split
  · exact BeginPendingInviteState_PendingInvite env s
  · split
    · exact BeginWelcomeScreenState_PendingInvite env s
    · split
      · exact BeginMainMenuState_PendingInvite env s
      · split
        · exact BeginMessageMenuState_PendingInvite env s
        · split
          · exact (BeginPlayingState_frame env s).PendingInvite
          · rfl

/-- A commit does not touch the pending invite, also when the process is
terminated in it. -/
theorem MaybeChangeState_PendingInvite (env : Env) (s : UShooterGameInstance) :
    (Ended (MaybeChangeState env s)).PendingInvite = s.PendingInvite := by
  unfold MaybeChangeState
  split
  · simp only []
    cases hE : EndCurrentState env s s.PendingState with
    | error t =>
      obtain ⟨_, _, rfl⟩ := EndCurrentState_error env s t _ hE
      rfl
    | ok s1 =>
      have h1 := (EndCurrentState_spec env s s1 _ hE).2.2.2.1
      have h2 := BeginNewState_PendingInvite env s1 s1.PendingState s.CurrentState
      simp only []
      cases hB : BeginNewState env s1 s1.PendingState s.CurrentState with
      | error t =>
        rw [hB] at h2
        exact h2.trans h1
      | ok s2 =>
        rw [hB] at h2
        exact h2.trans h1
  · rfl

theorem ShowMessageThenGotoState_PendingInvite (env : Env) (s : UShooterGameInstance)
    (Message OK Cancel : FText) (NewState : FName) (Override : Bool) (Owner : Option Nat) :
    (ShowMessageThenGotoState env s Message OK Cancel NewState Override Owner).PendingInvite
      = s.PendingInvite := by
  rcases ShowMessageThenGotoState_cases env s Message OK Cancel NewState Override Owner with
    ⟨_, line, _, heq⟩ | ⟨_, heq⟩
  · rw [heq]
    rfl
  · rw [heq]
    split
    · rw [BeginMessageMenuState_PendingInvite]
      rfl
    · rfl

theorem ShowMessageThenGoMain_PendingInvite (env : Env) (s : UShooterGameInstance)
    (Message OK Cancel : FText) :
    (ShowMessageThenGoMain env s Message OK Cancel).PendingInvite = s.PendingInvite :=
  ShowMessageThenGotoState_PendingInvite env s Message OK Cancel FName.MainMenu true none

theorem InternalTravelToSession_PendingInvite (env : Env) (s : UShooterGameInstance)
    (n : FName) : (InternalTravelToSession env s n).PendingInvite = s.PendingInvite := by
  have hr := (RemoveNetworkFailureHandlers_frame s).PendingInvite
  unfold InternalTravelToSession
  split
  · rw [ShowMessageThenGoMain_PendingInvite, hr]
  · split
    · rw [ShowMessageThenGoMain_PendingInvite, hr]
    · split
      · exact ShowMessageThenGoMain_PendingInvite env s _ _ _
      · rfl

theorem FinishJoinSession_PendingInvite (env : Env) (s : UShooterGameInstance)
    (Result : EOnJoinSessionCompleteResult) :
    (FinishJoinSession env s Result).PendingInvite = s.PendingInvite := by
  unfold FinishJoinSession
  split
  · rw [ShowMessageThenGoMain_PendingInvite, (RemoveNetworkFailureHandlers_frame s).PendingInvite]
  · exact InternalTravelToSession_PendingInvite env s _

theorem RegisterSplitscreenPlayer_PendingInvite (env : Env) (s : UShooterGameInstance)
    (b : Bool) : (RegisterSplitscreenPlayer env s b).PendingInvite = s.PendingInvite := by
  unfold RegisterSplitscreenPlayer
  split
  · split <;> rfl
  · rfl

theorem FinishSessionCreation_PendingInvite (env : Env) (s : UShooterGameInstance)
    (Result : EOnJoinSessionCompleteResult) :
    (Ended (FinishSessionCreation env s Result)).PendingInvite = s.PendingInvite := by
  unfold FinishSessionCreation
  split
  · split <;> rfl
  · exact ShowMessageThenGoMain_PendingInvite env s _ _ _

theorem OnJoinSessionComplete_PendingInvite (env : Env) (s : UShooterGameInstance)
    (Result : EOnJoinSessionCompleteResult) :
    (OnJoinSessionComplete env s Result).PendingInvite = s.PendingInvite := by
  have h1 : ∀ s1 : UShooterGameInstance, s1.PendingInvite = s.PendingInvite →
      (if Result = EOnJoinSessionCompleteResult.Success ∧ s1.LocalPlayers.length > 1 then
        RegisterSplitscreenPlayer env s1 true
        else FinishJoinSession env s1 Result).PendingInvite = s.PendingInvite := by
    intro s1 hs1
    split
    · rw [RegisterSplitscreenPlayer_PendingInvite, hs1]
    · rw [FinishJoinSession_PendingInvite, hs1]
  unfold OnJoinSessionComplete
  simp only []
  apply h1
  split <;> rfl

theorem OnCreatePresenceSessionComplete_PendingInvite (env : Env) (s : UShooterGameInstance)
    (n : FName) (b : Bool) :
    (Ended (OnCreatePresenceSessionComplete env s n b)).PendingInvite = s.PendingInvite := by
  unfold OnCreatePresenceSessionComplete
  split
  · simp only []
    split
    · exact RegisterSplitscreenPlayer_PendingInvite env _ false
    · rw [FinishSessionCreation_PendingInvite]
  · rfl

/-- A fold of steps that keep the pending invite keeps it. -/
theorem foldl_PendingInvite {α : Type} (f : UShooterGameInstance → α → UShooterGameInstance)
    (hf : ∀ s a, (f s a).PendingInvite = s.PendingInvite)
    (l : List α) (s : UShooterGameInstance) :
    (l.foldl f s).PendingInvite = s.PendingInvite := by
  induction l generalizing s with
  | nil => rfl
  | cons a l ih => exact (ih (f s a)).trans (hf s a)

/-- A run of steps that keep the pending invite keeps it, up to the step that
terminates the process if one does. -/
theorem RunEach_PendingInvite {α : Type}
    (f : UShooterGameInstance → α → Except UShooterGameInstance UShooterGameInstance)
    (hf : ∀ s a, (Ended (f s a)).PendingInvite = s.PendingInvite)
    (l : List α) (s : UShooterGameInstance) :
    (Ended (RunEach f l s)).PendingInvite = s.PendingInvite := by
  induction l generalizing s with
  | nil => rfl
  | cons a l ih =>
    have h1 := hf s a
    unfold RunEach
    cases hfa : f s a with
    | ok s1 =>
      rw [hfa] at h1
      exact (ih s1).trans h1
    | error t =>
      rw [hfa] at h1
      exact h1

theorem BroadcastJoinSessionComplete_PendingInvite (env : Env) (s : UShooterGameInstance)
    (Result : EOnJoinSessionCompleteResult) :
    (BroadcastJoinSessionComplete env s Result).PendingInvite = s.PendingInvite := by
  unfold BroadcastJoinSessionComplete
  split
  · apply foldl_PendingInvite
    intro acc hd
    split
    · split
      · exact OnJoinSessionComplete_PendingInvite env acc Result
      · rfl
    · rfl
  · rfl

theorem BroadcastCreatePresenceSessionComplete_PendingInvite (env : Env)
    (s : UShooterGameInstance) (b : Bool) :
    (Ended (BroadcastCreatePresenceSessionComplete env s b)).PendingInvite
      = s.PendingInvite := by
  unfold BroadcastCreatePresenceSessionComplete
  split
  · apply RunEach_PendingInvite
    intro acc hd
    split
    · split
      · exact OnCreatePresenceSessionComplete_PendingInvite env acc _ b
      · rfl
    · rfl
  · rfl

theorem session_call_tail_PendingInvite (s s3 : UShooterGameInstance) (Accepted : Bool)
    (h : s3.PendingInvite = s.PendingInvite) :
    (if Accepted then
        if s3.PendingState = s3.CurrentState ∨ s3.PendingState = FName.None then
          (true, s3.GotoState FName.Playing)
        else (false, s3)
      else (false, s3)).2.PendingInvite = s.PendingInvite := by
  split
  · split
    · exact h
    · exact h
  · exact h

theorem HostQuickSession_PendingInvite (env : Env) (s : UShooterGameInstance)
    (p : ULocalPlayer) (Settings : FOnlineSessionSettings) :
    (EndedCall (HostQuickSession env s p Settings)).PendingInvite = s.PendingInvite := by
  rw [HostQuickSession_eq]
  have h := RunEach_PendingInvite _
    (fun acc b => BroadcastCreatePresenceSessionComplete_PendingInvite env acc b)
  unfold HostQuickSessionAfterCall
  cases hgs : s.GameSession with
  | none => rfl
  | some g =>
    simp only [Option.isSome_some, if_true]
    generalize hS : emit _ (Event.HostSession _ _) = S
    have hS2 : S.PendingInvite = s.PendingInvite := by rw [← hS]; rfl
    have h2 := h env.HostSessionReply.Completions S
    cases hR : RunEach (fun acc b => BroadcastCreatePresenceSessionComplete env acc b)
        env.HostSessionReply.Completions S with
    | error t =>
      rw [hR] at h2
      exact h2.trans hS2
    | ok a =>
      rw [hR] at h2
      have h3 : a.PendingInvite = s.PendingInvite := h2.trans hS2
      show (VerdictTail env.HostSessionReply.Accepted a).2.PendingInvite = _
      unfold VerdictTail
      exact session_call_tail_PendingInvite s a _ h3

theorem JoinSession_PendingInvite (env : Env) (s : UShooterGameInstance) (p : ULocalPlayer)
    (SearchResult : FOnlineSessionSearchResult) :
    (JoinSession env s p SearchResult).2.PendingInvite = s.PendingInvite := by
  unfold JoinSession
  split
  · simp only []
    apply session_call_tail_PendingInvite
    rw [foldl_PendingInvite _ (fun acc r =>
      BroadcastJoinSessionComplete_PendingInvite env acc r)]
    exact (AddNetworkFailureHandlers_frame s).PendingInvite
  · rfl

/-! ### The invite step of `Tick` -/

theorem Tick_skipped (env : Env) (s : UShooterGameInstance) (h : TickSkipped env = true) :
    Tick env s = Except.ok (true, s) := by
  unfold TickSkipped at h
  unfold Tick
  by_cases hd : env.IsDedicatedServerInstance = true
  · rw [if_pos hd]
  · rw [if_neg hd, if_pos (by simpa [hd] using h)]

/-- A `Tick` whose commit step terminates the process ends there. -/
theorem Tick_terminated (env : Env) (s t : UShooterGameInstance)
    (hrun : TickSkipped env = false) (ht : MaybeChangeState env s = Except.error t) :
    Tick env s = Except.error t := by
  unfold TickSkipped at hrun
  simp only [Bool.or_eq_false_iff] at hrun
  unfold Tick
  rw [if_neg (by simp [hrun.1]), if_neg (by simp [hrun.2]), ht]

theorem Tick_not_ready (env : Env) (s s1 : UShooterGameInstance)
    (hrun : TickSkipped env = false) (hm : MaybeChangeState env s = Except.ok s1)
    (h : ¬ InviteReady env s1) :
    Tick env s = Except.ok (true, s1) := by
  unfold TickSkipped at hrun
  simp only [Bool.or_eq_false_iff] at hrun
  unfold Tick
  rw [if_neg (by simp [hrun.1]), if_neg (by simp [hrun.2]), hm]
  simp only []
  unfold InviteReady at h
  split
  · rename_i h1
    simp only [Bool.and_eq_true, decide_eq_true_eq] at h1
    split
    · rename_i h2
      simp only [Bool.and_eq_true] at h2
      split
      · rename_i h3
        exact absurd ⟨h1.1.1, h1.1.2, h1.2, h2.1, h2.2, h3⟩ h
      · rfl
    · rfl
  · rfl

theorem InviteCallState_PendingInvite (env : Env) (s : UShooterGameInstance) :
    (InviteCallState env s).PendingInvite = s.PendingInvite := by
  unfold InviteCallState
  rw [SetOnlineMode_PendingInvite, (SetFirstPlayerCachedUniqueNetId_frame _ _).PendingInvite,
    (SetFirstPlayerControllerId_frame _ _).PendingInvite]

theorem InviteCallState_GetFirstGamePlayer (env : Env) (s : UShooterGameInstance)
    (p : ULocalPlayer) (hp : s.GetFirstGamePlayer = some p) :
    (InviteCallState env s).GetFirstGamePlayer = some (InvitedPlayer s p) := by
  unfold InviteCallState GetFirstGamePlayer
  rw [SetOnlineMode_LocalPlayers]
  unfold GetFirstGamePlayer at hp
  cases hl : s.LocalPlayers with
  | nil => rw [hl] at hp; simp at hp
  | cons q qs =>
    rw [hl] at hp
    simp only [List.head?_cons, Option.some.injEq] at hp
    subst hp
    simp [SetFirstPlayerControllerId, SetFirstPlayerCachedUniqueNetId, hl, InvitedPlayer]

theorem Tick_ready_without_player (env : Env) (s s1 : UShooterGameInstance)
    (hrun : TickSkipped env = false) (hm : MaybeChangeState env s = Except.ok s1)
    (h : InviteReady env s1) (hp : s1.GetFirstGamePlayer = none) :
    Tick env s = Except.ok (true, ClearInviteUser s1) := by
  unfold TickSkipped at hrun
  simp only [Bool.or_eq_false_iff] at hrun
  obtain ⟨h1, h2, h3, h4, h5, h6⟩ := h
  unfold Tick
  rw [if_neg (by simp [hrun.1]), if_neg (by simp [hrun.2]), hm]
  simp only []
  rw [if_pos (by simp [h1, h2, h3]), if_pos (by simp [h4, h5]), if_pos h6]
  simp only [hp]
  rfl

theorem Tick_ready_with_player (env : Env) (s s1 : UShooterGameInstance)
    (hrun : TickSkipped env = false) (hm : MaybeChangeState env s = Except.ok s1)
    (h : InviteReady env s1) (p : ULocalPlayer) (hp : s1.GetFirstGamePlayer = some p) :
    Tick env s =
      if s1.PendingInvite.UserId = s1.PendingInvite.InviteResult.Session.OwningUserId then
        (HostQuickSession env (InviteCallState env s1) (InvitedPlayer s1 p)
          s1.PendingInvite.InviteResult.Session.SessionSettings).map
          (fun r => (true, ClearInviteUser r.2))
      else
        Except.ok (true, ClearInviteUser
          (JoinSession env (InviteCallState env s1) (InvitedPlayer s1 p)
            s1.PendingInvite.InviteResult).2) := by
  unfold TickSkipped at hrun
  simp only [Bool.or_eq_false_iff] at hrun
  obtain ⟨h1, h2, h3, h4, h5, h6⟩ := h
  have hcall := InviteCallState_GetFirstGamePlayer env _ p hp
  have hinv := InviteCallState_PendingInvite env s1
  unfold InviteCallState at hcall hinv
  unfold Tick
  rw [if_neg (by simp [hrun.1]), if_neg (by simp [hrun.2]), hm]
  simp only []
  rw [if_pos (by simp [h1, h2, h3]), if_pos (by simp [h4, h5]), if_pos h6]
  simp only [hp, hcall, hinv]
  unfold InviteCallState ClearInviteUser
  by_cases heq : s1.PendingInvite.UserId = s1.PendingInvite.InviteResult.Session.OwningUserId
  · have ho : s1.PendingInvite.InviteResult.Session.OwningUserId.isSome = true := by
      rw [← heq]; exact h1
    simp only [heq, ho, Option.isSome_some, Bool.and_self, decide_True, Bool.true_and, if_true]
    generalize HostQuickSession env _ _ _ = R
    cases R <;> rfl
  · simp [heq]

/-- A `Tick` on an instance whose invite has no user id is its commit step alone,
and leaves the invite without user id. -/
theorem Tick_without_invite (env : Env) (s : UShooterGameInstance)
    (h : s.PendingInvite.UserId = none) :
    (Tick env s).map Prod.snd
      = (if TickSkipped env then Except.ok s else MaybeChangeState env s) ∧
    (EndedCall (Tick env s)).PendingInvite.UserId = none := by
  by_cases hs : TickSkipped env = true
  · rw [Tick_skipped env s hs, if_pos hs]
    exact ⟨rfl, h⟩
  · have hrun : TickSkipped env = false := by simpa using hs
    have hP := MaybeChangeState_PendingInvite env s
    rw [if_neg hs]
    cases hm : MaybeChangeState env s with
    | error t =>
      rw [hm] at hP
      rw [Tick_terminated env s t hrun hm]
      refine ⟨rfl, ?_⟩
      show t.PendingInvite.UserId = none
      rw [show t.PendingInvite = s.PendingInvite from hP]
      exact h
    | ok s1 =>
      rw [hm] at hP
      have hP1 : s1.PendingInvite = s.PendingInvite := hP
      have hno : ¬ InviteReady env s1 := by
        rintro ⟨h1, _⟩
        rw [hP1, h] at h1
        simp at h1
      rw [Tick_not_ready env s s1 hrun hm hno]
      refine ⟨rfl, ?_⟩
      show s1.PendingInvite.UserId = none
      rw [hP1]
      exact h

theorem Ticks_without_invite (envs : List Env) (s : UShooterGameInstance)
    (h : s.PendingInvite.UserId = none) :
    Ticks envs s = Commits envs s ∧ (Ended (Ticks envs s)).PendingInvite.UserId = none := by
  induction envs generalizing s with
  | nil => exact ⟨rfl, h⟩
  | cons env envs ih =>
    have h1 := Tick_without_invite env s h
    unfold Ticks Commits RunEach
    rw [h1.1]
    cases hr : (if TickSkipped env = true then Except.ok s else MaybeChangeState env s) with
    | error t =>
      refine ⟨rfl, ?_⟩
      have h2 := h1.2
      rw [← Ended_map_snd, h1.1, hr] at h2
      exact h2
    | ok s1 =>
      have h2 := h1.2
      rw [← Ended_map_snd, h1.1, hr] at h2
      exact ih s1 h2

/-- C24, counterexample: a `Tick` consumes the checked invite of identity 11 on
controller 3 (it issues the join). Afterwards the user id is absent, but the
controller id is 3 and the privileges flag is true: the invite is not the
default-constructed one. -/
theorem Tick_leaves_controller_and_privileges :
    Returns (Tick Env.Client WithCheckedInvite) ∧
    (EndedCall (Tick Env.Client WithCheckedInvite)).PendingInvite
      = ⟨3, none, FoundSession, true⟩ ∧
    (EndedCall (Tick Env.Client WithCheckedInvite)).PendingInvite ≠ DefaultPendingInvite ∧
    (EndedCall (Tick Env.Client WithCheckedInvite)).Trace =
      [Event.SetUsingMultiplayerFeatures 11 true, Event.JoinSession (some 11) FoundSession,
       Event.Log "GotoState: NewState: %s" ["Playing"]] := by
  decide

/-- C24, amended: after every `Tick` that consumes the pending invite (it is not
skipped, and after its commit step the invite has a user id, the privileges are
checked, the current state is `PendingInvite` and the provider reports
`NoSession`), the user id of the invite is absent, and the controller id, the
invite result and the privileges flag are the ones the invite had before the
`Tick`. Such a `Tick` returns unless its host call terminates the process. -/
theorem Tick_consuming_invite_resets_user_id (env : Env) (s s1 : UShooterGameInstance)
    (hrun : TickSkipped env = false) (hm : MaybeChangeState env s = Except.ok s1)
    (hready : InviteReady env s1) :
    (∀ r, Tick env s = Except.ok r →
      r.2.PendingInvite = { s.PendingInvite with UserId := none }) ∧
    (Returns (Tick env s) ↔
      ∀ p, s1.GetFirstGamePlayer = some p →
        s1.PendingInvite.UserId = s1.PendingInvite.InviteResult.Session.OwningUserId →
        Returns (HostQuickSession env (InviteCallState env s1) (InvitedPlayer s1 p)
          s1.PendingInvite.InviteResult.Session.SessionSettings)) := by
  have hP := MaybeChangeState_PendingInvite env s
  rw [hm] at hP
  have hP1 : s1.PendingInvite = s.PendingInvite := hP
  cases hp : s1.GetFirstGamePlayer with
  | none =>
    rw [Tick_ready_without_player env s s1 hrun hm hready hp]
    refine ⟨fun r hr => ?_, ⟨fun _ p hp2 => (by cases hp2), fun _ => Returns_ok _⟩⟩
    cases hr
    unfold ClearInviteUser
    simp only [hP1]
  | some p =>
    rw [Tick_ready_with_player env s s1 hrun hm hready p hp]
    by_cases heq : s1.PendingInvite.UserId
        = s1.PendingInvite.InviteResult.Session.OwningUserId
    · rw [if_pos heq]
      have hH := HostQuickSession_PendingInvite env (InviteCallState env s1)
        (InvitedPlayer s1 p) s1.PendingInvite.InviteResult.Session.SessionSettings
      cases hR : HostQuickSession env (InviteCallState env s1) (InvitedPlayer s1 p)
          s1.PendingInvite.InviteResult.Session.SessionSettings with
      | error t =>
        refine ⟨fun r hr => (by cases hr), ⟨fun h => absurd h (not_Returns_error t), fun h => ?_⟩⟩
        have := h p rfl heq
        rw [hR] at this
        exact absurd this (not_Returns_error t)
      | ok v =>
        rw [hR] at hH
        have hH1 : v.2.PendingInvite = (InviteCallState env s1).PendingInvite := hH
        refine ⟨fun r hr => ?_, ⟨fun _ q hq _ => ?_, fun _ => Returns_ok _⟩⟩
        · cases hr
          unfold ClearInviteUser
          simp only [hH1, InviteCallState_PendingInvite, hP1]
        · cases hq
          rw [hR]
          exact Returns_ok v
    · rw [if_neg heq]
      refine ⟨fun r hr => ?_, ⟨fun _ q _ hq => absurd hq heq, fun _ => Returns_ok _⟩⟩
      cases hr
      unfold ClearInviteUser
      simp only [JoinSession_PendingInvite, InviteCallState_PendingInvite, hP1]

/-- Witness of C24: the checked invite of `WithCheckedInvite` is consumed. -/
theorem Tick_consuming_invite_resets_user_id_witness :
    TickSkipped Env.Client = false ∧
    MaybeChangeState Env.Client WithCheckedInvite = Except.ok WithCheckedInvite ∧
    InviteReady Env.Client WithCheckedInvite ∧
    Returns (Tick Env.Client WithCheckedInvite) ∧
    (EndedCall (Tick Env.Client WithCheckedInvite)).PendingInvite
      = { WithCheckedInvite.PendingInvite with UserId := none } :=
  ⟨by decide, rfl, by decide,
    (Tick_consuming_invite_resets_user_id Env.Client WithCheckedInvite WithCheckedInvite
      (by decide) rfl (by decide)).2.2 (fun _ _ h => absurd h (by decide)),
    EndedCall_of_Returns
      (fun t => t.PendingInvite = { WithCheckedInvite.PendingInvite with UserId := none })
      (Tick Env.Client WithCheckedInvite) (by decide)
      (Tick_consuming_invite_resets_user_id Env.Client WithCheckedInvite WithCheckedInvite
        (by decide) rfl (by decide)).1⟩

/-- C25: a `Tick` that is not skipped issues a host or join for the pending
invite exactly when, after its commit step, the invite has a user id, the
privileges are checked, the current state is `PendingInvite`, the provider
reports `NoSession` and a first local player exists. The call is made in a state
whose online mode is `Online`, for the first player carrying the controller id
and user id of the invite; it is `HostQuickSession` with the invited session's
settings when the invite's user id equals the session's owning user id, and
`JoinSession` with the invite result otherwise. When the first four conditions
hold without a first player, or when they do not hold, nothing is issued: the
state is the committed one, with the user id cleared in the first case. Whenever
the first four conditions hold the user id is absent afterwards, and from a state
without user id every run of `Tick` calls is its commit steps alone. A `Tick`
whose commit step terminates the process ends there. -/
theorem Tick_issues_host_or_join (env : Env) (s : UShooterGameInstance)
    (hrun : TickSkipped env = false) :
    (∀ t, MaybeChangeState env s = Except.error t → Tick env s = Except.error t) ∧
    (∀ s1, MaybeChangeState env s = Except.ok s1 →
      (InviteReady env s1 →
        ∀ p, s1.GetFirstGamePlayer = some p →
          (InviteCallState env s1).OnlineMode = EOnlineMode.Online ∧
          (s1.PendingInvite.UserId = s1.PendingInvite.InviteResult.Session.OwningUserId →
            Tick env s =
              (HostQuickSession env (InviteCallState env s1) (InvitedPlayer s1 p)
                s1.PendingInvite.InviteResult.Session.SessionSettings).map
                (fun r => (true, ClearInviteUser r.2))) ∧
          (s1.PendingInvite.UserId ≠ s1.PendingInvite.InviteResult.Session.OwningUserId →
            Tick env s = Except.ok (true, ClearInviteUser
              (JoinSession env (InviteCallState env s1) (InvitedPlayer s1 p)
                s1.PendingInvite.InviteResult).2))) ∧
      (InviteReady env s1 → s1.GetFirstGamePlayer = none →
        Tick env s = Except.ok (true, ClearInviteUser s1)) ∧
      (¬ InviteReady env s1 → Tick env s = Except.ok (true, s1)) ∧
      (InviteReady env s1 →
        ∀ r, Tick env s = Except.ok r → r.2.PendingInvite.UserId = none)) ∧
    (∀ (envs : List Env) (t : UShooterGameInstance), t.PendingInvite.UserId = none →
      Ticks envs t = Commits envs t ∧ (Ended (Ticks envs t)).PendingInvite.UserId = none) := by
  refine ⟨fun t ht => Tick_terminated env s t hrun ht, fun s1 hm => ⟨?_, ?_, ?_, ?_⟩, ?_⟩
  · intro hready p hp
    have h := Tick_ready_with_player env s s1 hrun hm hready p hp
    refine ⟨?_, ?_, ?_⟩
    · unfold InviteCallState
      exact SetOnlineMode_OnlineMode env _ _
    · intro heq
      rw [h, if_pos heq]
    · intro hne
      rw [h, if_neg hne]
  · intro hready hp
    exact Tick_ready_without_player env s s1 hrun hm hready hp
  · intro hno
    exact Tick_not_ready env s s1 hrun hm hno
  · intro hready r hr
    cases hp : s1.GetFirstGamePlayer with
    | none =>
      rw [Tick_ready_without_player env s s1 hrun hm hready hp] at hr
      cases hr
      rfl
    | some p =>
      rw [Tick_ready_with_player env s s1 hrun hm hready p hp] at hr
      split at hr
      · cases hR : HostQuickSession env (InviteCallState env s1) (InvitedPlayer s1 p)
            s1.PendingInvite.InviteResult.Session.SessionSettings with
        | error t => rw [hR] at hr; cases hr
        | ok v =>
          rw [hR] at hr
          cases hr
          rfl
      · cases hr
        rfl
  · intro envs t ht
    exact Ticks_without_invite envs t ht

/-- Witness of C25: the invite of `WithCheckedInvite` is to a session owned by
someone else, so the `Tick` joins. -/
theorem Tick_issues_host_or_join_witness :
    TickSkipped Env.Client = false ∧
    MaybeChangeState Env.Client WithCheckedInvite = Except.ok WithCheckedInvite ∧
    Returns (Tick Env.Client WithCheckedInvite) ∧
    (EndedCall (Tick Env.Client WithCheckedInvite)).PendingInvite.UserId = none :=
  ⟨by decide, rfl, by decide,
    EndedCall_of_Returns (fun t => t.PendingInvite.UserId = none)
      (Tick Env.Client WithCheckedInvite) (by decide)
      (((Tick_issues_host_or_join Env.Client WithCheckedInvite (by decide)).2.1
        WithCheckedInvite rfl).2.2.2 (by decide))⟩

/-! ### Removing the splitscreen players -/

theorem RemoveExistingLocalPlayer_eq (s : UShooterGameInstance) (p : ULocalPlayer) :
    s.RemoveExistingLocalPlayer p =
      { s with
        LocalPlayers := s.LocalPlayers.filter fun q => q.Id != p.Id
        Trace := s.Trace ++ RemovalEvents p } := by
  unfold RemoveExistingLocalPlayer RemovalEvents
  cases hpc : p.PlayerController with
  | none => simp [emit]
  | some PC =>
    by_cases hpawn : PC.HasShooterCharacterPawn = true
    · simp [emit, hpawn]
    · simp [emit, hpawn]

/-- In a list of players with pairwise distinct identities, removing the last
player by identity leaves the players before it. -/
theorem filter_last_of_nodup (init : List ULocalPlayer) (last : ULocalPlayer)
    (h : ((init ++ [last]).map fun p => p.Id).Nodup) :
    (init ++ [last]).filter (fun q => q.Id != last.Id) = init := by
  rw [List.map_append, List.nodup_append] at h
  obtain ⟨_, _, hdis⟩ := h
  rw [List.filter_append]
  have h1 : init.filter (fun q => q.Id != last.Id) = init := by
    rw [List.filter_eq_self]
    intro q hq
    have hne : q.Id ≠ last.Id := by
      intro heq
      exact hdis (List.mem_map_of_mem _ hq) (by simp [heq])
    simpa using hne
  rw [h1]
  simp

theorem RemoveSplitScreenPlayersLoop_eq (fuel : Nat) (s : UShooterGameInstance)
    (hnd : (s.LocalPlayers.map fun p => p.Id).Nodup) (hfuel : s.LocalPlayers.length ≤ fuel + 1) :
    RemoveSplitScreenPlayersLoop fuel s = SplitScreenPlayersRemoved s := by
  have hshort : ∀ t : UShooterGameInstance, ¬ t.LocalPlayers.length > 1 →
      t = SplitScreenPlayersRemoved t := by
    intro t ht
    unfold SplitScreenPlayersRemoved
    have h1 : t.LocalPlayers.take 1 = t.LocalPlayers :=
      List.take_of_length_le (by omega)
    have h2 : t.LocalPlayers.drop 1 = [] := List.drop_of_length_le (by omega)
    rw [h1, h2]
    simp
  induction fuel generalizing s with
  | zero =>
    unfold RemoveSplitScreenPlayersLoop
    exact hshort s (by omega)
  | succ n ih =>
    unfold RemoveSplitScreenPlayersLoop
    split
    · rename_i hlen
      cases hlast : s.LocalPlayers.getLast? with
      | none =>
        rw [List.getLast?_eq_none_iff] at hlast
        rw [hlast] at hlen
        simp at hlen
      | some last =>
        simp only []
        have hsplit : s.LocalPlayers.dropLast ++ [last] = s.LocalPlayers :=
          List.dropLast_append_getLast? last (by rw [hlast]; exact rfl)
        have hne : s.LocalPlayers.dropLast ≠ [] := by
          intro h0
          have := congrArg List.length hsplit
          rw [h0] at this
          simp at this
          omega
        obtain ⟨a, as, has⟩ := List.exists_cons_of_ne_nil hne
        have hfilter : s.LocalPlayers.filter (fun q => q.Id != last.Id)
            = s.LocalPlayers.dropLast := by
          have := filter_last_of_nodup s.LocalPlayers.dropLast last (by rw [hsplit]; exact hnd)
          rw [hsplit] at this
          exact this
        have hl : s.LocalPlayers = a :: (as ++ [last]) := by
          rw [← hsplit, has]
          rfl
        rw [RemoveExistingLocalPlayer_eq, hfilter]
        rw [ih]
        · unfold SplitScreenPlayersRemoved
          simp only []
          rw [has, hl]
          simp [List.append_assoc]
        · simp only []
          rw [← hsplit, List.map_append, List.nodup_append] at hnd
          exact hnd.1
        · simp only [List.length_dropLast]
          omega
    · rename_i hlen
      exact hshort s hlen


/-- C27: for every list of local players in which each player occurs once (so
that removing a player deletes exactly that player), `RemoveSplitScreenPlayers`
terminates: the loop reaches its exit test within `length - 1` rounds, and more
rounds change nothing. It removes the players after the first one at a time, the
last one first and the second one last, and nothing else happens. It leaves the
empty list when the list was empty and the first player alone otherwise, and the
first player is not among the removed ones. -/
theorem RemoveSplitScreenPlayers_leaves_first_player (s : UShooterGameInstance)
    (hnd : (s.LocalPlayers.map fun p => p.Id).Nodup) :
    (∀ fuel, s.LocalPlayers.length ≤ fuel + 1 →
      RemoveSplitScreenPlayersLoop fuel s = s.RemoveSplitScreenPlayers) ∧
    s.RemoveSplitScreenPlayers.Trace =
      s.Trace ++ ((s.LocalPlayers.drop 1).reverse.map RemovalEvents).flatten ∧
    (s.LocalPlayers = [] → s.RemoveSplitScreenPlayers.LocalPlayers = []) ∧
    (∀ p ps, s.LocalPlayers = p :: ps →
      s.RemoveSplitScreenPlayers.LocalPlayers = [p] ∧
      Event.RemoveLocalPlayer p.Id ∉
        ((s.LocalPlayers.drop 1).reverse.map RemovalEvents).flatten) := by
  have hfin : s.RemoveSplitScreenPlayers = SplitScreenPlayersRemoved s :=
    RemoveSplitScreenPlayersLoop_eq _ s hnd (Nat.le_succ _)
  refine ⟨?_, ?_, ?_, ?_⟩
  · intro fuel hfuel
    rw [hfin]
    exact RemoveSplitScreenPlayersLoop_eq fuel s hnd hfuel
  · rw [hfin]
    rfl
  · intro hnil
    rw [hfin]
    unfold SplitScreenPlayersRemoved
    simp [hnil]
  · intro p ps hl
    constructor
    · rw [hfin]
      unfold SplitScreenPlayersRemoved
      simp [hl]
    · rw [hl] at hnd ⊢
      simp only [List.map_cons, List.nodup_cons, List.mem_map, not_exists, not_and] at hnd
      simp only [List.drop_one, List.tail_cons, List.mem_flatten, List.mem_map,
        List.mem_reverse, not_exists, not_and]
      rintro evs ⟨q, hq, rfl⟩ hmem
      unfold RemovalEvents at hmem
      have hid : p.Id = q.Id := by
        cases hpc : q.PlayerController with
        | none => simpa [hpc] using hmem
        | some PC =>
          by_cases hpawn : PC.HasShooterCharacterPawn = true
          · simpa [hpc, hpawn] using hmem
          · simpa [hpc, hpawn] using hmem
      exact hnd.1 q hq hid.symm

/-- Witness of C27: two players, the second one a guest. -/
theorem RemoveSplitScreenPlayers_leaves_first_player_witness :
    (JoiningWithUnsignedGuest.LocalPlayers.map fun p => p.Id).Nodup ∧
    JoiningWithUnsignedGuest.RemoveSplitScreenPlayers.LocalPlayers = [SignedInPlayer] :=
  ⟨by decide, ((RemoveSplitScreenPlayers_leaves_first_player JoiningWithUnsignedGuest
    (by decide)).2.2.2 SignedInPlayer [UnsignedPlayer] rfl).1⟩


/-! ### The map name of a travel URL -/

theorem StartsWithIgnoreCase_self_append (sub rest : List Char) :
    FString.StartsWithIgnoreCase sub (sub ++ rest) = true := by
  induction sub with
  | nil => rfl
  | cons a sub ih => simp [FString.StartsWithIgnoreCase, ih]

/-- An occurrence of "?game" at the head of `M ++ "?game" ++ rest` lies inside a
non-empty `M`: the question mark occurs in "?game" at the front only. -/
theorem StartsWithIgnoreCase_game_no_straddle (c : Char) (M rest : List Char)
    (h : FString.StartsWithIgnoreCase "?game".data (c :: M) = false) :
    FString.StartsWithIgnoreCase "?game".data (c :: M ++ "?game".data ++ rest) = false := by
  have hd : "?game".data = ['?', 'g', 'a', 'm', 'e'] := rfl
  have hg : (('g' : Char).toLower == ('?' : Char).toLower) = false := by decide
  have ha : (('a' : Char).toLower == ('?' : Char).toLower) = false := by decide
  have hm : (('m' : Char).toLower == ('?' : Char).toLower) = false := by decide
  have he : (('e' : Char).toLower == ('?' : Char).toLower) = false := by decide
  rw [hd] at h ⊢
  match M, h with
  | [], _ => simp [FString.StartsWithIgnoreCase, hg]
  | [_], _ => simp [FString.StartsWithIgnoreCase, ha]
  | [_, _], _ => simp [FString.StartsWithIgnoreCase, hm]
  | [_, _, _], _ => simp [FString.StartsWithIgnoreCase, he]
  | c2 :: c3 :: c4 :: c5 :: M2, h =>
    simp only [FString.StartsWithIgnoreCase, List.cons_append] at h ⊢
    exact h

theorem FindFrom_absent_cons (sub : List Char) (c : Char) (M : List Char) (i : Nat)
    (h : FString.FindFrom sub (c :: M) i = -1) :
    FString.StartsWithIgnoreCase sub (c :: M) = false ∧ FString.FindFrom sub M (i + 1) = -1 := by
  unfold FString.FindFrom at h
  by_cases hs : FString.StartsWithIgnoreCase sub (c :: M) = true
  · rw [if_pos hs] at h
    omega
  · rw [if_neg hs] at h
    exact ⟨by simpa using hs, h⟩

/-- The first occurrence of "?game" in `M ++ "?game" ++ rest` is right after `M`
when `M` holds no occurrence. -/
theorem FindFrom_game_after (M rest : List Char) (i : Nat)
    (h : FString.FindFrom "?game".data M i = -1) :
    FString.FindFrom "?game".data (M ++ "?game".data ++ rest) i = (i + M.length : Nat) := by
  induction M generalizing i with
  | nil =>
    have hd : "?game".data = ['?', 'g', 'a', 'm', 'e'] := rfl
    have hs := StartsWithIgnoreCase_self_append "?game".data rest
    rw [hd] at hs ⊢
    simp only [List.nil_append, List.cons_append] at hs ⊢
    unfold FString.FindFrom
    rw [if_pos hs]
    simp
  | cons c M ih =>
    obtain ⟨h1, h2⟩ := FindFrom_absent_cons _ c M i h
    have h3 : FString.StartsWithIgnoreCase "?game".data (c :: (M ++ "?game".data ++ rest))
        = false := StartsWithIgnoreCase_game_no_straddle c M rest h1
    show FString.FindFrom "?game".data (c :: (M ++ "?game".data ++ rest)) i = _
    rw [FString.FindFrom, if_neg (by rw [h3]; exact Bool.false_ne_true), ih (i + 1) h2]
    simp only [List.length_cons]
    congr 1
    omega

/-- C29, counterexample: the map name "A?GAMEX" does not contain "?game", but
the search of `Find` ignores case and stops at "?GAME": the derived map name is
"A". -/
theorem MapNameOfTravelURL_stops_at_other_case :
    ¬ List.IsInfix "?game".data "A?GAMEX".data ∧
    MapNameOfTravelURL ("/Game/Maps/" ++ "A?GAMEX" ++ "?game" ++ "=TDM") = "A" ∧
    ("A" : String) ≠ "A?GAMEX" := by
  decide

/-- C29, amended: for every travel URL made of "/Game/Maps/", a map name `M` in
which `FString::Contains` finds no "?game" (in any letter case), "?game" and any
remainder, the map name derived from the URL equals `M`; for the quick-match URL
it is "Highrise". -/
theorem MapNameOfTravelURL_derives_map_name (M rest : String)
    (h : FString.Contains M "?game" = false) :
    MapNameOfTravelURL ("/Game/Maps/" ++ M ++ "?game" ++ rest) = M ∧
    MapNameOfTravelURL GetQuickMatchUrl = "Highrise" := by
  refine ⟨?_, by decide⟩
  have hfind : FString.FindFrom "?game".data M.data 0 = -1 := by
    unfold FString.Contains FString.Find at h
    simpa using h
  have hpos := FindFrom_game_after M.data rest.data 0 hfind
  have hdata : ("/Game/Maps/" ++ M ++ "?game" ++ rest).data
      = "/Game/Maps/".data ++ (M.data ++ "?game".data ++ rest.data) := by
    simp only [String.data_append, List.append_assoc]
  have hlen : "/Game/Maps/".data.length = 11 := rfl
  have hsub : "?game".data.length = 5 := rfl
  unfold MapNameOfTravelURL
  simp only []
  have hchop : FString.RightChop ("/Game/Maps/" ++ M ++ "?game" ++ rest)
      (FString.Len "/Game/Maps/") = ⟨M.data ++ "?game".data ++ rest.data⟩ := by
    unfold FString.RightChop FString.Len FString.Clamp
    rw [hdata]
    simp only [List.length_append, hlen, hsub]
    rw [if_neg (by omega), if_pos (by omega)]
    have : ((11 : Nat) : Int).toNat = "/Game/Maps/".data.length := by rw [hlen]; rfl
    rw [this, List.drop_left]
  rw [hchop]
  unfold FString.LeftChop FString.Find FString.Len FString.Clamp
  simp only []
  rw [hpos]
  simp only [List.length_append, hsub, Nat.zero_add]
  rw [if_neg (by omega), if_pos (by omega)]
  have : (((M.data.length + 5 + rest.data.length : Nat) : Int)
      - (((M.data.length + 5 + rest.data.length : Nat) : Int) - (M.data.length : Int))).toNat
      = M.data.length := by omega
  rw [this, List.append_assoc, List.take_left]

/-- Witness of C29: the quick-match URL, taken apart. -/
theorem MapNameOfTravelURL_derives_map_name_witness :
    FString.Contains "Highrise" "?game" = false ∧
    MapNameOfTravelURL ("/Game/Maps/" ++ "Highrise" ++ "?game" ++ "=TDM?listen") = "Highrise" :=
  ⟨by decide, (MapNameOfTravelURL_derives_map_name "Highrise" "=TDM?listen" (by decide)).1⟩

end UShooterGameInstance

namespace AShooterGame_FreeForAll

/-! ### The winner of a free-for-all match -/

theorem count_unique (l : List ℚ) (x : ℚ) (j k : Nat) (hc : l.count x = 1)
    (hj : l[j]? = some x) (hk : l[k]? = some x) : j = k := by
  induction l generalizing j k with
  | nil => simp at hj
  | cons a l ih =>
    have hmem : ∀ n, l[n]? = some x → 0 < l.count x := fun n hn =>
      List.count_pos_iff.2 (List.mem_iff_getElem?.2 ⟨n, hn⟩)
    cases j with
    | zero =>
      cases k with
      | zero => rfl
      | succ k =>
        simp only [List.getElem?_cons_zero, Option.some.injEq] at hj
        simp only [List.getElem?_cons_succ] at hk
        have := hmem k hk
        rw [hj, List.count_cons_self] at hc
        omega
    | succ j =>
      simp only [List.getElem?_cons_succ] at hj
      cases k with
      | zero =>
        simp only [List.getElem?_cons_zero, Option.some.injEq] at hk
        have := hmem j hj
        rw [hk, List.count_cons_self] at hc
        omega
      | succ k =>
        simp only [List.getElem?_cons_succ] at hk
        have hne : a ≠ x := by
          intro h
          have := hmem j hj
          rw [h, List.count_cons_self] at hc
          omega
        rw [List.count_cons_of_ne (Ne.symm hne)] at hc
        rw [ih j k hc hj hk]

theorem count_one_of_unique (l : List ℚ) (x : ℚ) (i : Nat) (hi : l[i]? = some x)
    (hother : ∀ j y, j ≠ i → l[j]? = some y → y ≠ x) : l.count x = 1 := by
  induction l generalizing i with
  | nil => simp at hi
  | cons a l ih =>
    cases i with
    | zero =>
      simp only [List.getElem?_cons_zero, Option.some.injEq] at hi
      have h0 : l.count x = 0 := by
        rw [List.count_eq_zero]
        intro hmem
        obtain ⟨n, hn⟩ := List.getElem?_of_mem hmem
        exact hother (n + 1) x (by omega) (by simpa using hn) rfl
      rw [hi, List.count_cons_self, h0]
    | succ i =>
      simp only [List.getElem?_cons_succ] at hi
      have hne : a ≠ x := hother 0 a (by omega) (by simp)
      rw [List.count_cons_of_ne (Ne.symm hne)]
      exact ih i hi (fun j y hj hy => hother (j + 1) y (by omega) (by simpa using hy))

theorem LoopInvariant_Step (T : ℚ) (P : List ℚ) (b : BestSoFar) (x : ℚ)
    (h : LoopInvariant T P b) : LoopInvariant T (P ++ [x]) (Step b P.length x) := by
  obtain ⟨hT, hmax, hnum, hbest⟩ := h
  unfold Step
  by_cases h1 : b.BestScore < x
  · rw [if_pos h1]
    refine ⟨le_of_lt (lt_of_le_of_lt hT h1), ?_, ?_, Or.inr ⟨P.length, rfl, ?_, lt_of_le_of_lt hT h1⟩⟩
    · intro y hy
      rcases List.mem_append.1 hy with hy | hy
      · exact le_of_lt (lt_of_le_of_lt (hmax y hy) h1)
      · simp only [List.mem_singleton] at hy
        rw [hy]
    · have h0 : P.count x = 0 := by
        rw [List.count_eq_zero]
        intro hmem
        exact absurd (hmax x hmem) (not_le.2 h1)
      simp [List.count_append, h0]
    · simp
  · rw [if_neg h1]
    by_cases h2 : b.BestScore = x
    · rw [if_pos h2]
      refine ⟨hT, ?_, ?_, ?_⟩
      · intro y hy
        rcases List.mem_append.1 hy with hy | hy
        · exact hmax y hy
        · simp only [List.mem_singleton] at hy
          rw [hy, h2]
      · show b.NumBestPlayers + 1 = _
        rw [hnum, List.count_append, h2]
        simp
      · rcases hbest with hb | ⟨k, hk, hget, hlt⟩
        · exact Or.inl hb
        · refine Or.inr ⟨k, hk, ?_, hlt⟩
          have hklt : k < P.length := by
            by_contra hge
            rw [List.getElem?_eq_none (by omega)] at hget
            simp at hget
          rw [List.getElem?_append_left hklt]
          exact hget
    · rw [if_neg h2]
      have hlt : x < b.BestScore := lt_of_le_of_ne (not_lt.1 h1) (fun h => h2 h.symm)
      refine ⟨hT, ?_, ?_, ?_⟩
      · intro y hy
        rcases List.mem_append.1 hy with hy | hy
        · exact hmax y hy
        · simp only [List.mem_singleton] at hy
          rw [hy]
          exact le_of_lt hlt
      · rw [hnum, List.count_append]
        have : [x].count b.BestScore = 0 := by
          rw [List.count_eq_zero]
          simp only [List.mem_singleton]
          exact fun h => h2 h
        rw [this]
        rfl
      · rcases hbest with hb | ⟨k, hk, hget, hlt2⟩
        · exact Or.inl hb
        · refine Or.inr ⟨k, hk, ?_, hlt2⟩
          have hklt : k < P.length := by
            by_contra hge
            rw [List.getElem?_eq_none (by omega)] at hget
            simp at hget
          rw [List.getElem?_append_left hklt]
          exact hget

theorem LoopInvariant_Loop (T : ℚ) (R P : List ℚ) (b : BestSoFar)
    (h : LoopInvariant T P b) : LoopInvariant T (P ++ R) (Loop R P.length b) := by
  induction R generalizing P b with
  | nil =>
    unfold Loop
    simpa using h
  | cons x R ih =>
    unfold Loop
    have := ih (P ++ [x]) (Step b P.length x) (LoopInvariant_Step T P b x h)
    simpa using this

theorem LoopInvariant_final (T : ℚ) (l : List ℚ) :
    LoopInvariant T l (Loop l 0 ⟨T, -1, 0⟩) := by
  have h0 : LoopInvariant T [] ⟨T, -1, 0⟩ := ⟨le_refl T, by simp, by simp, Or.inl ⟨rfl, rfl⟩⟩
  simpa using LoopInvariant_Loop T l [] _ h0

/-- The result of `DetermineMatchWinner` in terms of the scores: player `i` is
the winner exactly when its score is above the threshold and strictly above every
other score, and the array is read at index -1, before its first element,
exactly when no score is above the threshold and exactly one score equals it. -/
theorem DetermineMatchWinner_spec (T : ℚ) (l : List ℚ) :
    (∀ i, DetermineMatchWinner T l = Except.ok (some i) ↔ IsStrictBest T l i) ∧
    (∀ k, DetermineMatchWinner T l = Except.error k ↔
      k = -1 ∧ (∀ x ∈ l, x ≤ T) ∧ l.count T = 1) := by
  have inv := LoopInvariant_final T l
  unfold DetermineMatchWinner
  simp only []
  generalize Loop l 0 ⟨T, -1, 0⟩ = b at inv ⊢
  obtain ⟨hT, hmax, hnum, hbest⟩ := inv
  have hbound : ∀ k : Nat, l[k]? = some b.BestScore → k < l.length := by
    intro k hget
    by_contra hge
    rw [List.getElem?_eq_none (by omega)] at hget
    simp at hget
  constructor
  · intro i
    constructor
    · intro h
      by_cases hn : b.NumBestPlayers = 1
      · rw [if_pos hn] at h
        by_cases hb : 0 ≤ b.BestPlayer ∧ b.BestPlayer < l.length
        · rw [if_pos hb] at h
          rcases hbest with ⟨hneg, _⟩ | ⟨k, hk, hget, hlt⟩
          · omega
          · have hik : i = k := by
              simp only [Except.ok.injEq, Option.some.injEq] at h
              omega
            subst hik
            refine ⟨b.BestScore, hget, hlt, ?_⟩
            intro j y hj hy
            refine lt_of_le_of_ne (hmax y (List.mem_iff_getElem?.2 ⟨j, hy⟩)) ?_
            intro heq
            rw [heq] at hy
            exact hj (count_unique l b.BestScore j i (by rw [← hnum]; exact hn) hy hget)
        · rw [if_neg hb] at h
          simp at h
      · rw [if_neg hn] at h
        simp at h
    · rintro ⟨x, hx, hTx, hother⟩
      have hxle : x ≤ b.BestScore := hmax x (List.mem_iff_getElem?.2 ⟨i, hx⟩)
      rcases hbest with ⟨_, hbT⟩ | ⟨k, hk, hget, hlt⟩
      · rw [hbT] at hxle
        exact absurd hTx (not_lt.2 hxle)
      · have hki : k = i := by
          by_contra hne
          exact absurd (hother k b.BestScore hne hget) (not_lt.2 hxle)
        subst hki
        have hbx : b.BestScore = x := by
          rw [hget] at hx
          exact Option.some.inj hx
        have hone : b.NumBestPlayers = 1 := by
          rw [hnum, hbx]
          exact count_one_of_unique l x k hx (fun j y hj hy => ne_of_lt (hother j y hj hy))
        have hlen := hbound k hget
        rw [if_pos hone, if_pos (by omega)]
        simp only [Except.ok.injEq, Option.some.injEq]
        omega
  · intro k
    constructor
    · intro h
      by_cases hn : b.NumBestPlayers = 1
      · rw [if_pos hn] at h
        by_cases hb : 0 ≤ b.BestPlayer ∧ b.BestPlayer < l.length
        · rw [if_pos hb] at h
          simp at h
        · rw [if_neg hb] at h
          simp only [Except.error.injEq] at h
          rcases hbest with ⟨hneg, hbT⟩ | ⟨j, hj, hget, _⟩
          · refine ⟨by omega, ?_, ?_⟩
            · intro x hx
              rw [← hbT]
              exact hmax x hx
            · rw [← hbT, ← hnum]
              exact hn
          · have := hbound j hget
            omega
      · rw [if_neg hn] at h
        simp at h
    · rintro ⟨hk, hle, hcount⟩
      rcases hbest with ⟨hneg, hbT⟩ | ⟨j, _, hget, hlt⟩
      · have hone : b.NumBestPlayers = 1 := by rw [hnum, hbT]; exact hcount
        rw [if_pos hone, if_neg (by omega), hneg, hk]
      · exact absurd hlt (not_lt.2 (hle _ (List.mem_iff_getElem?.2 ⟨j, hget⟩)))

/-- C28: the code at a failing input. With a single player whose score equals
the initial best score, no score is above the threshold and player 0 is not the
winner of the specification, but the loop counts the player as a tie with the
initial value: `NumBestPlayers` is 1 while `BestPlayer` is still -1, and the
array is read at index -1. -/
theorem DetermineMatchWinner_reads_before_the_array (T : ℚ) :
    DetermineMatchWinner T [T] = Except.error (-1) ∧
    Loop [T] 0 ⟨T, -1, 0⟩ = ⟨T, -1, 1⟩ ∧
    ¬ IsStrictBest T [T] 0 := by
  refine ⟨?_, ?_, ?_⟩
  · simp [DetermineMatchWinner, Loop, Step]
  · simp [Loop, Step]
  · rintro ⟨x, hx, hlt, _⟩
    simp only [List.getElem?_cons_zero, Option.some.injEq] at hx
    rw [hx] at hlt
    exact lt_irrefl x hlt

end AShooterGame_FreeForAll

namespace AShooterPickup_Health

/-! ### The health pickup -/

theorem ToInt32_of_range (x : Int) (hlo : -2 ^ 31 ≤ x) (hhi : x < 2 ^ 31) : ToInt32 x = x := by
  unfold ToInt32
  have : (x + 2 ^ 31) % 2 ^ 32 = x + 2 ^ 31 := Int.emod_eq_of_lt (by omega) (by omega)
  omega

theorem IntToFloat_of_range (n : Int) (h : n.natAbs ≤ 2 ^ 24) : IntToFloat n = n := by
  unfold IntToFloat RoundToFloat
  rw [if_pos h]

/-- A number is below its truncation plus one. -/
theorem lt_Trunc_add_one (x : ℚ) : x < (Trunc x : ℚ) + 1 := by
  unfold Trunc
  split
  · exact Int.lt_floor_add_one x
  · have := Int.le_ceil x
    linarith

/-- Truncation keeps a number between two integers that bound it. -/
theorem Trunc_bounds (x : ℚ) (lo hi : Int) (hlo : (lo : ℚ) ≤ x) (hhi : x ≤ hi) :
    lo ≤ Trunc x ∧ Trunc x ≤ hi := by
  unfold Trunc
  split
  · exact ⟨Int.le_floor.2 hlo, Int.cast_le.1 (le_trans (Int.floor_le x) hhi)⟩
  · exact ⟨Int.cast_le.1 (le_trans hlo (Int.le_ceil x)), Int.ceil_le.2 hhi⟩

/-- C30, counterexample: a pawn with health 1 of 100 can pick up, and a pickup
of 2147483647 makes the 32-bit sum wrap to -2147483648, which is below 100 and
becomes the new health: the health dropped. -/
theorem GivePickupTo_wraps_around :
    CanBePickedUp (some ⟨1, 100⟩) = true ∧
    GivePickupTo 2147483647 (some ⟨1, 100⟩) = some ⟨-2147483648, 100⟩ ∧
    (-2147483648 : ℚ) < 1 := by
  have h1 : TruncToInt 1 = 1 := by simp [TruncToInt, Trunc]
  have h2 : RoundToFloat (min (ToInt32 (1 + 2147483647)) 100) = -2147483648 := by decide
  refine ⟨by decide, ?_, by norm_num⟩
  simp only [GivePickupTo, h1, IntToFloat, h2]
  norm_num

/-- C30, amended: for every pawn for which `CanBePickedUp` holds, whose health
is at least -2^24 and whose maximum health lies between -2^24 and 2^24 (the
range in which `int32` and `float` agree), and for every pickup amount of at
least 1 for which the sum of the truncated health and the amount does not exceed
2^31 - 1, `GivePickupTo` sets the health to the minimum of that sum and the
maximum health; the new health does not exceed the maximum health and is
strictly greater than the old health. -/
theorem GivePickupTo_raises_health (P : AShooterCharacter) (Health : Int)
    (hcan : CanBePickedUp (some P) = true) (hamount : 1 ≤ Health)
    (hlo : -(2 : ℚ) ^ 24 ≤ P.Health)
    (hmaxlo : -2 ^ 24 ≤ P.MaxHealth) (hmaxhi : P.MaxHealth ≤ 2 ^ 24)
    (hsum : Trunc P.Health + Health ≤ 2 ^ 31 - 1) :
    GivePickupTo Health (some P) =
      some { P with Health := ((min (Trunc P.Health + Health) P.MaxHealth : Int) : ℚ) } ∧
    ((min (Trunc P.Health + Health) P.MaxHealth : Int) : ℚ) ≤ P.MaxHealth ∧
    P.Health < ((min (Trunc P.Health + Health) P.MaxHealth : Int) : ℚ) := by
  have hM : IntToFloat P.MaxHealth = P.MaxHealth := IntToFloat_of_range _ (by omega)
  have hlt : P.Health < P.MaxHealth := by
    simpa [CanBePickedUp, hM] using hcan
  have hhi : (P.MaxHealth : ℚ) ≤ 2 ^ 24 := by exact_mod_cast hmaxhi
  obtain ⟨ht1, ht2⟩ := Trunc_bounds P.Health (-2 ^ 24) (2 ^ 24)
    (by push_cast; exact hlo) (by push_cast; linarith)
  have hT : TruncToInt P.Health = Trunc P.Health := by
    unfold TruncToInt
    rw [if_pos ⟨by omega, by omega⟩]
  have hS : ToInt32 (Trunc P.Health + Health) = Trunc P.Health + Health :=
    ToInt32_of_range _ (by omega) (by omega)
  have hm : (min (Trunc P.Health + Health) P.MaxHealth).natAbs ≤ 2 ^ 24 := by omega
  refine ⟨?_, ?_, ?_⟩
  · unfold GivePickupTo
    simp only [hT, hS]
    rw [IntToFloat_of_range _ hm]
  · exact_mod_cast min_le_right (Trunc P.Health + Health) P.MaxHealth
  · rw [Int.cast_min]
    apply lt_min
    · have h1 := lt_Trunc_add_one P.Health
      have h2 : (1 : ℚ) ≤ Health := by exact_mod_cast hamount
      push_cast
      linarith
    · exact hlt

/-- Witness of C30: the default pickup of 50 for a pawn with health 50 of 100. -/
theorem GivePickupTo_raises_health_witness :
    CanBePickedUp (some ⟨50, 100⟩) = true ∧
    GivePickupTo 50 (some ⟨50, 100⟩) =
      some { (⟨50, 100⟩ : AShooterCharacter) with
        Health := ((min (Trunc 50 + 50) 100 : Int) : ℚ) } :=
  ⟨by decide, (GivePickupTo_raises_health ⟨50, 100⟩ 50 (by decide) (by decide) (by norm_num)
    (by decide) (by decide) (by simp [Trunc])).1⟩

end AShooterPickup_Health

end ShooterGame
